import Mathlib

/-!
Radar sensor fusion: a shallow embedding of the fusion core.

The embedding follows the C sources of the fusion core (`kalman_utils.c`,
`radar_utils.c`, `tracking.c`, `fusion_utils.c`, `fusion.c`).

Conventions of the embedding.

* `f32_t` values are rational numbers: unless a statement names the binary32
  rounding, it is a statement in exact arithmetic.  The binary32 rounding of a
  single operation is `roundF32`; the functions whose name ends in `F32` round
  every operation.
* C arrays of fixed size are vectors of that length; a read `a[k]` is
  `a.get k` and a write `a[k] = v` is `a.set k v`.
* A `for` loop whose guard is a comparison of signed values (`i < KALMAN_STATES`,
  `i < NUM_FUSED_OBJ`) is a left fold over the list of the indices the loop visits, in
  the order in which it visits them.
* The loops of `DecomposeUD`, `FuseState` and `EstimateCovariance` compare counters of
  the type `s16_t` with expressions of the type `unsigned int` (`j >= 0u`,
  `i <= j - 1u`).  They are embedded at machine level: the counters are integers that
  are converted as C converts them, every array access is checked against the bounds
  of the array, and a run is an `Outcome` (a value returned, an array indexed out of
  its bounds, or the passes allowed to a loop used up).
* A loop that can `break` is a structural recursion over the list of indices
  that stops at the `break`.
* An out-parameter that a function writes on some paths only is an `Option`
  (`none`: never written); using it while it is `none` makes the caller
  return `none`.  A function that calls the kernel returns an `Option`, which is
  `none` when the call of the kernel does not return.
* File-scope variables (the matrices of `tracking.c`, the gating parameters of
  `fusion_utils.c`) and the tunables of `config.h` are explicit arguments.
-/

namespace RadarFusion

open Mathlib (Vector)

/-! ## Constants and types (`common_types.h`, `constants.h`, `algorithm_types.h`) -/

/-- `KALMAN_STATES` (`STATE_MAX`). -/
abbrev KALMAN_STATES : Nat := 4

/-- `NUM_FUSED_OBJ` (`NUM_TX_OBJS`). -/
abbrev NUM_FUSED_OBJ : Nat := 16

/-- `NUM_SENSORS`. -/
abbrev NUM_SENSORS : Nat := 4

/-- `INVALID_ID`. -/
def INVALID_ID : Nat := 0

/-- `MAX_ID`. -/
def MAX_ID : Nat := 32

/-- `U8_MAX`. -/
def U8_MAX : Nat := 255

/-- `U16_MAX`. -/
def U16_MAX : Nat := 65535

/-- `MAX_PRIORITY`. -/
def MAX_PRIORITY : ℚ := 150

/-- `INVALID_SIMILARITY_VALUE`. -/
def INVALID_SIMILARITY_VALUE : ℚ := -1

/-- `INVALID_GATING_VALUE`. -/
def INVALID_GATING_VALUE : ℚ := INVALID_SIMILARITY_VALUE

/-- `MAX_SIMILARITY_VALUE`. -/
def MAX_SIMILARITY_VALUE : ℚ := 1000

/-- `STATE_GATING_VALUE_MIN_LIMIT` (`0.1f`). -/
def STATE_GATING_VALUE_MIN_LIMIT : ℚ := 1 / 10

/-- `CYCLE_TIME` (`0.04f`). -/
def CYCLE_TIME : ℚ := 4 / 100

/-- `STATE_X`. -/
abbrev STATE_X : Fin 4 := 0

/-- `STATE_Y`. -/
abbrev STATE_Y : Fin 4 := 1

/-- `STATE_VX`. -/
abbrev STATE_VX : Fin 4 := 2

/-- `STATE_VY`. -/
abbrev STATE_VY : Fin 4 := 3

/-- The indices `0, 1, 2, 3` visited by `for (i = 0u; i < KALMAN_STATES; i++)`. -/
def states : List (Fin 4) := [0, 1, 2, 3]

/-- The indices `3, 2, 1, 0`, which `for (j = KALMAN_STATES - 1u; j >= 0u; j--)` is meant
to visit. -/
def statesDown : List (Fin 4) := [3, 2, 1, 0]

/-- The indices `j, ..., 0`, which `for (i = j; i >= 0u; i--)` is meant to visit. -/
def downFrom (j : Fin 4) : List (Fin 4) := statesDown.filter (fun i => i ≤ j)

/-- The row-major index `(KALMAN_STATES * i) + j` of a full matrix. -/
def sq (i j : Fin 4) : Fin 16 := ⟨4 * i.val + j.val, by omega⟩

/-- The macro `GET_UPPER_INDEX(i, j, KALMAN_STATES)`,
`((N)*(i)) - (((i)*((i) - 1u)) / 2u)) + ((j)-(i))`; the sources use it with
`i ≤ j` only. -/
def GET_UPPER_INDEX (i j : Fin 4) : Fin 10 :=
  ⟨4 * i.val - (i.val * (i.val - 1)) / 2 + (j.val - i.val), by
    revert i j; decide⟩

/-! ## The loop guards of `kalman_utils.c` at machine level

The loop counters of `kalman_utils.c` are of the type `s16_t` and are compared with
expressions of the type `unsigned int` (`j >= 0u`, `i <= j - 1u`); by the usual arithmetic
conversions the counter is converted to `unsigned int` (32 bits) before the comparison. -/

/-- The conversion of an integer to `unsigned int` (32 bits). -/
def toU32 (x : Int) : Nat := (x % 4294967296).toNat

/-- The conversion of an integer to `s16_t` (two's complement). -/
def toS16 (x : Int) : Int := (x + 32768) % 65536 - 32768

/-- The guard `j >= 0u` for a counter `j` of the type `s16_t`. -/
def GuardGeZeroU (j : Int) : Bool := decide (toU32 j ≥ toU32 0)

/-- The guard `i <= j - 1u` for counters `i`, `j` of the type `s16_t`. -/
def GuardLeMinusOneU (i j : Int) : Bool :=
  decide (toU32 i ≤ (toU32 j + 4294967295) % 4294967296)

/-- The value of the macro `GET_UPPER_INDEX(i, j, KALMAN_STATES)`,
`(((N)*(i)) - (((i)*((i) - 1u)) / 2u)) + ((j)-(i))`, for counters of the type `s16_t`: the
product `N * i` and the difference `j - i` are of the type `int`, the other operations are
of the type `unsigned int`. -/
def UpperIndexU (i j : Int) : Nat :=
  (toU32 (4 * i) +
    (4294967296 - (toU32 i * ((toU32 i + 4294967295) % 4294967296)) % 4294967296 / 2) +
    toU32 (j - i)) % 4294967296

/-- The outcome of a loop run at machine level: the loop has been left by its guard, an
array has been indexed out of its bounds, or the passes allowed have been used up; with
the values of the counters at the passes made. -/
inductive Run (α : Type) where
  | finished (visited : List α)
  | outOfBounds (visited : List α) (last : α)
  | outOfFuel (visited : List α)
  deriving DecidableEq

/-- The inner loop `for (i = j; i >= 0u; i--)` of `DecomposeUD`, from the value `i` of the
counter, for at most `fuel` passes; the body reads `UDU[(KALMAN_STATES * i) + j]`. -/
def DecomposeUDInnerMachine (j : Int) : Nat → Int → List (Int × Int) → Run (Int × Int)
  | 0, _, visited => Run.outOfFuel visited
  | fuel + 1, i, visited =>
    if GuardGeZeroU i then
      if 0 ≤ 4 * i + j ∧ 4 * i + j < 16 then
        DecomposeUDInnerMachine j fuel (toS16 (i - 1)) (visited ++ [(j, i)])
      else Run.outOfBounds visited (j, i)
    else Run.finished visited

/-- The outer loop `for (j = KALMAN_STATES - 1u; j >= 0u; j--)` of `DecomposeUD`, from the
value `j` of the counter, for at most `fuel` passes of each loop. -/
def DecomposeUDMachine : Nat → Int → List (Int × Int) → Run (Int × Int)
  | 0, _, visited => Run.outOfFuel visited
  | fuel + 1, j, visited =>
    if GuardGeZeroU j then
      match DecomposeUDInnerMachine j (fuel + 1) j visited with
      | Run.finished v => DecomposeUDMachine fuel (toS16 (j - 1)) v
      | r => r
    else Run.finished visited

/-- The sweep `for (i = 0u; i <= j - 1u; i++)` of `FuseState`, from the value `i` of the
counter, for at most `fuel` passes; the body indexes `transformation` and `tempVector2`
with `i` and `outputQu` with `GET_UPPER_INDEX(i, j, KALMAN_STATES)`. -/
def FuseStateSweepMachine (j : Int) : Nat → Int → List Int → Run Int
  | 0, _, visited => Run.outOfFuel visited
  | fuel + 1, i, visited =>
    if GuardLeMinusOneU i j then
      if 0 ≤ i ∧ i < 4 ∧ UpperIndexU i j < 10 then
        FuseStateSweepMachine j fuel (toS16 (i + 1)) (visited ++ [i])
      else Run.outOfBounds visited i
    else Run.finished visited

/-- The sweep `for (k = 0u; k <= j - 1u; k++)` of the first loop nest of
`EstimateCovariance` in the row `i`, from the value `k` of the counter, for at most `fuel`
passes; the body indexes `inputF` with `(KALMAN_STATES * i) + k` and `outputQu` with
`GET_UPPER_INDEX(k, j, KALMAN_STATES)`. -/
def EstimateCovarianceSweepMachine (i j : Int) : Nat → Int → List Int → Run Int
  | 0, _, visited => Run.outOfFuel visited
  | fuel + 1, k, visited =>
    if GuardLeMinusOneU k j then
      if 0 ≤ 4 * i + k ∧ 4 * i + k < 16 ∧ UpperIndexU k j < 10 then
        EstimateCovarianceSweepMachine i j fuel (toS16 (k + 1)) (visited ++ [k])
      else Run.outOfBounds visited k
    else Run.finished visited

/-- The loop has been left by its guard. -/
def Run.isFinished {α : Type} : Run α → Bool
  | Run.finished _ => true
  | _ => false

/-- The outcome of a run at machine level: the function has returned a value, an array has
been indexed out of its bounds, or the passes allowed to a loop have been used up. -/
inductive Outcome (α : Type) where
  | returned (value : α)
  | outOfBounds
  | outOfFuel

/-- The sequencing of two runs. -/
def Outcome.bind {α β : Type} : Outcome α → (α → Outcome β) → Outcome β
  | Outcome.returned a, f => f a
  | Outcome.outOfBounds, _ => Outcome.outOfBounds
  | Outcome.outOfFuel, _ => Outcome.outOfFuel

/-- The value returned, if any. -/
def Outcome.toOption {α : Type} : Outcome α → Option α
  | Outcome.returned a => some a
  | _ => none

/-- A read `a[k]` of an array of `n` elements. -/
def readAt {n : Nat} (a : Vector ℚ n) (k : Int) : Outcome ℚ :=
  if h : 0 ≤ k ∧ k < n then Outcome.returned (a.get ⟨k.toNat, by omega⟩)
  else Outcome.outOfBounds

/-- A write `a[k] = v` to an array of `n` elements. -/
def writeAt {n : Nat} (a : Vector ℚ n) (k : Int) (v : ℚ) : Outcome (Vector ℚ n) :=
  if h : 0 ≤ k ∧ k < n then Outcome.returned (a.set ⟨k.toNat, by omega⟩ v)
  else Outcome.outOfBounds

/-- A loop `for (; guard; k = next) body` from the value `k` of its counter, for at most
`fuel` passes. -/
def forLoop {σ : Type} (guard : Int → Bool) (next : Int → Int)
    (body : Int → σ → Outcome σ) : Nat → Int → σ → Outcome σ
  | 0, _, _ => Outcome.outOfFuel
  | fuel + 1, k, s =>
    if guard k then (body k s).bind (forLoop guard next body fuel (next k))
    else Outcome.returned s

/-- The number of passes allowed to each loop of the kernel when it is called from
`tracking.c`.  A counter of the type `s16_t` has `65536` values and the guards of the loops
depend on the counters only, so that a loop that has not been left after `65536` passes is
never left. -/
def LOOP_FUEL : Nat := 65536

/-! ## The numeric kernel (`kalman_utils.c`) -/

/-- `ConvertDiagonalVectorToMatrix`. -/
def ConvertDiagonalVectorToMatrix (diagonal : Vector ℚ 4) : Vector ℚ 16 :=
  states.foldl (fun square i => square.set (sq i i) (diagonal.get i)) (Vector.replicate 16 0)

/-- `ConvertUpperMatrixToFull`. -/
def ConvertUpperMatrixToFull (upper : Vector ℚ 10) : Vector ℚ 16 :=
  states.foldl (fun square i =>
    states.foldl (fun square j =>
      if i ≤ j then square.set (sq i j) (upper.get (GET_UPPER_INDEX i j))
      else square) square) (Vector.replicate 16 0)

/-- `MultiplyMatrix`; `C` is the content of the output array on entry. -/
def MultiplyMatrix (A B C : Vector ℚ 16) : Vector ℚ 16 :=
  states.foldl (fun C i =>
    states.foldl (fun C j =>
      states.foldl (fun C k =>
        C.set (sq j i) (C.get (sq j i) + A.get (sq j k) * B.get (sq k i)))
        (C.set (sq j i) 0)) C) C

/-- `TransposeMatrix`; `At` is the content of the output array on entry. -/
def TransposeMatrix (A At : Vector ℚ 16) : Vector ℚ 16 :=
  states.foldl (fun At i =>
    states.foldl (fun At j => At.set (sq j i) (A.get (sq i j))) At) At

/-- `ComposeUD`; `UDU` is the content of the output array on entry.  The local
`tempMatrix3` is not initialised in the source; `MultiplyMatrix` overwrites
each of its entries, and it starts here as the zero array. -/
def ComposeUD (U : Vector ℚ 10) (D : Vector ℚ 4) (UDU : Vector ℚ 16) : Vector ℚ 16 :=
  let tempMatrix1 := ConvertDiagonalVectorToMatrix D
  let tempMatrix2 := ConvertUpperMatrixToFull U
  let UDU := TransposeMatrix tempMatrix2 UDU
  let tempMatrix3 := MultiplyMatrix tempMatrix1 UDU (Vector.replicate 16 0)
  MultiplyMatrix tempMatrix2 tempMatrix3 UDU

/-- The body of the loop `for (k = j + 1u; k <= KALMAN_STATES - 1u; k++)` of `DecomposeUD`. -/
def DecomposeUDSigma (U : Vector ℚ 10) (D : Vector ℚ 4) (i j k : Int) (sigma : ℚ) :
    Outcome ℚ :=
  (readAt U (UpperIndexU i k)).bind fun a =>
  (readAt D k).bind fun d =>
  (readAt U (UpperIndexU j k)).bind fun b =>
  Outcome.returned (sigma + -a * d * b)

/-- The body of the loop `for (i = j; i >= 0u; i--)` of `DecomposeUD`. -/
def DecomposeUDStep (fuel : Nat) (UDU : Vector ℚ 16) (j i : Int)
    (UD : Vector ℚ 10 × Vector ℚ 4) : Outcome (Vector ℚ 10 × Vector ℚ 4) :=
  (readAt UDU (4 * i + j)).bind fun sigma =>
  (forLoop (fun k => decide (toU32 k ≤ 3)) (fun k => toS16 (k + 1))
    (DecomposeUDSigma UD.1 UD.2 i j) fuel
    (toS16 (((toU32 j + 1) % 4294967296 : Nat) : Int)) sigma).bind fun sigma =>
  if i = j then
    (writeAt UD.2 j sigma).bind fun D =>
    (writeAt UD.1 (UpperIndexU j j) 1).bind fun U => Outcome.returned (U, D)
  else
    (readAt UD.2 j).bind fun d =>
    (writeAt UD.1 (UpperIndexU i j) (sigma / d)).bind fun U => Outcome.returned (U, UD.2)

/-- The body of the loop `for (j = KALMAN_STATES - 1u; j >= 0u; j--)` of `DecomposeUD`. -/
def DecomposeUDColumn (fuel : Nat) (UDU : Vector ℚ 16) (j : Int)
    (UD : Vector ℚ 10 × Vector ℚ 4) : Outcome (Vector ℚ 10 × Vector ℚ 4) :=
  forLoop GuardGeZeroU (fun i => toS16 (i - 1)) (DecomposeUDStep fuel UDU j) fuel j UD

/-- `DecomposeUD`. -/
def DecomposeUD (fuel : Nat) (UDU : Vector ℚ 16) : Outcome (Vector ℚ 10 × Vector ℚ 4) :=
  forLoop GuardGeZeroU (fun j => toS16 (j - 1)) (DecomposeUDColumn fuel UDU) fuel 3
    (Vector.replicate 10 0, Vector.replicate 4 0)

/-- `PredictState`: returns the new `state`. -/
def PredictState (inputF : Vector ℚ 16) (state : Vector ℚ 4) : Vector ℚ 4 :=
  states.foldl (fun tempVector i =>
    states.foldl (fun tempVector j =>
      tempVector.set i (tempVector.get i + inputF.get (sq i j) * state.get j))
      tempVector) (Vector.replicate 4 0)

/-- The variables that the main loop of `FuseState` modifies. -/
structure FuseVars where
  tempAlpha : ℚ
  gamma : ℚ
  outputQu : Vector ℚ 10
  outputQd : Vector ℚ 4
  tempVector2 : Vector ℚ 4

/-- The body of the sweep `for (i = 0u; i <= j - 1u; i++)` of the first loop of
`FuseState`. -/
def FuseStateVector1Sweep (transformation : Vector ℚ 4) (outputQu : Vector ℚ 10) (j i : Int)
    (tempVector1 : Vector ℚ 4) : Outcome (Vector ℚ 4) :=
  (readAt tempVector1 j).bind fun x =>
  (readAt outputQu (UpperIndexU i j)).bind fun u =>
  (readAt transformation i).bind fun h =>
  writeAt tempVector1 j (x + u * h)

/-- The body of the first loop of `FuseState`. -/
def FuseStateVector1Step (fuel : Nat) (transformation : Vector ℚ 4) (outputQu : Vector ℚ 10)
    (j : Int) (tempVector1 : Vector ℚ 4) : Outcome (Vector ℚ 4) :=
  (readAt transformation j).bind fun h =>
  (writeAt tempVector1 j h).bind fun tempVector1 =>
  forLoop (fun i => GuardLeMinusOneU i j) (fun i => toS16 (i + 1))
    (FuseStateVector1Sweep transformation outputQu j) fuel 0 tempVector1

/-- The body of the second loop of `FuseState`. -/
def FuseStateVector2Step (outputQd tempVector1 : Vector ℚ 4) (j : Int)
    (tempVector2 : Vector ℚ 4) : Outcome (Vector ℚ 4) :=
  (readAt outputQd j).bind fun d =>
  (readAt tempVector1 j).bind fun x =>
  writeAt tempVector2 j (d * x)

/-- The body of the sweep `for (i = 0u; i <= j - 1u; i++)` of the main loop of
`FuseState`. -/
def FuseStateInner (lambda : ℚ) (j i : Int) (s : FuseVars) : Outcome FuseVars :=
  (readAt s.outputQu (UpperIndexU i j)).bind fun beta =>
  (readAt s.tempVector2 i).bind fun vi =>
  (writeAt s.outputQu (UpperIndexU i j) (beta + vi * lambda)).bind fun outputQu =>
  (readAt s.tempVector2 j).bind fun vj =>
  (writeAt s.tempVector2 i (vi + vj * beta)).bind fun tempVector2 =>
  Outcome.returned { s with outputQu := outputQu, tempVector2 := tempVector2 }

/-- The body of the main loop of `FuseState`. -/
def FuseStateStep (fuel : Nat) (tempVector1 : Vector ℚ 4) (j : Int) (s : FuseVars) :
    Outcome FuseVars :=
  (readAt tempVector1 j).bind fun x =>
  (readAt s.tempVector2 j).bind fun v =>
  (readAt s.outputQd j).bind fun d =>
  let beta := s.tempAlpha
  let tempAlpha := s.tempAlpha + x * v
  let lambda := -x * s.gamma
  let gamma := 1 / tempAlpha
  (writeAt s.outputQd j (d * (beta * gamma))).bind fun outputQd =>
  forLoop (fun i => GuardLeMinusOneU i j) (fun i => toS16 (i + 1)) (FuseStateInner lambda j)
    fuel 0 { s with tempAlpha := tempAlpha, gamma := gamma, outputQd := outputQd }

/-- The body of the last loop of `FuseState`. -/
def FuseStateOutput (scaledInnovation : ℚ) (tempVector2 : Vector ℚ 4) (j : Int)
    (state : Vector ℚ 4) : Outcome (Vector ℚ 4) :=
  (readAt state j).bind fun x =>
  (readAt tempVector2 j).bind fun v =>
  writeAt state j (x + scaledInnovation * v)

/-- `FuseState`: returns `state`, `outputQu` and `outputQd`. -/
def FuseState (fuel : Nat) (innovation alpha : ℚ) (transformation : Vector ℚ 4)
    (state : Vector ℚ 4) (outputQu : Vector ℚ 10) (outputQd : Vector ℚ 4) :
    Outcome (Vector ℚ 4 × Vector ℚ 10 × Vector ℚ 4) :=
  let tempAlpha := alpha
  let gamma := 1 / tempAlpha
  (forLoop (fun j => decide (j < 4)) (fun j => toS16 (j + 1))
    (FuseStateVector1Step fuel transformation outputQu) fuel 0
    (Vector.replicate 4 0)).bind fun tempVector1 =>
  (forLoop (fun j => decide (j < 4)) (fun j => toS16 (j + 1))
    (FuseStateVector2Step outputQd tempVector1) fuel 0 (Vector.replicate 4 0)).bind
    fun tempVector2 =>
  (forLoop (fun j => decide (j < 4)) (fun j => toS16 (j + 1)) (FuseStateStep fuel tempVector1)
    fuel 0 { tempAlpha := tempAlpha, gamma := gamma, outputQu := outputQu,
             outputQd := outputQd, tempVector2 := tempVector2 }).bind fun s =>
  let scaledInnovation := s.gamma * innovation
  (forLoop (fun j => decide (j < 4)) (fun j => toS16 (j + 1))
    (FuseStateOutput scaledInnovation s.tempVector2) fuel 0 state).bind fun state =>
  Outcome.returned (state, s.outputQu, s.outputQd)

/-- The file-scope arrays `F`, `Qu` and `Qd` of `kalman_utils.c` and the array `outputQu`,
which the loops of `EstimateCovariance` modify. -/
structure EstimateVars where
  F : Vector ℚ 16
  Qu : Vector ℚ 10
  Qd : Vector ℚ 4
  outputQu : Vector ℚ 10

/-- The body of the sweep `for (k = 0u; k <= j - 1u; k++)` of the first loop nest of
`EstimateCovariance`. -/
def EstimateCovarianceSweep (inputF : Vector ℚ 16) (outputQu : Vector ℚ 10) (i j k : Int)
    (sigma : ℚ) : Outcome ℚ :=
  (readAt inputF (4 * i + k)).bind fun f =>
  (readAt outputQu (UpperIndexU k j)).bind fun u =>
  Outcome.returned (sigma + f * u)

/-- The body of the loop `for (j = KALMAN_STATES - 1u; j >= 0u; j--)` of the first loop nest
of `EstimateCovariance`. -/
def EstimateCovarianceEntry (fuel : Nat) (inputF : Vector ℚ 16) (outputQu : Vector ℚ 10)
    (i j : Int) (F : Vector ℚ 16) : Outcome (Vector ℚ 16) :=
  (readAt inputF (4 * i + j)).bind fun sigma =>
  (forLoop (fun k => GuardLeMinusOneU k j) (fun k => toS16 (k + 1))
    (EstimateCovarianceSweep inputF outputQu i j) fuel 0 sigma).bind fun sigma =>
  writeAt F (4 * i + j) sigma

/-- The body of the loop `for (i = 0u; i < KALMAN_STATES; i++)` of the first loop nest of
`EstimateCovariance`. -/
def EstimateCovarianceRowF (fuel : Nat) (inputF : Vector ℚ 16) (outputQu : Vector ℚ 10)
    (i : Int) (F : Vector ℚ 16) : Outcome (Vector ℚ 16) :=
  forLoop GuardGeZeroU (fun j => toS16 (j - 1)) (EstimateCovarianceEntry fuel inputF outputQu i)
    fuel 3 F

/-- The body of the loop over `j` that accumulates `Qd[i]` in `EstimateCovariance`. -/
def EstimateCovarianceDiag (inputQd outputQd : Vector ℚ 4) (s : EstimateVars) (i j : Int)
    (sigma : ℚ) : Outcome ℚ :=
  (readAt s.F (4 * i + j)).bind fun f =>
  (readAt outputQd j).bind fun d =>
  if i ≤ j then
    (readAt s.Qu (UpperIndexU i j)).bind fun u =>
    (readAt inputQd j).bind fun q =>
    Outcome.returned (sigma + f * f * d + u * u * q)
  else Outcome.returned (sigma + f * f * d)

/-- The body of the loop over `k` that accumulates `outputQu[j, i]` in
`EstimateCovariance`. -/
def EstimateCovarianceCross (inputQd outputQd : Vector ℚ 4) (s : EstimateVars) (i j k : Int)
    (sigma : ℚ) : Outcome ℚ :=
  (readAt s.F (4 * i + k)).bind fun fi =>
  (readAt outputQd k).bind fun d =>
  (readAt s.F (4 * j + k)).bind fun fj =>
  if i ≤ k ∧ j ≤ k then
    (readAt s.Qu (UpperIndexU i k)).bind fun ui =>
    (readAt inputQd k).bind fun q =>
    (readAt s.Qu (UpperIndexU j k)).bind fun uj =>
    Outcome.returned (sigma + fi * d * fj + ui * q * uj)
  else Outcome.returned (sigma + fi * d * fj)

/-- The body of the loop over `k` that updates the row `j` of `F` and of `Qu` in
`EstimateCovariance`. -/
def EstimateCovarianceRow (i j k : Int) (s : EstimateVars) : Outcome EstimateVars :=
  (readAt s.outputQu (UpperIndexU j i)).bind fun u =>
  (readAt s.F (4 * j + k)).bind fun fj =>
  (readAt s.F (4 * i + k)).bind fun fi =>
  (writeAt s.F (4 * j + k) (fj + -u * fi)).bind fun F =>
  if i ≤ k ∧ j ≤ k then
    (readAt s.Qu (UpperIndexU j k)).bind fun qj =>
    (readAt s.Qu (UpperIndexU i k)).bind fun qi =>
    (writeAt s.Qu (UpperIndexU j k) (qj + -u * qi)).bind fun Qu =>
    Outcome.returned { s with F := F, Qu := Qu }
  else Outcome.returned { s with F := F }

/-- The body of the sweep `for (j = 0u; j <= i - 1u; j++)` of the second loop nest of
`EstimateCovariance`. -/
def EstimateCovarianceInner (fuel : Nat) (inputQd outputQd : Vector ℚ 4) (i j : Int)
    (s : EstimateVars) : Outcome EstimateVars :=
  (forLoop (fun k => decide (k < 4)) (fun k => toS16 (k + 1))
    (EstimateCovarianceCross inputQd outputQd s i j) fuel 0 0).bind fun sigma =>
  (readAt s.Qd i).bind fun d =>
  (writeAt s.outputQu (UpperIndexU j i) (sigma / d)).bind fun outputQu =>
  forLoop (fun k => decide (k < 4)) (fun k => toS16 (k + 1)) (EstimateCovarianceRow i j) fuel 0
    { s with outputQu := outputQu }

/-- The body of the loop `for (i = KALMAN_STATES - 1u; i >= 0u; i--)` of the second loop
nest of `EstimateCovariance`. -/
def EstimateCovarianceStep (fuel : Nat) (inputQd outputQd : Vector ℚ 4) (i : Int)
    (s : EstimateVars) : Outcome EstimateVars :=
  (forLoop (fun j => decide (j < 4)) (fun j => toS16 (j + 1))
    (EstimateCovarianceDiag inputQd outputQd s i) fuel 0 0).bind fun sigma =>
  (writeAt s.Qd i sigma).bind fun Qd =>
  forLoop (fun j => GuardLeMinusOneU j i) (fun j => toS16 (j + 1))
    (EstimateCovarianceInner fuel inputQd outputQd i) fuel 0 { s with Qd := Qd }

/-- `EstimateCovariance`: returns `outputQu` and `outputQd`; `F` is the content of the
file-scope array `F` of `kalman_utils.c` on entry. -/
def EstimateCovariance (fuel : Nat) (F : Vector ℚ 16) (inputF : Vector ℚ 16)
    (inputQu : Vector ℚ 10) (inputQd : Vector ℚ 4) (outputQu : Vector ℚ 10)
    (outputQd : Vector ℚ 4) : Outcome (Vector ℚ 10 × Vector ℚ 4) :=
  (forLoop (fun i => decide (i < 4)) (fun i => toS16 (i + 1))
    (EstimateCovarianceRowF fuel inputF outputQu) fuel 0 F).bind fun F =>
  (forLoop GuardGeZeroU (fun i => toS16 (i - 1)) (EstimateCovarianceStep fuel inputQd outputQd)
    fuel 3 { F := F, Qu := inputQu, Qd := Vector.replicate 4 0, outputQu := outputQu }).bind
    fun s =>
  Outcome.returned (s.outputQu, s.Qd)

/-! ## Radar statistics (`radar_utils.c`) -/

/-- The functions of the C library (`math.h`) that the sources call.  They are
not part of the repository and are parameters of the embedding. -/
structure Libm where
  sqrt : ℚ → ℚ
  atan2 : ℚ → ℚ → ℚ
  cos : ℚ → ℚ
  sin : ℚ → ℚ

/-- The tunables declared in `config.h` (defined in `reconfigure.c`). -/
structure Config where
  SIGMA_BASE : ℚ
  SIGMA_RANGE : ℚ
  SIGMA_DOPPLER : ℚ
  SIGMA_BEARING : ℚ
  MAX_BEARING_CONFIDENCE : ℚ
  MIN_BEARING_CONFIDENCE : ℚ
  SENSOR_WEAK_BEARING_AREA : ℚ
  Q_SIGMA_X : ℚ
  Q_SIGMA_Y : ℚ
  Q_SIGMA_VX : ℚ
  Q_SIGMA_VY : ℚ
  PRUNE_LIMIT_X : ℚ
  PRUNE_LIMIT_Y : ℚ
  PRUNE_LIMIT_VX : ℚ
  PRUNE_LIMIT_VY : ℚ
  GATING_WEIGHT_X : ℚ
  GATING_WEIGHT_Y : ℚ
  GATING_WEIGHT_VX : ℚ
  GATING_WEIGHT_VY : ℚ
  ACCEPTANCE_GATE_SUM_FACTOR : ℚ
  MAX_COASTING_CYCLES : Nat
  MIN_LIFETIME_TX_CYCLES : Nat

/-- The values that `reconfigure.c` gives to the tunables. -/
def defaultConfig : Config where
  SIGMA_BASE := 1 / 10
  SIGMA_RANGE := 1 / 2
  SIGMA_DOPPLER := 3 / 2
  SIGMA_BEARING := 3
  MAX_BEARING_CONFIDENCE := 1
  MIN_BEARING_CONFIDENCE := 7 / 10
  SENSOR_WEAK_BEARING_AREA := 10
  Q_SIGMA_X := 3 / 2
  Q_SIGMA_Y := 3 / 2
  Q_SIGMA_VX := 3
  Q_SIGMA_VY := 3
  PRUNE_LIMIT_X := 2
  PRUNE_LIMIT_Y := 2
  PRUNE_LIMIT_VX := 5
  PRUNE_LIMIT_VY := 5
  GATING_WEIGHT_X := 10
  GATING_WEIGHT_Y := 10
  GATING_WEIGHT_VX := 30
  GATING_WEIGHT_VY := 30
  ACCEPTANCE_GATE_SUM_FACTOR := 1
  MAX_COASTING_CYCLES := 20
  MIN_LIFETIME_TX_CYCLES := 3

/-- `GetVarXPolar`. -/
def GetVarXPolar (m : Libm) (range bearing rangeVar bearingVar : ℚ) : ℚ :=
  let cosPhi2 := m.cos bearing * m.cos bearing
  let sinPhi2 := m.sin bearing * m.sin bearing
  (rangeVar * cosPhi2) + (range * range * bearingVar * sinPhi2)

/-- `GetVarYPolar`. -/
def GetVarYPolar (m : Libm) (range bearing rangeVar bearingVar : ℚ) : ℚ :=
  let cosPhi2 := m.cos bearing * m.cos bearing
  let sinPhi2 := m.sin bearing * m.sin bearing
  (rangeVar * sinPhi2) + (range * range * bearingVar * cosPhi2)

/-- `GetDissimilarityValue`. -/
def GetDissimilarityValue (mean1 mean2 variance1 variance2 : ℚ) : ℚ :=
  let variance12 := variance1 + variance2
  if variance12 ≠ 0 then ((mean1 - mean2) * (mean1 - mean2)) / variance12
  else INVALID_SIMILARITY_VALUE

/-- `GetRange`. -/
def GetRange (m : Libm) (posX posY : ℚ) : ℚ :=
  m.sqrt ((posX * posX) + (posY * posY))

/-- `GetBearing`. -/
def GetBearing (m : Libm) (posX posY : ℚ) : ℚ :=
  m.atan2 posY posX

/-- `GetVarX`. -/
def GetVarX (m : Libm) (posX posY rangeVar bearingVar baseVar : ℚ) : ℚ :=
  let range := GetRange m posX posY
  let bearing := GetBearing m posX posY
  let varX := GetVarXPolar m range bearing rangeVar bearingVar
  max baseVar varX

/-- `GetVarY`. -/
def GetVarY (m : Libm) (posX posY rangeVar bearingVar baseVar : ℚ) : ℚ :=
  let range := GetRange m posX posY
  let bearing := GetBearing m posX posY
  let varY := GetVarYPolar m range bearing rangeVar bearingVar
  max baseVar varY

/-- `GetSimilarityValue`. -/
def GetSimilarityValue (mean1 mean2 variance1 variance2 : ℚ) : ℚ :=
  let dissimilarity := GetDissimilarityValue mean1 mean2 variance1 variance2
  if dissimilarity = 0 then MAX_SIMILARITY_VALUE else 1 / dissimilarity

/-- `GetLinInterpolatedValue`. -/
def GetLinInterpolatedValue (x x1 x2 y1 y2 : ℚ) : ℚ :=
  ((y2 - y1) / (x2 - x1)) * (x - x1) + y1

/-! ## The track primitive (`tracking.c`) -/

/-- `Plot_t`. -/
structure Plot_t where
  Z : Vector ℚ 4
  R : Vector ℚ 16
  weight : ℚ
  deriving DecidableEq

/-- `Track_t`. -/
structure Track_t where
  X : Vector ℚ 4
  P : Vector ℚ 16
  P_U : Vector ℚ 10
  P_D : Vector ℚ 4
  deriving DecidableEq

/-- The file-scope matrices `F`, `Q`, `Qu`, `Qd` of `tracking.c`. -/
structure Tracking where
  F : Vector ℚ 16
  Q : Vector ℚ 16
  Qu : Vector ℚ 10
  Qd : Vector ℚ 4
  deriving DecidableEq

/-- `InitF`: returns the matrix `F`. -/
def InitF (dt : ℚ) : Vector ℚ 16 :=
  let F : Vector ℚ 16 := Vector.replicate 16 0
  let F := F.set (sq STATE_X STATE_X) 1
  let F := F.set (sq STATE_X STATE_VX) dt
  let F := F.set (sq STATE_Y STATE_Y) 1
  let F := F.set (sq STATE_Y STATE_VY) dt
  let F := F.set (sq STATE_VX STATE_VX) 1
  F.set (sq STATE_VY STATE_VY) 1

/-- `InitQ`: returns the matrix `Q`. -/
def InitQ (c : Config) (dt : ℚ) : Vector ℚ 16 :=
  let var_q_x := c.Q_SIGMA_X * c.Q_SIGMA_X
  let var_q_y := c.Q_SIGMA_Y * c.Q_SIGMA_Y
  let var_q_vx := c.Q_SIGMA_VX * c.Q_SIGMA_VX
  let var_q_vy := c.Q_SIGMA_VY * c.Q_SIGMA_VY
  let Q : Vector ℚ 16 := Vector.replicate 16 0
  let Q := Q.set (sq STATE_X STATE_X) ((var_q_x * dt) + ((var_q_vx * dt * dt * dt) / 3))
  let Q := Q.set (sq STATE_X STATE_VX) ((var_q_vx * dt * dt) / 2)
  let Q := Q.set (sq STATE_Y STATE_Y) ((var_q_y * dt) + ((var_q_vy * dt * dt * dt) / 3))
  let Q := Q.set (sq STATE_Y STATE_VY) ((var_q_vy * dt * dt) / 2)
  let Q := Q.set (sq STATE_VX STATE_VX) (var_q_vx * dt)
  let Q := Q.set (sq STATE_VX STATE_X) (Q.get (sq STATE_X STATE_VX))
  let Q := Q.set (sq STATE_VY STATE_VY) (var_q_vy * dt)
  Q.set (sq STATE_VY STATE_Y) (Q.get (sq STATE_Y STATE_VY))

/-- `InitializeTracking`: returns the file-scope matrices, when `DecomposeUD` returns. -/
def InitializeTracking (c : Config) (dt : ℚ) : Option Tracking :=
  let F := InitF dt
  let Q := InitQ c dt
  (DecomposeUD LOOP_FUEL Q).toOption.map fun UD => { F := F, Q := Q, Qu := UD.1, Qd := UD.2 }

/-- `InitializeTrack`: returns the track, when `DecomposeUD` returns. -/
def InitializeTrack (_track : Track_t) (plot : Plot_t) : Option Track_t :=
  let XP := states.foldl (fun (XP : Vector ℚ 4 × Vector ℚ 16) i =>
    (XP.1.set i (plot.Z.get i), XP.2.set (sq i i) (plot.R.get (sq i i))))
    (Vector.replicate 4 0, Vector.replicate 16 0)
  (DecomposeUD LOOP_FUEL XP.2).toOption.map fun UD =>
    { X := XP.1, P := XP.2, P_U := UD.1, P_D := UD.2 }

/-- `PredictTrack`: returns the track, when `EstimateCovariance` returns.  The scratch array
`F` of `kalman_utils.c` is passed as the zero array; `EstimateCovariance` reads no entry of
it that it has not written. -/
def PredictTrack (t : Tracking) (track : Track_t) : Option Track_t :=
  (EstimateCovariance LOOP_FUEL (Vector.replicate 16 0) t.F t.Qu t.Qd track.P_U
    track.P_D).toOption.map fun UD =>
    { X := PredictState t.F track.X, P := ComposeUD UD.1 UD.2 track.P, P_U := UD.1,
      P_D := UD.2 }

/-- The body of the loop of `FuseTrack`, at the state `i`. -/
def FuseTrackStep (plot : Plot_t) (track : Track_t) (i : Fin 4) : Option Track_t :=
  let H : Vector ℚ 4 := (Vector.replicate 4 0).set i 1
  let innovation := plot.Z.get i - track.X.get i
  let innovation := innovation * plot.weight
  (FuseState LOOP_FUEL innovation (plot.R.get (sq i i)) H track.X track.P_U
    track.P_D).toOption.map fun r =>
    { track with X := r.1, P_U := r.2.1, P_D := r.2.2 }

/-- `FuseTrack`: returns the track, when every call of `FuseState` returns. -/
def FuseTrack (track : Track_t) (plot : Plot_t) : Option Track_t :=
  states.foldlM (FuseTrackStep plot) track

/-! ## Prefused and fused objects (`base_types.h`, `algorithm_types.h`, `fusion_utils.c`) -/

/-- `SensorType_t`: the enumeration has the single value `RADAR = 0`. -/
inductive SensorType_t where
  | RADAR
  deriving DecidableEq

/-- The integer value of a `SensorType_t`, as an index of `seenThisCycle`. -/
def SensorType_t.index : SensorType_t → Fin 4
  | SensorType_t.RADAR => 0

/-- `SensorTF_t`. -/
structure SensorTF_t where
  canX : ℚ
  canY : ℚ
  x : ℚ
  y : ℚ
  mounting : ℚ
  fov : ℚ
  deriving DecidableEq

/-- `Sensor_t`; the member `objects` is read by the platform layer only. -/
structure Sensor_t where
  type : SensorType_t
  tf : SensorTF_t
  deriving DecidableEq

/-- `PrefusedObject_t`; `sensor` is the sensor pointed to. -/
structure PrefusedObject_t where
  valid : Nat
  plot : Plot_t
  sensor : Sensor_t
  priority : ℚ
  deriving DecidableEq

/-- `FusedObject_t`. -/
structure FusedObject_t where
  id : Nat
  track : Track_t
  lifetimeCounter : Nat
  seenThisCycle : Vector Nat 4
  lostCounter : Nat
  priority : ℚ
  deriving DecidableEq

/-- The array `fusedObjectList` of `NUM_FUSED_OBJ` fused objects. -/
abbrev FusedObjectList := Vector FusedObject_t 16

/-- The indices `0, ..., 15` visited by `for (i = 0u; i < NUM_FUSED_OBJ; i++)`. -/
def slots : List (Fin 16) := [0, 1, 2, 3, 4, 5, 6, 7, 8, 9, 10, 11, 12, 13, 14, 15]

/-- The file-scope variables `gatingWeights` and `totalGatingValueMinLimit` of
`fusion_utils.c`. -/
structure Gating where
  gatingWeights : Vector ℚ 4
  totalGatingValueMinLimit : ℚ
  deriving DecidableEq

/-- `InitializeFusionUtils`: returns the file-scope variables. -/
def InitializeFusionUtils (c : Config) : Gating :=
  let gatingWeights : Vector ℚ 4 := Vector.replicate 4 0
  let gatingWeights := gatingWeights.set STATE_X c.GATING_WEIGHT_X
  let gatingWeights := gatingWeights.set STATE_Y c.GATING_WEIGHT_Y
  let gatingWeights := gatingWeights.set STATE_VX c.GATING_WEIGHT_VX
  let gatingWeights := gatingWeights.set STATE_VY c.GATING_WEIGHT_VY
  { gatingWeights := gatingWeights,
    totalGatingValueMinLimit :=
      KALMAN_STATES * STATE_GATING_VALUE_MIN_LIMIT * c.ACCEPTANCE_GATE_SUM_FACTOR }

/-- The macro `DEG2RAD`. -/
def DEG2RAD (x : ℚ) : ℚ := (17453292519943 / 1000000000000000) * x

/-- The macro `RAD2DEG`. -/
def RAD2DEG (x : ℚ) : ℚ := (57295779513082323 / 1000000000000000) * x

/-- `GetBearingConfidence`. -/
def GetBearingConfidence (c : Config) (m : Libm) (targetX targetY : ℚ) (sensor : Sensor_t) : ℚ :=
  let sensorX := targetX - sensor.tf.x
  let sensorY := targetY - sensor.tf.y
  let trueBearing : ℚ := 0
  let maxBearing := sensor.tf.fov / 2
  let weakBearing := maxBearing - c.SENSOR_WEAK_BEARING_AREA
  let targetBearing := |RAD2DEG (GetBearing m sensorX sensorY) - sensor.tf.mounting|
  if targetBearing ≥ trueBearing ∧ targetBearing ≤ weakBearing then
    c.MAX_BEARING_CONFIDENCE
  else if targetBearing > weakBearing ∧ targetBearing ≤ maxBearing then
    GetLinInterpolatedValue targetBearing weakBearing maxBearing
      c.MAX_BEARING_CONFIDENCE c.MIN_BEARING_CONFIDENCE
  else
    c.MIN_BEARING_CONFIDENCE

/-- `ApplySensorTF`. -/
def ApplySensorTF (prefusedObject : PrefusedObject_t) : PrefusedObject_t :=
  let Z := prefusedObject.plot.Z
  let Z := Z.set STATE_X (Z.get STATE_X + prefusedObject.sensor.tf.canX)
  let Z := Z.set STATE_Y (Z.get STATE_Y + prefusedObject.sensor.tf.canY)
  { prefusedObject with plot := { prefusedObject.plot with Z := Z } }

/-- The all-zero track (`memset(&fusedObject->track, 0, sizeof(Track_t))`). -/
def zeroTrack : Track_t :=
  { X := Vector.replicate 4 0, P := Vector.replicate 16 0, P_U := Vector.replicate 10 0,
    P_D := Vector.replicate 4 0 }

/-- `ResetFusedObject`. -/
def ResetFusedObject (_fusedObject : FusedObject_t) : FusedObject_t :=
  { id := INVALID_ID, track := zeroTrack, lifetimeCounter := 0,
    seenThisCycle := Vector.replicate 4 0, lostCounter := 0, priority := 0 }

/-- The loop of `GetWorstPriority` over the remaining indices, from the current
values of `worstPriority` and `*objectIndex`. -/
def GetWorstPriorityLoop (fusedObjectList : FusedObjectList) :
    List (Fin 16) → ℚ × Option (Fin 16) → ℚ × Option (Fin 16)
  | [], r => r
  | i :: rest, r =>
    if (fusedObjectList.get i).id ≠ INVALID_ID then
      if (fusedObjectList.get i).priority < r.1 then
        GetWorstPriorityLoop fusedObjectList rest ((fusedObjectList.get i).priority, some i)
      else
        GetWorstPriorityLoop fusedObjectList rest r
    else
      ((-1) * MAX_PRIORITY, some i)

/-- `GetWorstPriority`: returns the worst priority and `*objectIndex`
(`none` when the function has not written it). -/
def GetWorstPriority (fusedObjectList : FusedObjectList) : ℚ × Option (Fin 16) :=
  GetWorstPriorityLoop fusedObjectList slots (MAX_PRIORITY, none)

/-- The loop of `IsIdUsed` over the remaining indices. -/
def IsIdUsedLoop (fusedObjectList : FusedObjectList) (id : Nat) : List (Fin 16) → Bool
  | [] => false
  | i :: rest =>
    if (fusedObjectList.get i).id = id then true else IsIdUsedLoop fusedObjectList id rest

/-- `IsIdUsed`. -/
def IsIdUsed (fusedObjectList : FusedObjectList) (id : Nat) : Bool :=
  IsIdUsedLoop fusedObjectList id slots

/-- The loop of `GetAvailableId` over the remaining tentative ids. -/
def GetAvailableIdLoop (fusedObjectList : FusedObjectList) : List Nat → Nat
  | [] => INVALID_ID
  | tentId :: rest =>
    if !IsIdUsed fusedObjectList tentId then tentId
    else GetAvailableIdLoop fusedObjectList rest

/-- `GetAvailableId`: `tentId` runs from `INVALID_ID + 1` to `MAX_ID - 1`. -/
def GetAvailableId (fusedObjectList : FusedObjectList) : Nat :=
  GetAvailableIdLoop fusedObjectList (List.range' (INVALID_ID + 1) (MAX_ID - 1))

/-- `CreateFusedObject`; `none` when `index` is read without having been written, or when
`InitializeTrack` does not return. -/
def CreateFusedObject (fusedObjectList : FusedObjectList) (prefusedObject : PrefusedObject_t) :
    Option FusedObjectList :=
  let w := GetWorstPriority fusedObjectList
  if prefusedObject.priority > w.1 then
    match w.2 with
    | none => none
    | some index =>
      let l := if (fusedObjectList.get index).id ≠ INVALID_ID then
          fusedObjectList.set index (ResetFusedObject (fusedObjectList.get index))
        else fusedObjectList
      let l := l.set index { (l.get index) with id := GetAvailableId l }
      match InitializeTrack (l.get index).track prefusedObject.plot with
      | none => none
      | some track => some (l.set index { (l.get index) with track := track })
  else
    some fusedObjectList

/-- The loop of `GetGatingValue` over the remaining states, from the current
value of `gatingValue`. -/
def GetGatingValueLoop (g : Gating) (prefusedObject : PrefusedObject_t)
    (fusedObject : FusedObject_t) : List (Fin 4) → ℚ → ℚ
  | [], gatingValue => gatingValue
  | i :: rest, gatingValue =>
    let similarityValue := GetSimilarityValue (prefusedObject.plot.Z.get i)
      (fusedObject.track.X.get i) (prefusedObject.plot.R.get (sq i i))
      (fusedObject.track.P.get (sq i i))
    let similarityValue := similarityValue * g.gatingWeights.get i
    if similarityValue > STATE_GATING_VALUE_MIN_LIMIT then
      GetGatingValueLoop g prefusedObject fusedObject rest (gatingValue + similarityValue)
    else
      INVALID_GATING_VALUE

/-- `GetGatingValue`. -/
def GetGatingValue (g : Gating) (prefusedObject : PrefusedObject_t)
    (fusedObject : FusedObject_t) : ℚ :=
  GetGatingValueLoop g prefusedObject fusedObject states 0

/-- The body of the loop of `IsInsideAcceptanceGate`, on `bestGatingValue` and
`*pairIndex`. -/
def IsInsideAcceptanceGateStep (g : Gating) (prefusedObject : PrefusedObject_t)
    (fusedObjectList : FusedObjectList) (r : ℚ × Option (Fin 16)) (i : Fin 16) :
    ℚ × Option (Fin 16) :=
  if (fusedObjectList.get i).id ≠ INVALID_ID then
    let gatingValue := GetGatingValue g prefusedObject (fusedObjectList.get i)
    if gatingValue > r.1 then (gatingValue, some i) else r
  else r

/-- `IsInsideAcceptanceGate`: returns the result and `*pairIndex` (`none` when
the function has not written it). -/
def IsInsideAcceptanceGate (g : Gating) (prefusedObject : PrefusedObject_t)
    (fusedObjectList : FusedObjectList) : Bool × Option (Fin 16) :=
  let r := slots.foldl (IsInsideAcceptanceGateStep g prefusedObject fusedObjectList)
    (INVALID_GATING_VALUE, none)
  (decide (r.1 > g.totalGatingValueMinLimit), r.2)

/-- `IsObjectLost`. -/
def IsObjectLost (fusedObject : FusedObject_t) : Bool :=
  let seenSum := states.foldl (fun seenSum i => seenSum + fusedObject.seenThisCycle.get i) 0
  decide (seenSum = 0)

/-- `IsObjectCoastable`. -/
def IsObjectCoastable (c : Config) (fusedObject : FusedObject_t) : Bool :=
  decide (fusedObject.lostCounter ≤ c.MAX_COASTING_CYCLES)

/-- `GetObjectPriority`. -/
def GetObjectPriority (m : Libm) (dist_x dist_y : ℚ) : ℚ :=
  MAX_PRIORITY - GetRange m dist_x dist_y

/-- `CreatePrefusedObject`: returns the content of `*prefusedObject` on exit, from
its content on entry. -/
def CreatePrefusedObject (c : Config) (m : Libm) (prefusedObject : PrefusedObject_t)
    (pSensor : Sensor_t) (posX posY velX velY : ℚ) : PrefusedObject_t :=
  let varRange := c.SIGMA_RANGE * c.SIGMA_RANGE
  let varDoppler := c.SIGMA_DOPPLER * c.SIGMA_DOPPLER
  let varBearing := DEG2RAD c.SIGMA_BEARING * DEG2RAD c.SIGMA_BEARING
  let varBase := c.SIGMA_BASE * c.SIGMA_BASE
  let p := { prefusedObject with valid := 1 }
  let p := { p with sensor := pSensor }
  let Z := p.plot.Z.set STATE_X posX
  let Z := Z.set STATE_Y posY
  let Z := Z.set STATE_VX velX
  let Z := Z.set STATE_VY velY
  let p := ApplySensorTF { p with plot := { p.plot with Z := Z } }
  let R := p.plot.R.set (sq STATE_X STATE_X)
    (GetVarX m (p.plot.Z.get STATE_X) (p.plot.Z.get STATE_Y) varRange varBearing varBase)
  let R := R.set (sq STATE_Y STATE_Y)
    (GetVarY m (p.plot.Z.get STATE_X) (p.plot.Z.get STATE_Y) varRange varBearing varBase)
  let R := R.set (sq STATE_VX STATE_VX) varDoppler
  let R := R.set (sq STATE_VY STATE_VY) varDoppler
  let weight := GetBearingConfidence c m (p.plot.Z.get STATE_X) (p.plot.Z.get STATE_Y) pSensor
  { p with
    plot := { p.plot with R := R, weight := weight }
    priority := GetObjectPriority m (p.plot.Z.get STATE_X) (p.plot.Z.get STATE_Y) }

/-- The all-zero prefused object (`memset` to zero) for the sensor pointer `pSensor`. -/
def zeroPrefusedObject (pSensor : Sensor_t) : PrefusedObject_t :=
  { valid := 0,
    plot := { Z := Vector.replicate 4 0, R := Vector.replicate 16 0, weight := 0 },
    sensor := pSensor, priority := 0 }

/-- `AssociatePrefusedObject`; `none` when `pairIndex` or `index` is read
without having been written, or when `FuseTrack` or `InitializeTrack` does not return. -/
def AssociatePrefusedObject (g : Gating) (prefusedObject : PrefusedObject_t)
    (fusedObjectList : FusedObjectList) : Option FusedObjectList :=
  let r := IsInsideAcceptanceGate g prefusedObject fusedObjectList
  if r.1 then
    match r.2 with
    | none => none
    | some pairIndex =>
      let o := fusedObjectList.get pairIndex
      let seen := o.seenThisCycle.set prefusedObject.sensor.type.index 1
      let o := { o with seenThisCycle := seen }
      match FuseTrack o.track prefusedObject.plot with
      | none => none
      | some track => some (fusedObjectList.set pairIndex { o with track := track })
  else
    CreateFusedObject fusedObjectList prefusedObject

/-- `CheckObjectsForPruning`: returns the two objects. -/
def CheckObjectsForPruning (c : Config) (fusedObject1 fusedObject2 : FusedObject_t) :
    FusedObject_t × FusedObject_t :=
  if |fusedObject1.track.X.get STATE_X - fusedObject2.track.X.get STATE_X| ≤ c.PRUNE_LIMIT_X ∧
     |fusedObject1.track.X.get STATE_Y - fusedObject2.track.X.get STATE_Y| ≤ c.PRUNE_LIMIT_Y ∧
     |fusedObject1.track.X.get STATE_VX - fusedObject2.track.X.get STATE_VX| ≤ c.PRUNE_LIMIT_VX ∧
     |fusedObject1.track.X.get STATE_VY - fusedObject2.track.X.get STATE_VY| ≤ c.PRUNE_LIMIT_VY
  then
    if fusedObject1.priority > fusedObject2.priority then
      (fusedObject1, ResetFusedObject fusedObject2)
    else
      (ResetFusedObject fusedObject1, fusedObject2)
  else
    (fusedObject1, fusedObject2)

/-- `MaintainObject`. -/
def MaintainObject (c : Config) (fusedObject : FusedObject_t) : FusedObject_t :=
  let o := { fusedObject with lifetimeCounter := (fusedObject.lifetimeCounter + 1) % U16_MAX }
  let o :=
    if o.lifetimeCounter > 1 then
      if IsObjectLost o then
        let o := { o with lostCounter := (o.lostCounter + 1) % U8_MAX }
        if !IsObjectCoastable c o then ResetFusedObject o else o
      else
        { o with lostCounter := 0 }
    else o
  { o with seenThisCycle := Vector.replicate 4 0 }

/-- `IsTentativeObjectConfirmed`. -/
def IsTentativeObjectConfirmed (c : Config) (fusedObject : FusedObject_t) : Bool :=
  if fusedObject.id ≠ INVALID_ID ∧ fusedObject.lifetimeCounter ≥ c.MIN_LIFETIME_TX_CYCLES then
    true
  else false

/-! ## The cycle (`fusion.c`) -/

/-- The body of the loop of `Predict`, at the slot `i`. -/
def PredictStep (t : Tracking) (m : Libm) (l : FusedObjectList) (i : Fin 16) :
    Option FusedObjectList :=
  if (l.get i).id ≠ INVALID_ID then
    match PredictTrack t (l.get i).track with
    | none => none
    | some track =>
      some (l.set i
        { (l.get i) with
          track := track
          priority := GetObjectPriority m (track.X.get STATE_X) (track.X.get STATE_Y) })
  else some l

/-- `Predict`: returns the table, when every call of `PredictTrack` returns. -/
def Predict (t : Tracking) (m : Libm) (fusedObjectList : FusedObjectList) :
    Option FusedObjectList :=
  slots.foldlM (PredictStep t m) fusedObjectList

/-- `Update`; `prefusedObjectList` lists the entries of the array in order. -/
def Update (g : Gating) : List PrefusedObject_t → FusedObjectList → Option FusedObjectList
  | [], l => some l
  | p :: rest, l =>
    if p.valid ≠ 0 then
      match AssociatePrefusedObject g p l with
      | none => none
      | some l => Update g rest l
    else Update g rest l

/-- The body of the inner loop of the first loop of `Manage`, at the pair `(i, j)`. -/
def PruneStep (c : Config) (i : Fin 16) (l : FusedObjectList) (j : Fin 16) :
    FusedObjectList :=
  if (l.get i).id ≠ INVALID_ID ∧ (l.get j).id ≠ INVALID_ID then
    let r := CheckObjectsForPruning c (l.get i) (l.get j)
    (l.set i r.1).set j r.2
  else l

/-- The body of the first loop of `Manage`, at the slot `i`. -/
def PruneRow (c : Config) (l : FusedObjectList) (i : Fin 16) : FusedObjectList :=
  if (l.get i).id ≠ INVALID_ID then
    (slots.filter (fun j => i < j)).foldl (PruneStep c i) l
  else l

/-- The body of the second loop of `Manage`, at the slot `i`. -/
def MaintainStep (c : Config) (l : FusedObjectList) (i : Fin 16) : FusedObjectList :=
  if (l.get i).id ≠ INVALID_ID then l.set i (MaintainObject c (l.get i)) else l

/-- `Manage`. -/
def Manage (c : Config) (fusedObjectList : FusedObjectList) : FusedObjectList :=
  let l := slots.foldl (PruneRow c) fusedObjectList
  slots.foldl (MaintainStep c) l

/-- `RunFusion`. -/
def RunFusion (c : Config) (m : Libm) (t : Tracking) (g : Gating)
    (prefusedObjectList : List PrefusedObject_t) (fusedObjectList : FusedObjectList) :
    Option FusedObjectList :=
  match Predict t m fusedObjectList with
  | none => none
  | some l =>
    match Update g prefusedObjectList l with
    | none => none
    | some l => some (Manage c l)

/-- The all-zero fused object (`memset` to zero). -/
def zeroFusedObject : FusedObject_t :=
  { id := 0, track := zeroTrack, lifetimeCounter := 0, seenThisCycle := Vector.replicate 4 0,
    lostCounter := 0, priority := 0 }

/-- The all-zero table of fused objects. -/
def zeroFusedObjectList : FusedObjectList := Vector.replicate 16 zeroFusedObject

/-- `BaseObject_t`. -/
structure BaseObject_t where
  valid : Nat
  posX : ℚ
  posY : ℚ
  velX : ℚ
  velY : ℚ
  deriving DecidableEq

/-- The all-zero base object (`memset` to zero). -/
def zeroBaseObject : BaseObject_t :=
  { valid := 0, posX := 0, posY := 0, velX := 0, velY := 0 }

/-- The members `index` and `length` of `SensorObjects_t` (the member `GetObject` decodes
CAN frames and is not read by the algorithm). -/
structure SensorObjects_t where
  index : Nat
  length : Nat
  deriving DecidableEq

/-- An entry of the array `sensorList`: a sensor and its member `objects`. -/
abbrev SensorEntry := Sensor_t × SensorObjects_t

/-- The array `sensorList` of `sensor_interface.c`. -/
def sensorList : Vector SensorEntry 4 :=
  ⟨[({ type := SensorType_t.RADAR,
       tf := { canX := 0, canY := 0, x := -1 / 2, y := 1 / 2, mounting := 70, fov := 140 } },
     { index := 0, length := 12 }),
    ({ type := SensorType_t.RADAR,
       tf := { canX := 0, canY := 0, x := -1 / 2, y := -1 / 2, mounting := -70, fov := 140 } },
     { index := 12, length := 12 }),
    ({ type := SensorType_t.RADAR,
       tf := { canX := -5, canY := 0, x := -5, y := -1 / 2, mounting := -135, fov := 140 } },
     { index := 0, length := 0 }),
    ({ type := SensorType_t.RADAR,
       tf := { canX := -5, canY := 0, x := -5, y := 1 / 2, mounting := 135, fov := 140 } },
     { index := 0, length := 0 })], rfl⟩

/-- The loop of `GetSensorFromIndex` over the remaining entries: the sensor written to
`*sensor` when the function returns `TRUE`, `none` when it returns `FALSE`. -/
def GetSensorFromIndexLoop (index : Nat) : List SensorEntry → Option Sensor_t
  | [] => none
  | e :: rest =>
    if e.2.length ≠ 0 ∧ index ≥ e.2.index ∧ index < e.2.index + e.2.length then some e.1
    else GetSensorFromIndexLoop index rest

/-- `GetSensorFromIndex`. -/
def GetSensorFromIndex (sensors : Vector SensorEntry 4) (index : Nat) : Option Sensor_t :=
  GetSensorFromIndexLoop index sensors.toList

/-- The all-zero sensor, which stands for the null pointer in the member `sensor` of the
all-zero prefused objects; those objects are not valid and `Update` does not read them. -/
def nullSensor : Sensor_t :=
  { type := SensorType_t.RADAR,
    tf := { canX := 0, canY := 0, x := 0, y := 0, mounting := 0, fov := 0 } }

/-- `AddInputObject`. -/
def AddInputObject (c : Config) (m : Libm) (prefusedObject : PrefusedObject_t)
    (inputObject : BaseObject_t) (sensor : Sensor_t) : PrefusedObject_t :=
  CreatePrefusedObject c m prefusedObject sensor inputObject.posX inputObject.posY
    inputObject.velX inputObject.velY

/-- The body of the loop of `PrepareInputObjects`, on `prefusedObjectList` and
`numInputObjects`. -/
def PrepareInputStep (c : Config) (m : Libm) (sensors : Vector SensorEntry 4)
    (inputObjectList : Vector BaseObject_t 24) (s : Vector PrefusedObject_t 24 × Nat)
    (i : Fin 24) : Vector PrefusedObject_t 24 × Nat :=
  if (inputObjectList.get i).valid ≠ 0 then
    match GetSensorFromIndex sensors i.val with
    | some sensor =>
      if h : s.2 < 24 then
        (s.1.set ⟨s.2, h⟩ (AddInputObject c m (s.1.get ⟨s.2, h⟩) (inputObjectList.get i) sensor),
         s.2 + 1)
      else (s.1, s.2 + 1)
    | none => s
  else s

/-- `PrepareInputObjects`: returns `prefusedObjectList`. -/
def PrepareInputObjects (c : Config) (m : Libm) (sensors : Vector SensorEntry 4)
    (inputObjectList : Vector BaseObject_t 24) : Vector PrefusedObject_t 24 :=
  ((List.finRange 24).foldl (PrepareInputStep c m sensors inputObjectList)
    (Vector.replicate 24 (zeroPrefusedObject nullSensor), 0)).1

/-- `AddOutputObject`. -/
def AddOutputObject (outputObject : BaseObject_t) (fusedObject : FusedObject_t) :
    BaseObject_t :=
  { outputObject with
    valid := if fusedObject.id = INVALID_ID then 0 else 1
    posX := fusedObject.track.X.get STATE_X
    posY := fusedObject.track.X.get STATE_Y
    velX := fusedObject.track.X.get STATE_VX
    velY := fusedObject.track.X.get STATE_VY }

/-- The body of the loop of `PrepareOutputObjects`, on `outputObjectList` and
`numOutputObjects`. -/
def PrepareOutputStep (c : Config) (fusedObjectList : FusedObjectList)
    (s : Vector BaseObject_t 16 × Nat) (i : Fin 16) : Vector BaseObject_t 16 × Nat :=
  if IsTentativeObjectConfirmed c (fusedObjectList.get i) then
    if h : s.2 < 16 then
      (s.1.set ⟨s.2, h⟩ (AddOutputObject (s.1.get ⟨s.2, h⟩) (fusedObjectList.get i)), s.2 + 1)
    else (s.1, s.2 + 1)
  else s

/-- `PrepareOutputObjects`: returns `outputObjectList`. -/
def PrepareOutputObjects (c : Config) (fusedObjectList : FusedObjectList) :
    Vector BaseObject_t 16 :=
  (slots.foldl (PrepareOutputStep c fusedObjectList) (Vector.replicate 16 zeroBaseObject, 0)).1

/-- `RunAlgorithm`: returns the array `fusedObjectList` and the output array, from the
array `fusedObjectList` on entry and the input array. -/
def RunAlgorithm (c : Config) (m : Libm) (t : Tracking) (g : Gating)
    (sensors : Vector SensorEntry 4) (fusedObjectList : FusedObjectList)
    (pInputObjectList : Vector BaseObject_t 24) :
    Option (FusedObjectList × Vector BaseObject_t 16) :=
  let prefusedObjectList := PrepareInputObjects c m sensors pInputObjectList
  match RunFusion c m t g prefusedObjectList.toList fusedObjectList with
  | none => none
  | some l => some (l, PrepareOutputObjects c l)

/-! ## The divisions of the radar statistics -/

/-- The divisor of the division of `GetLinInterpolatedValue`. -/
def GetLinInterpolatedValueDivisors (_x x1 x2 _y1 _y2 : ℚ) : List ℚ :=
  [x2 - x1]

/-- The divisors of the divisions that `GetBearingConfidence` evaluates. -/
def GetBearingConfidenceDivisors (c : Config) (m : Libm) (targetX targetY : ℚ)
    (sensor : Sensor_t) : List ℚ :=
  let sensorX := targetX - sensor.tf.x
  let sensorY := targetY - sensor.tf.y
  let trueBearing : ℚ := 0
  let maxBearing := sensor.tf.fov / 2
  let weakBearing := maxBearing - c.SENSOR_WEAK_BEARING_AREA
  let targetBearing := |RAD2DEG (GetBearing m sensorX sensorY) - sensor.tf.mounting|
  if targetBearing ≥ trueBearing ∧ targetBearing ≤ weakBearing then
    []
  else if targetBearing > weakBearing ∧ targetBearing ≤ maxBearing then
    GetLinInterpolatedValueDivisors targetBearing weakBearing maxBearing
      c.MAX_BEARING_CONFIDENCE c.MIN_BEARING_CONFIDENCE
  else
    []

/-- The divisors of the divisions that `GetDissimilarityValue` evaluates. -/
def GetDissimilarityValueDivisors (_mean1 _mean2 variance1 variance2 : ℚ) : List ℚ :=
  let variance12 := variance1 + variance2
  if variance12 ≠ 0 then [variance12] else []

/-- The divisors of the divisions that `GetSimilarityValue` evaluates, in the order of the
divisions. -/
def GetSimilarityValueDivisors (mean1 mean2 variance1 variance2 : ℚ) : List ℚ :=
  let dissimilarity := GetDissimilarityValue mean1 mean2 variance1 variance2
  GetDissimilarityValueDivisors mean1 mean2 variance1 variance2 ++
    (if dissimilarity = 0 then [] else [dissimilarity])

/-- The divisors of the divisions that the loop of `GetGatingValue` evaluates over the
remaining states, in the order of the divisions. -/
def GetGatingValueLoopDivisors (g : Gating) (prefusedObject : PrefusedObject_t)
    (fusedObject : FusedObject_t) : List (Fin 4) → List ℚ
  | [] => []
  | i :: rest =>
    let similarityValue := GetSimilarityValue (prefusedObject.plot.Z.get i)
      (fusedObject.track.X.get i) (prefusedObject.plot.R.get (sq i i))
      (fusedObject.track.P.get (sq i i))
    let similarityValue := similarityValue * g.gatingWeights.get i
    GetSimilarityValueDivisors (prefusedObject.plot.Z.get i)
        (fusedObject.track.X.get i) (prefusedObject.plot.R.get (sq i i))
        (fusedObject.track.P.get (sq i i)) ++
      (if similarityValue > STATE_GATING_VALUE_MIN_LIMIT then
        GetGatingValueLoopDivisors g prefusedObject fusedObject rest
      else [])

/-- The divisors of the divisions that `GetGatingValue` evaluates, in the order of the
divisions. -/
def GetGatingValueDivisors (g : Gating) (prefusedObject : PrefusedObject_t)
    (fusedObject : FusedObject_t) : List ℚ :=
  GetGatingValueLoopDivisors g prefusedObject fusedObject states

/-! ## The binary32 arithmetic

The rounding of `f32_t` operations, for the claims that depend on it. -/

/-- The power `2 ^ e` for an integer exponent. -/
def pow2 (e : Int) : ℚ := 2 ^ e

/-- The search for the binade of `x` from the exponent `e` downwards, for at most `n`
steps. -/
def binadeLoop (x : ℚ) : Nat → Int → Int
  | 0, e => e
  | n + 1, e => if pow2 e ≤ x then e else binadeLoop x n (e - 1)

/-- The exponent of the binade of `x` in binary32: the `e` with `2 ^ e ≤ |x| < 2 ^ (e + 1)`,
and `-126` for the subnormal numbers. -/
def binade (x : ℚ) : Int := binadeLoop |x| 253 127

/-- Rounding to the nearest integer, ties to even. -/
def roundHalfEven (s : ℚ) : Int :=
  if s - ⌊s⌋ < 1 / 2 then ⌊s⌋
  else if 1 / 2 < s - ⌊s⌋ then ⌊s⌋ + 1
  else if ⌊s⌋ % 2 = 0 then ⌊s⌋ else ⌊s⌋ + 1

/-- The binary32 number nearest to `x`, ties to even, for `|x|` below `2 ^ 128`. -/
def roundF32 (x : ℚ) : ℚ :=
  roundHalfEven (x / pow2 (binade x - 23)) * pow2 (binade x - 23)

/-- The product of two binary32 numbers. -/
def mulF32 (a b : ℚ) : ℚ := roundF32 (a * b)

/-- The sum of two binary32 numbers. -/
def addF32 (a b : ℚ) : ℚ := roundF32 (a + b)

/-- The difference of two binary32 numbers. -/
def subF32 (a b : ℚ) : ℚ := roundF32 (a - b)

/-- The quotient of two binary32 numbers. -/
def divF32 (a b : ℚ) : ℚ := roundF32 (a / b)

/-- `GetLinInterpolatedValue` in binary32: every operation is rounded. -/
def GetLinInterpolatedValueF32 (x x1 x2 y1 y2 : ℚ) : ℚ :=
  addF32 (mulF32 (divF32 (subF32 y2 y1) (subF32 x2 x1)) (subF32 x x1)) y1

/-- Each slot of `l'` is either the all-zero object, or has the id it has in `l`
and, when that id is `INVALID_ID`, is the slot of `l`. -/
def Benign (l l' : FusedObjectList) : Prop :=
  ∀ k, l'.get k = zeroFusedObject ∨
    ((l'.get k).id = (l.get k).id ∧ ((l.get k).id = INVALID_ID → l'.get k = l.get k))

/-- The weighted similarity `s_i` of a measurement and a track at the state `i`. -/
def stateSimilarity (g : Gating) (prefusedObject : PrefusedObject_t)
    (fusedObject : FusedObject_t) (i : Fin 4) : ℚ :=
  GetSimilarityValue (prefusedObject.plot.Z.get i) (fusedObject.track.X.get i)
    (prefusedObject.plot.R.get (sq i i)) (fusedObject.track.P.get (sq i i)) *
    g.gatingWeights.get i

/-- The invariant of the loop of `IsInsideAcceptanceGate` on `bestGatingValue` and
`*pairIndex`, after the slots in `seen` have been scanned: either nothing has been written
and no live slot scanned has a gating value above the invalid one, or `*pairIndex` is a
live slot scanned, `bestGatingValue` is its gating value, no live slot scanned has a
greater one and every live slot scanned before it has a smaller one. -/
def GateInv (g : Gating) (p : PrefusedObject_t) (l : FusedObjectList) (seen : Fin 16 → Prop)
    (r : ℚ × Option (Fin 16)) : Prop :=
  (r.2 = none → r.1 = INVALID_GATING_VALUE ∧
    ∀ i, seen i → (l.get i).id ≠ INVALID_ID →
      GetGatingValue g p (l.get i) ≤ INVALID_GATING_VALUE) ∧
  ∀ k, r.2 = some k →
    seen k ∧ (l.get k).id ≠ INVALID_ID ∧ r.1 = GetGatingValue g p (l.get k) ∧
    INVALID_GATING_VALUE < r.1 ∧
    (∀ i, seen i → (l.get i).id ≠ INVALID_ID → GetGatingValue g p (l.get i) ≤ r.1) ∧
    ∀ i, seen i → (l.get i).id ≠ INVALID_ID → i < k → GetGatingValue g p (l.get i) < r.1

/-- The invariant of the loop of `GetWorstPriority` on `worstPriority` and `*objectIndex`,
after the slots in `seen`, all live, have been scanned: either nothing has been written and
no slot scanned has a priority below `MAX_PRIORITY`, or `*objectIndex` is a slot scanned,
`worstPriority` is its priority, no slot scanned has a smaller one and every slot scanned
before it has a greater one. -/
def WorstInv (l : FusedObjectList) (seen : Fin 16 → Prop) (r : ℚ × Option (Fin 16)) : Prop :=
  (r.2 = none → r.1 = MAX_PRIORITY ∧ ∀ i, seen i → MAX_PRIORITY ≤ (l.get i).priority) ∧
  ∀ k, r.2 = some k →
    seen k ∧ r.1 = (l.get k).priority ∧ r.1 < MAX_PRIORITY ∧
    (∀ i, seen i → r.1 ≤ (l.get i).priority) ∧
    ∀ i, seen i → i < k → r.1 < (l.get i).priority

/-- The four state differences of two objects are within the prune limits (the condition
of `CheckObjectsForPruning`). -/
def WithinPruneLimits (c : Config) (o1 o2 : FusedObject_t) : Prop :=
  |o1.track.X.get STATE_X - o2.track.X.get STATE_X| ≤ c.PRUNE_LIMIT_X ∧
  |o1.track.X.get STATE_Y - o2.track.X.get STATE_Y| ≤ c.PRUNE_LIMIT_Y ∧
  |o1.track.X.get STATE_VX - o2.track.X.get STATE_VX| ≤ c.PRUNE_LIMIT_VX ∧
  |o1.track.X.get STATE_VY - o2.track.X.get STATE_VY| ≤ c.PRUNE_LIMIT_VY

/-- Some state difference of two objects is above its prune limit. -/
def BeyondPruneLimits (c : Config) (o1 o2 : FusedObject_t) : Prop :=
  c.PRUNE_LIMIT_X < |o1.track.X.get STATE_X - o2.track.X.get STATE_X| ∨
  c.PRUNE_LIMIT_Y < |o1.track.X.get STATE_Y - o2.track.X.get STATE_Y| ∨
  c.PRUNE_LIMIT_VX < |o1.track.X.get STATE_VX - o2.track.X.get STATE_VX| ∨
  c.PRUNE_LIMIT_VY < |o1.track.X.get STATE_VY - o2.track.X.get STATE_VY|

/-- The table holds one track only, in the slot `s`, with the id `d`, the counters
`lifetimeCounter = L` and `lostCounter = K` and no `seenThisCycle` flag set; every other
slot is the all-zero object. -/
def Coasting (s : Fin 16) (d L K : Nat) (l : FusedObjectList) : Prop :=
  (l.get s).id = d ∧ (l.get s).lifetimeCounter = L ∧ (l.get s).lostCounter = K ∧
  (l.get s).seenThisCycle = Vector.replicate 4 0 ∧
  ∀ i, i ≠ s → l.get i = zeroFusedObject

/-- The angle `theta` between the bearing of the target, seen from the sensor, and the
mounting direction of the sensor, in degrees. -/
def targetBearing (m : Libm) (targetX targetY : ℚ) (sensor : Sensor_t) : ℚ :=
  |RAD2DEG (GetBearing m (targetX - sensor.tf.x) (targetY - sensor.tf.y)) - sensor.tf.mounting|

/-- The slots of the table that hold a confirmed track, in slot order. -/
def confirmedSlots (c : Config) (l : FusedObjectList) : List (Fin 16) :=
  slots.filter (fun i => IsTentativeObjectConfirmed c (l.get i))

/-- The output array that carries the states of the slots `is` of the table, in the order
of the list, in its first entries, and is all-zero behind them. -/
def packedOutput (l : FusedObjectList) (is : List (Fin 16)) : Vector BaseObject_t 16 :=
  Vector.ofFn fun k : Fin 16 =>
    match is.get? k.val with
    | some i =>
      { valid := 1,
        posX := (l.get i).track.X.get STATE_X, posY := (l.get i).track.X.get STATE_Y,
        velX := (l.get i).track.X.get STATE_VX, velY := (l.get i).track.X.get STATE_VY }
    | none => zeroBaseObject

/-- The gate of the specification without the threshold on the sum: some live track has all
four weighted state similarities above `STATE_GATING_VALUE_MIN_LIMIT`. -/
def GateBySimilarities (g : Gating) (prefusedObject : PrefusedObject_t)
    (fusedObjectList : FusedObjectList) : Prop :=
  ∃ i, (fusedObjectList.get i).id ≠ INVALID_ID ∧
    ∀ s, stateSimilarity g prefusedObject (fusedObjectList.get i) s >
      STATE_GATING_VALUE_MIN_LIMIT

/-- Each slot of `l'` is the slot of `l` or the all-zero object: tracks have been reset
only. -/
def Kept (l l' : FusedObjectList) : Prop :=
  ∀ k, l'.get k = zeroFusedObject ∨ l'.get k = l.get k

/-- The ten index pairs `(j, i)` that `DecomposeUD` is meant to visit: `j = 3, 2, 1, 0` and
`i = j, ..., 0`. -/
def intendedDecomposeUDVisits : List (Int × Int) :=
  statesDown.flatMap fun j => (downFrom j).map fun i => ((j.val : Int), (i.val : Int))

/-- A prefused object used in the examples: position `(4, 3)`, velocity
`(10, 0)`, priority `145`. -/
def examplePrefused : PrefusedObject_t :=
  { valid := 1,
    plot := { Z := ⟨[4, 3, 10, 0], rfl⟩,
              R := ⟨[1 / 4, 0, 0, 0, 0, 1 / 4, 0, 0, 0, 0, 9 / 4, 0, 0, 0, 0, 9 / 4], rfl⟩,
              weight := 1 },
    sensor := { type := SensorType_t.RADAR,
                tf := { canX := 0, canY := 0, x := -1 / 2, y := 1 / 2, mounting := 70,
                        fov := 140 } },
    priority := 145 }

/-- A stand-in for the C library in the examples. -/
def exampleLibm : Libm :=
  { sqrt := fun _ => 5, atan2 := fun _ _ => 0, cos := fun _ => 1, sin := fun _ => 0 }

/-- A track with the state and the noise diagonal of the plot of `examplePrefused`:
`X = Z`, `P = diag(R)`, `P_U` the identity and `P_D` the diagonal of `R`. -/
def exampleTrack : Track_t :=
  { X := ⟨[4, 3, 10, 0], rfl⟩,
    P := ⟨[1 / 4, 0, 0, 0, 0, 1 / 4, 0, 0, 0, 0, 9 / 4, 0, 0, 0, 0, 9 / 4], rfl⟩,
    P_U := ⟨[1, 0, 0, 0, 1, 0, 0, 1, 0, 1], rfl⟩,
    P_D := ⟨[1 / 4, 1 / 4, 9 / 4, 9 / 4], rfl⟩ }

/-- A table with one live track, in the slot `0`: the track of `exampleTrack` with the
id `1` and the priority `145`. -/
def exampleTable : FusedObjectList :=
  zeroFusedObjectList.set 0
    { id := 1, track := exampleTrack, lifetimeCounter := 1,
      seenThisCycle := Vector.replicate 4 0, lostCounter := 0, priority := 145 }

/-- A full table: the slot `i` holds the track of `exampleTrack` with the id `i + 1` and
the priority `145`. -/
def exampleFullTable : FusedObjectList :=
  Vector.ofFn fun i : Fin 16 =>
    { id := i.val + 1, track := exampleTrack, lifetimeCounter := 1,
      seenThisCycle := Vector.replicate 4 0, lostCounter := 0, priority := 145 }

/-- A live object in the state `(4, 3, 10, 0)` with the id `1` and the priority `145`
(the first object of the unit tests of the pruning). -/
def exampleObject1 : FusedObject_t :=
  { id := 1, track := { zeroTrack with X := ⟨[4, 3, 10, 0], rfl⟩ }, lifetimeCounter := 1,
    seenThisCycle := Vector.replicate 4 0, lostCounter := 0, priority := 145 }

/-- A live object in the state `(4, 3, 10, 0)` with the id `2` and the priority `140`
(the second object of the unit test `objectPruning1`). -/
def exampleObject2 : FusedObject_t :=
  { exampleObject1 with id := 2, priority := 140 }

/-- A live object in the state `(4, 3, 10, 0)` with the id `2` and the priority `145`
(the second object of the unit test `objectPruning2`). -/
def exampleObject3 : FusedObject_t :=
  { exampleObject1 with id := 2 }

/-- A table with two live tracks of equal priority and identical state, in the slots `0`
and `1`. -/
def exampleTwins : FusedObjectList :=
  (zeroFusedObjectList.set 0 exampleObject1).set 1 exampleObject3

/-- The tunables of `reconfigure.c` with `MAX_COASTING_CYCLES` set to `254`. -/
def configCoast254 : Config :=
  { defaultConfig with MAX_COASTING_CYCLES := 254 }

/-- The tunables of `reconfigure.c` with `MAX_COASTING_CYCLES` set to `255`. -/
def configCoast255 : Config :=
  { defaultConfig with MAX_COASTING_CYCLES := 255 }

/-- A live track that has lived `300` cycles and has not been seen for the last `254`. -/
def exampleCoasted : FusedObject_t :=
  { exampleObject1 with lifetimeCounter := 300, lostCounter := 254 }

/-- A live track that has lived `65534` cycles and has been seen by the first sensor in
the current cycle. -/
def exampleOld : FusedObject_t :=
  { exampleObject1 with lifetimeCounter := 65534, seenThisCycle := ⟨[1, 0, 0, 0], rfl⟩ }

/-- A table whose slot `0` is free and whose slot `1` holds a live track that has lived `5`
cycles: the track of `exampleTrack` with the id `2` and the priority `145`. -/
def exampleGapTable : FusedObjectList :=
  zeroFusedObjectList.set 1
    { id := 2, track := exampleTrack, lifetimeCounter := 5,
      seenThisCycle := Vector.replicate 4 0, lostCounter := 0, priority := 145 }

/-- The tunables of `reconfigure.c` with `SIGMA_DOPPLER` set to `1 / 20`, below
`SIGMA_BASE`. -/
def configLowDoppler : Config :=
  { defaultConfig with SIGMA_DOPPLER := 1 / 20 }

/-- The tunables of `reconfigure.c` with `SENSOR_WEAK_BEARING_AREA` set to `-10`. -/
def configNegativeWeakArea : Config :=
  { defaultConfig with SENSOR_WEAK_BEARING_AREA := -10 }

/-- A sensor at the origin with the field of view `140` and the mounting angle `75`. -/
def exampleSensor75 : Sensor_t :=
  { type := SensorType_t.RADAR,
    tf := { canX := 0, canY := 0, x := 0, y := 0, mounting := 75, fov := 140 } }

/-- A sensor at the origin with the field of view `140` and the mounting angle `65`. -/
def exampleSensor65 : Sensor_t :=
  { type := SensorType_t.RADAR,
    tf := { canX := 0, canY := 0, x := 0, y := 0, mounting := 65, fov := 140 } }

/-- The prefused object of the unit test `zeroVarianceGating`: `Z = (4, 3, 10, 0)` and an
all-zero `R`. -/
def exampleZeroVariancePlot : PrefusedObject_t :=
  { examplePrefused with
    plot := { Z := ⟨[4, 3, 10, 0], rfl⟩, R := Vector.replicate 16 0, weight := 1 } }

/-- The fused object of the unit test `zeroVarianceGating`: `X = (4, 3, 10, 0)` and an
all-zero `P`. -/
def exampleZeroVarianceTrack : FusedObject_t :=
  exampleObject1

/-- A table with one live track, in the slot `0`: the track of `exampleTrack` with the id
`1`, which has lived `65534` cycles. -/
def exampleOldTable : FusedObjectList :=
  zeroFusedObjectList.set 0
    { id := 1, track := exampleTrack, lifetimeCounter := 65534,
      seenThisCycle := Vector.replicate 4 0, lostCounter := 0, priority := 145 }

/-- A stand-in for the C library whose square root is increasing and exact at `40000`:
`sqrt x = x / 200`. -/
def exampleLibmLinear : Libm :=
  { sqrt := fun x => x / 200, atan2 := fun _ _ => 0, cos := fun _ => 1, sin := fun _ => 0 }

/-- A table with two live tracks in the slots `0` and `1`, in the same state, with the
priorities `145` and `140`. -/
def exampleNearTable : FusedObjectList :=
  (zeroFusedObjectList.set 0 exampleObject1).set 1 exampleObject2

/-- The measurement that the functional tests build in the all-zero slot `0` of
`prefusedObjectList`, with the default tunables. -/
def testMeasurement (m : Libm) (s : Sensor_t) (x y vx vy : ℚ) : PrefusedObject_t :=
  CreatePrefusedObject defaultConfig m (zeroPrefusedObject nullSensor) s x y vx vy

/-- A state vector used in the examples. -/
def exampleX : Vector ℚ 4 := ⟨[4, 3, 10, 0], rfl⟩

/-- File-scope matrices used in the examples: `F` and `Q` as `InitF` and `InitQ` give them
for the default tunables, and the all-zero arrays for the factors of `Q`. -/
def exampleTracking : Tracking :=
  { F := InitF CYCLE_TIME, Q := InitQ defaultConfig CYCLE_TIME, Qu := Vector.replicate 10 0,
    Qd := Vector.replicate 4 0 }

/-- The tunables of `reconfigure.c` with `MIN_BEARING_CONFIDENCE = 0`,
`MAX_BEARING_CONFIDENCE = 0.1f`, which is `13421773 / 2 ^ 27` in binary32, and
`SENSOR_WEAK_BEARING_AREA = 3`. -/
def configNarrowWeakArea : Config :=
  { defaultConfig with
    MIN_BEARING_CONFIDENCE := 0
    MAX_BEARING_CONFIDENCE := 13421773 / 134217728
    SENSOR_WEAK_BEARING_AREA := 3 }

/-- A sensor at the origin with the field of view `60` and the mounting angle `30`. -/
def exampleSensor30 : Sensor_t :=
  { type := SensorType_t.RADAR,
    tf := { canX := 0, canY := 0, x := 0, y := 0, mounting := 30, fov := 60 } }

/-- A stand-in for the C library whose square root is rounded down to a multiple of
`2 ^ (-16)`; the other functions have the values of the C library at the angle `0`. -/
def exampleLibmRounded : Libm :=
  { sqrt := fun x => (Nat.sqrt ⌊x * 4294967296⌋₊ : ℚ) / 65536, atan2 := fun _ _ => 0,
    cos := fun _ => 1, sin := fun _ => 0 }

/-- `GetObjectPriority` in binary32: every operation of `GetRange` and of the subtraction
is rounded, and the square root of the C library is applied to the rounded sum. -/
def GetObjectPriorityF32 (m : Libm) (dist_x dist_y : ℚ) : ℚ :=
  subF32 MAX_PRIORITY (m.sqrt (addF32 (mulF32 dist_x dist_x) (mulF32 dist_y dist_y)))

/-! ## Basic lemmas -/

theorem get_set {α : Type} {n : Nat} (v : Vector α n) (i j : Fin n) (a : α) :
    (v.set i a).get j = if i = j then a else v.get j :=
  Vector.get_set_eq_if a

theorem foldl_preserves {σ ι : Type} (P : σ → Prop) (f : σ → ι → σ)
    (h : ∀ s x, P s → P (f s x)) (xs : List ι) (s : σ) (hs : P s) : P (xs.foldl f s) := by
  induction xs generalizing s with
  | nil => exact hs
  | cons x xs ih => exact ih _ (h s x hs)

theorem mem_slots (i : Fin 16) : i ∈ slots := by
  revert i; decide

theorem mem_states (i : Fin 4) : i ∈ states := by
  revert i; decide

theorem zeroFusedObjectList_get (i : Fin 16) : zeroFusedObjectList.get i = zeroFusedObject := by
  unfold zeroFusedObjectList
  exact Vector.get_replicate _ _

theorem ResetFusedObject_eq (o : FusedObject_t) : ResetFusedObject o = zeroFusedObject := rfl

theorem Benign.trans {l l' l'' : FusedObjectList} (h : Benign l l') (h' : Benign l' l'') :
    Benign l l'' := by
  intro k
  rcases h' k with hz | ⟨hid, hfree⟩
  · exact Or.inl hz
  · rcases h k with hz | ⟨hid', hfree'⟩
    · left
      rw [hfree (by rw [hz]; rfl), hz]
    · right
      refine ⟨hid.trans hid', fun h0 => ?_⟩
      rw [hfree (by rw [hid', h0]), hfree' h0]

theorem IsIdUsedLoop_iff (l : FusedObjectList) (id : Nat) (xs : List (Fin 16)) :
    IsIdUsedLoop l id xs = true ↔ ∃ i ∈ xs, (l.get i).id = id := by
  induction xs with
  | nil => simp [IsIdUsedLoop]
  | cons x xs ih =>
    unfold IsIdUsedLoop
    by_cases hx : (l.get x).id = id
    · simp [hx]
    · simp [hx, ih]

theorem IsIdUsed_iff (l : FusedObjectList) (id : Nat) :
    IsIdUsed l id = true ↔ ∃ i, (l.get i).id = id := by
  unfold IsIdUsed
  rw [IsIdUsedLoop_iff]
  exact ⟨fun ⟨i, _, h⟩ => ⟨i, h⟩, fun ⟨i, h⟩ => ⟨i, mem_slots i, h⟩⟩

theorem GetAvailableIdLoop_spec (l : FusedObjectList) (xs : List Nat) :
    (GetAvailableIdLoop l xs ∈ xs ∧ IsIdUsed l (GetAvailableIdLoop l xs) = false) ∨
    (GetAvailableIdLoop l xs = INVALID_ID ∧ ∀ x ∈ xs, IsIdUsed l x = true) := by
  induction xs with
  | nil => right; simp [GetAvailableIdLoop]
  | cons x xs ih =>
    unfold GetAvailableIdLoop
    by_cases hx : IsIdUsed l x = true
    · simp only [hx, Bool.not_true, Bool.false_eq_true, if_false]
      rcases ih with ⟨h1, h2⟩ | ⟨h1, h2⟩
      · left; exact ⟨List.mem_cons_of_mem _ h1, h2⟩
      · right
        refine ⟨h1, fun y hy => ?_⟩
        rcases List.mem_cons.1 hy with rfl | hy
        · exact hx
        · exact h2 y hy
    · have hx' : IsIdUsed l x = false := by simpa using hx
      simp [hx']

/-- Sixteen slots cannot hold each of the thirty-one ids `1, ..., 31`. -/
theorem exists_unused_id (l : FusedObjectList) :
    ∃ id, 1 ≤ id ∧ id < 32 ∧ ∀ i, (l.get i).id ≠ id := by
  by_contra h
  push_neg at h
  choose f hf using fun k : Fin 31 => h (k.val + 1) (by omega) (by omega)
  have hinj : Function.Injective f := by
    intro a b hab
    have ha := hf a
    have hb := hf b
    rw [hab, hb] at ha
    exact Fin.ext (by omega)
  have := Fintype.card_le_of_injective f hinj
  simp at this

theorem GetAvailableId_spec (l : FusedObjectList) :
    1 ≤ GetAvailableId l ∧ GetAvailableId l < MAX_ID ∧ ∀ i, (l.get i).id ≠ GetAvailableId l := by
  unfold GetAvailableId
  rcases GetAvailableIdLoop_spec l (List.range' (INVALID_ID + 1) (MAX_ID - 1)) with ⟨h1, h2⟩ | ⟨_, h2⟩
  · rw [List.mem_range'_1] at h1
    refine ⟨by simpa [INVALID_ID] using h1.1, by have := h1.2; simp [INVALID_ID, MAX_ID] at this ⊢; omega, fun i hi => ?_⟩
    have : IsIdUsed l _ = true := (IsIdUsed_iff l _).2 ⟨i, hi⟩
    rw [h2] at this
    exact Bool.noConfusion this
  · exfalso
    obtain ⟨id, h1, h32, hid⟩ := exists_unused_id l
    have hmem : id ∈ List.range' (INVALID_ID + 1) (MAX_ID - 1) := by
      rw [List.mem_range'_1]; simp [INVALID_ID, MAX_ID]; omega
    obtain ⟨i, hi⟩ := (IsIdUsed_iff l id).1 (h2 id hmem)
    exact hid i hi

theorem CheckObjectsForPruning_cases (c : Config) (o1 o2 : FusedObject_t) :
    ((CheckObjectsForPruning c o1 o2).1 = o1 ∨ (CheckObjectsForPruning c o1 o2).1 = zeroFusedObject) ∧
    ((CheckObjectsForPruning c o1 o2).2 = o2 ∨ (CheckObjectsForPruning c o1 o2).2 = zeroFusedObject) := by
  unfold CheckObjectsForPruning
  split_ifs <;> simp [ResetFusedObject_eq]

@[simp] theorem sq_0_0 : sq 0 0 = 0 := rfl
@[simp] theorem sq_0_1 : sq 0 1 = 1 := rfl
@[simp] theorem sq_0_2 : sq 0 2 = 2 := rfl
@[simp] theorem sq_0_3 : sq 0 3 = 3 := rfl
@[simp] theorem sq_1_0 : sq 1 0 = 4 := rfl
@[simp] theorem sq_1_1 : sq 1 1 = 5 := rfl
@[simp] theorem sq_1_2 : sq 1 2 = 6 := rfl
@[simp] theorem sq_1_3 : sq 1 3 = 7 := rfl
@[simp] theorem sq_2_0 : sq 2 0 = 8 := rfl
@[simp] theorem sq_2_1 : sq 2 1 = 9 := rfl
@[simp] theorem sq_2_2 : sq 2 2 = 10 := rfl
@[simp] theorem sq_2_3 : sq 2 3 = 11 := rfl
@[simp] theorem sq_3_0 : sq 3 0 = 12 := rfl
@[simp] theorem sq_3_1 : sq 3 1 = 13 := rfl
@[simp] theorem sq_3_2 : sq 3 2 = 14 := rfl
@[simp] theorem sq_3_3 : sq 3 3 = 15 := rfl
@[simp] theorem upper_0_0 : GET_UPPER_INDEX 0 0 = 0 := rfl
@[simp] theorem upper_0_1 : GET_UPPER_INDEX 0 1 = 1 := rfl
@[simp] theorem upper_0_2 : GET_UPPER_INDEX 0 2 = 2 := rfl
@[simp] theorem upper_0_3 : GET_UPPER_INDEX 0 3 = 3 := rfl
@[simp] theorem upper_1_1 : GET_UPPER_INDEX 1 1 = 4 := rfl
@[simp] theorem upper_1_2 : GET_UPPER_INDEX 1 2 = 5 := rfl
@[simp] theorem upper_1_3 : GET_UPPER_INDEX 1 3 = 6 := rfl
@[simp] theorem upper_2_2 : GET_UPPER_INDEX 2 2 = 7 := rfl
@[simp] theorem upper_2_3 : GET_UPPER_INDEX 2 3 = 8 := rfl
@[simp] theorem upper_3_3 : GET_UPPER_INDEX 3 3 = 9 := rfl

/-! ## Entries of the matrix helpers -/

theorem sq_val (i j : Fin 4) : (sq i j).val = 4 * i.val + j.val := rfl

/-- Two full matrices with the same entries are the same array. -/
theorem ext_sq (A B : Vector ℚ 16) (h : ∀ i j, A.get (sq i j) = B.get (sq i j)) : A = B := by
  refine Vector.ext fun k => ?_
  have e : sq ⟨k.val / 4, by omega⟩ ⟨k.val % 4, by omega⟩ = k :=
    Fin.ext (by simp only [sq_val]; omega)
  have := h ⟨k.val / 4, by omega⟩ ⟨k.val % 4, by omega⟩
  rwa [e] at this

@[simp] theorem val_three : ((3 : Fin 4) : Nat) = 3 := rfl

/-! ## The composition of the factors -/

theorem GetGatingValueLoop_cons (g : Gating) (p : PrefusedObject_t) (o : FusedObject_t)
    (i : Fin 4) (rest : List (Fin 4)) (v : ℚ) :
    GetGatingValueLoop g p o (i :: rest) v =
      if stateSimilarity g p o i > STATE_GATING_VALUE_MIN_LIMIT then
        GetGatingValueLoop g p o rest (v + stateSimilarity g p o i)
      else INVALID_GATING_VALUE := rfl

/-- C8: with `s_i` the weighted similarity of the measurement and the track at the state
`i`, `GetGatingValue` returns the invalid value `-1` if some `s_i` is at most
`STATE_GATING_VALUE_MIN_LIMIT`, which is `1 / 10`, and returns `s_0 + s_1 + s_2 + s_3`
otherwise. -/
theorem c8_gating_value_is_sum_or_invalid (g : Gating) (p : PrefusedObject_t)
    (o : FusedObject_t) :
    GetGatingValue g p o =
      (if ∃ i : Fin 4, stateSimilarity g p o i ≤ 1 / 10 then -1
       else stateSimilarity g p o 0 + stateSimilarity g p o 1 + stateSimilarity g p o 2 +
         stateSimilarity g p o 3) ∧
    STATE_GATING_VALUE_MIN_LIMIT = 1 / 10 ∧ INVALID_GATING_VALUE = -1 := by
  refine ⟨?_, rfl, ?_⟩
  · unfold GetGatingValue states
    simp only [GetGatingValueLoop_cons]
    have hlim : STATE_GATING_VALUE_MIN_LIMIT = 1 / 10 := rfl
    have hinv : INVALID_GATING_VALUE = -1 := by
      norm_num [INVALID_GATING_VALUE, INVALID_SIMILARITY_VALUE]
    rw [hlim, hinv]
    by_cases h0 : stateSimilarity g p o 0 > 1 / 10
    · by_cases h1 : stateSimilarity g p o 1 > 1 / 10
      · by_cases h2 : stateSimilarity g p o 2 > 1 / 10
        · by_cases h3 : stateSimilarity g p o 3 > 1 / 10
          · have hne : ¬ ∃ i : Fin 4, stateSimilarity g p o i ≤ 1 / 10 := by
              rintro ⟨i, hi⟩
              fin_cases i
              · exact absurd h0 (not_lt.2 hi)
              · exact absurd h1 (not_lt.2 hi)
              · exact absurd h2 (not_lt.2 hi)
              · exact absurd h3 (not_lt.2 hi)
            rw [if_pos h0, if_pos h1, if_pos h2, if_pos h3, if_neg hne]
            simp only [GetGatingValueLoop, zero_add]
          · rw [if_pos h0, if_pos h1, if_pos h2, if_neg h3, if_pos ⟨3, not_lt.1 h3⟩]
        · rw [if_pos h0, if_pos h1, if_neg h2, if_pos ⟨2, not_lt.1 h2⟩]
      · rw [if_pos h0, if_neg h1, if_pos ⟨1, not_lt.1 h1⟩]
    · rw [if_neg h0, if_pos ⟨0, not_lt.1 h0⟩]
  · norm_num [INVALID_GATING_VALUE, INVALID_SIMILARITY_VALUE]

theorem GateInv_congr (g : Gating) (p : PrefusedObject_t) (l : FusedObjectList)
    (seen seen' : Fin 16 → Prop) (r : ℚ × Option (Fin 16)) (h : ∀ i, seen i ↔ seen' i)
    (hr : GateInv g p l seen r) : GateInv g p l seen' r := by
  have e : seen = seen' := funext fun i => propext (h i)
  rw [← e]; exact hr

theorem GateInv_step (g : Gating) (p : PrefusedObject_t) (l : FusedObjectList)
    (seen : Fin 16 → Prop) (r : ℚ × Option (Fin 16)) (j : Fin 16)
    (hseen : ∀ i, seen i → i < j) (hr : GateInv g p l seen r) :
    GateInv g p l (fun i => seen i ∨ i = j) (IsInsideAcceptanceGateStep g p l r j) := by
  obtain ⟨hnone, hsome⟩ := hr
  have hle : ∀ i, seen i → (l.get i).id ≠ INVALID_ID → GetGatingValue g p (l.get i) ≤ r.1 := by
    intro i hi hlive
    cases h2 : r.2 with
    | none => rw [(hnone h2).1]; exact (hnone h2).2 i hi hlive
    | some k => exact (hsome k h2).2.2.2.2.1 i hi hlive
  have hinv : INVALID_GATING_VALUE ≤ r.1 := by
    cases h2 : r.2 with
    | none => rw [(hnone h2).1]
    | some k => exact (hsome k h2).2.2.2.1.le
  unfold IsInsideAcceptanceGateStep
  by_cases hlive : (l.get j).id ≠ INVALID_ID
  · rw [if_pos hlive]
    simp only
    by_cases hgt : GetGatingValue g p (l.get j) > r.1
    · rw [if_pos hgt]
      refine ⟨fun h => by simp at h, fun k hk => ?_⟩
      simp only [Option.some.injEq] at hk
      subst hk
      refine ⟨Or.inr rfl, hlive, rfl, lt_of_le_of_lt hinv hgt, fun i hi hl => ?_,
        fun i hi hl hij => ?_⟩
      · rcases hi with hi | hi
        · exact le_trans (hle i hi hl) hgt.le
        · rw [hi]
      · rcases hi with hi | hi
        · exact lt_of_le_of_lt (hle i hi hl) hgt
        · exact absurd hi (ne_of_lt hij)
    · rw [if_neg hgt]
      refine ⟨fun h => ⟨(hnone h).1, fun i hi hl => ?_⟩, fun k hk => ?_⟩
      · rcases hi with hi | hi
        · exact (hnone h).2 i hi hl
        · rw [hi, ← (hnone h).1]; exact not_lt.1 hgt
      · obtain ⟨a1, a2, a3, a4, a5, a6⟩ := hsome k hk
        refine ⟨Or.inl a1, a2, a3, a4, fun i hi hl => ?_, fun i hi hl hik => ?_⟩
        · rcases hi with hi | hi
          · exact a5 i hi hl
          · rw [hi]; exact not_lt.1 hgt
        · rcases hi with hi | hi
          · exact a6 i hi hl hik
          · rw [hi] at hik
            exact absurd (hseen k a1) (not_lt.2 hik.le)
  · rw [if_neg hlive]
    refine ⟨fun h => ⟨(hnone h).1, fun i hi hl => ?_⟩, fun k hk => ?_⟩
    · rcases hi with hi | hi
      · exact (hnone h).2 i hi hl
      · rw [hi] at hl; exact absurd hl hlive
    · obtain ⟨a1, a2, a3, a4, a5, a6⟩ := hsome k hk
      refine ⟨Or.inl a1, a2, a3, a4, fun i hi hl => ?_, fun i hi hl hik => ?_⟩
      · rcases hi with hi | hi
        · exact a5 i hi hl
        · rw [hi] at hl; exact absurd hl hlive
      · rcases hi with hi | hi
        · exact a6 i hi hl hik
        · rw [hi] at hl; exact absurd hl hlive

theorem GateInv_fold (g : Gating) (p : PrefusedObject_t) (l : FusedObjectList)
    (xs : List (Fin 16)) (hsorted : xs.Pairwise (fun a b => a < b))
    (seen : Fin 16 → Prop) (r : ℚ × Option (Fin 16))
    (hseen : ∀ i, seen i → ∀ x ∈ xs, i < x) (hr : GateInv g p l seen r) :
    GateInv g p l (fun i => seen i ∨ i ∈ xs)
      (xs.foldl (IsInsideAcceptanceGateStep g p l) r) := by
  induction xs generalizing seen r with
  | nil => exact GateInv_congr g p l seen _ r (fun i => by simp) hr
  | cons j xs ih =>
    have hp := List.pairwise_cons.1 hsorted
    have h1 := GateInv_step g p l seen r j (fun i hi => hseen i hi j (List.mem_cons_self _ _)) hr
    have h2 := ih hp.2 (fun i => seen i ∨ i = j) (IsInsideAcceptanceGateStep g p l r j)
      (fun i hi x hx => by
        rcases hi with hi | hi
        · exact hseen i hi x (List.mem_cons_of_mem _ hx)
        · rw [hi]; exact hp.1 x hx) h1
    simp only [List.foldl_cons]
    exact GateInv_congr g p l _ _ _ (fun i => by simp [or_assoc]) h2

theorem slots_sorted : slots.Pairwise (fun a b => a < b) := by
  unfold slots
  decide

theorem IsInsideAcceptanceGate_inv (g : Gating) (p : PrefusedObject_t) (l : FusedObjectList) :
    GateInv g p l (fun _ => True)
      (slots.foldl (IsInsideAcceptanceGateStep g p l) (INVALID_GATING_VALUE, none)) := by
  have h := GateInv_fold g p l slots slots_sorted (fun _ => False) (INVALID_GATING_VALUE, none)
    (fun i hi => absurd hi id)
    ⟨fun _ => ⟨rfl, fun i hi => absurd hi id⟩, fun k hk => by simp at hk⟩
  exact GateInv_congr g p l _ _ _ (fun i => by simp [mem_slots]) h

/-- The result of `IsInsideAcceptanceGate`, for a threshold that is not below the invalid
gating value. -/
theorem IsInsideAcceptanceGate_spec (g : Gating) (p : PrefusedObject_t) (l : FusedObjectList)
    (hg : INVALID_GATING_VALUE ≤ g.totalGatingValueMinLimit) :
    ((IsInsideAcceptanceGate g p l).1 = true ↔
      ∃ i, (l.get i).id ≠ INVALID_ID ∧
        GetGatingValue g p (l.get i) > g.totalGatingValueMinLimit) ∧
    ((IsInsideAcceptanceGate g p l).1 = true →
      ∃ k, (IsInsideAcceptanceGate g p l).2 = some k ∧ (l.get k).id ≠ INVALID_ID ∧
        (∀ i, (l.get i).id ≠ INVALID_ID →
          GetGatingValue g p (l.get i) ≤ GetGatingValue g p (l.get k)) ∧
        ∀ i, (l.get i).id ≠ INVALID_ID → i < k →
          GetGatingValue g p (l.get i) < GetGatingValue g p (l.get k)) := by
  obtain ⟨hnone, hsome⟩ := IsInsideAcceptanceGate_inv g p l
  have h1 : (IsInsideAcceptanceGate g p l).1 = true ↔
      (slots.foldl (IsInsideAcceptanceGateStep g p l) (INVALID_GATING_VALUE, none)).1 >
        g.totalGatingValueMinLimit := by
    unfold IsInsideAcceptanceGate
    simp only [decide_eq_true_eq]
  have h2 : (IsInsideAcceptanceGate g p l).2 =
      (slots.foldl (IsInsideAcceptanceGateStep g p l) (INVALID_GATING_VALUE, none)).2 := rfl
  have hk : (IsInsideAcceptanceGate g p l).1 = true →
      ∃ k, (IsInsideAcceptanceGate g p l).2 = some k ∧ (l.get k).id ≠ INVALID_ID ∧
        GetGatingValue g p (l.get k) > g.totalGatingValueMinLimit ∧
        (∀ i, (l.get i).id ≠ INVALID_ID →
          GetGatingValue g p (l.get i) ≤ GetGatingValue g p (l.get k)) ∧
        ∀ i, (l.get i).id ≠ INVALID_ID → i < k →
          GetGatingValue g p (l.get i) < GetGatingValue g p (l.get k) := by
    intro ht
    have hgt := h1.1 ht
    cases h : (slots.foldl (IsInsideAcceptanceGateStep g p l) (INVALID_GATING_VALUE, none)).2 with
    | none =>
      rw [(hnone h).1] at hgt
      exact absurd hgt (not_lt.2 hg)
    | some k =>
      obtain ⟨-, a2, a3, -, a5, a6⟩ := hsome k h
      refine ⟨k, h2.trans h, a2, ?_, fun i hl => ?_, fun i hl hik => ?_⟩
      · rw [← a3]; exact hgt
      · rw [← a3]; exact a5 i trivial hl
      · rw [← a3]; exact a6 i trivial hl hik
  refine ⟨⟨fun ht => ?_, fun hex => ?_⟩, fun ht => ?_⟩
  · obtain ⟨k, -, a2, a3, -, -⟩ := hk ht
    exact ⟨k, a2, a3⟩
  · obtain ⟨i, hl, hi⟩ := hex
    rw [h1]
    cases h : (slots.foldl (IsInsideAcceptanceGateStep g p l) (INVALID_GATING_VALUE, none)).2 with
    | none =>
      exact absurd (lt_of_lt_of_le hi ((hnone h).2 i trivial hl)) (not_lt.2 hg)
    | some k =>
      exact lt_of_lt_of_le hi ((hsome k h).2.2.2.2.1 i trivial hl)
  · obtain ⟨k, a1, a2, -, a4, a5⟩ := hk ht
    exact ⟨k, a1, a2, a4, a5⟩

/-- C9: with `totalGatingValueMinLimit = 4 * 0.1 * ACCEPTANCE_GATE_SUM_FACTOR` and a
non-negative factor, `IsInsideAcceptanceGate` returns true iff some live track has a gating
value above the limit; when it returns true, `*pairIndex` is a live slot that attains the
greatest gating value of the live tracks, and every live slot before it has a smaller
gating value; with no live track it returns false. -/
theorem c9_acceptance_gate_picks_first_best (c : Config) (p : PrefusedObject_t)
    (l : FusedObjectList) (hf : 0 ≤ c.ACCEPTANCE_GATE_SUM_FACTOR) :
    (InitializeFusionUtils c).totalGatingValueMinLimit =
      4 * (1 / 10) * c.ACCEPTANCE_GATE_SUM_FACTOR ∧
    INVALID_GATING_VALUE < (InitializeFusionUtils c).totalGatingValueMinLimit ∧
    ((IsInsideAcceptanceGate (InitializeFusionUtils c) p l).1 = true ↔
      ∃ i, (l.get i).id ≠ INVALID_ID ∧
        GetGatingValue (InitializeFusionUtils c) p (l.get i) >
          (InitializeFusionUtils c).totalGatingValueMinLimit) ∧
    ((IsInsideAcceptanceGate (InitializeFusionUtils c) p l).1 = true →
      ∃ k, (IsInsideAcceptanceGate (InitializeFusionUtils c) p l).2 = some k ∧
        (l.get k).id ≠ INVALID_ID ∧
        (∀ i, (l.get i).id ≠ INVALID_ID →
          GetGatingValue (InitializeFusionUtils c) p (l.get i) ≤
            GetGatingValue (InitializeFusionUtils c) p (l.get k)) ∧
        ∀ i, (l.get i).id ≠ INVALID_ID → i < k →
          GetGatingValue (InitializeFusionUtils c) p (l.get i) <
            GetGatingValue (InitializeFusionUtils c) p (l.get k)) ∧
    ((∀ i, (l.get i).id = INVALID_ID) →
      (IsInsideAcceptanceGate (InitializeFusionUtils c) p l).1 = false) := by
  have e : (InitializeFusionUtils c).totalGatingValueMinLimit =
      4 * (1 / 10) * c.ACCEPTANCE_GATE_SUM_FACTOR := by
    simp only [InitializeFusionUtils, STATE_GATING_VALUE_MIN_LIMIT, KALMAN_STATES]
    norm_num
  have hlt : INVALID_GATING_VALUE < (InitializeFusionUtils c).totalGatingValueMinLimit := by
    rw [e]
    have : INVALID_GATING_VALUE = -1 := by
      norm_num [INVALID_GATING_VALUE, INVALID_SIMILARITY_VALUE]
    rw [this]
    linarith
  obtain ⟨h1, h2⟩ := IsInsideAcceptanceGate_spec (InitializeFusionUtils c) p l hlt.le
  refine ⟨e, hlt, h1, h2, fun hfree => ?_⟩
  cases h : (IsInsideAcceptanceGate (InitializeFusionUtils c) p l).1 with
  | false => rfl
  | true =>
    obtain ⟨i, hl, -⟩ := h1.1 h
    exact absurd (hfree i) hl

theorem c9_acceptance_gate_picks_first_best_witness :
    ((IsInsideAcceptanceGate (InitializeFusionUtils defaultConfig) examplePrefused
        exampleTable).1 = true ↔
      ∃ i, (exampleTable.get i).id ≠ INVALID_ID ∧
        GetGatingValue (InitializeFusionUtils defaultConfig) examplePrefused
            (exampleTable.get i) >
          (InitializeFusionUtils defaultConfig).totalGatingValueMinLimit) ∧
    ((IsInsideAcceptanceGate (InitializeFusionUtils defaultConfig) examplePrefused
        exampleTable).1 = true →
      ∃ k, (IsInsideAcceptanceGate (InitializeFusionUtils defaultConfig) examplePrefused
          exampleTable).2 = some k ∧
        (exampleTable.get k).id ≠ INVALID_ID ∧
        (∀ i, (exampleTable.get i).id ≠ INVALID_ID →
          GetGatingValue (InitializeFusionUtils defaultConfig) examplePrefused
              (exampleTable.get i) ≤
            GetGatingValue (InitializeFusionUtils defaultConfig) examplePrefused
              (exampleTable.get k)) ∧
        ∀ i, (exampleTable.get i).id ≠ INVALID_ID → i < k →
          GetGatingValue (InitializeFusionUtils defaultConfig) examplePrefused
              (exampleTable.get i) <
            GetGatingValue (InitializeFusionUtils defaultConfig) examplePrefused
              (exampleTable.get k)) :=
  have h := c9_acceptance_gate_picks_first_best defaultConfig examplePrefused
    exampleTable (by norm_num [defaultConfig])
  ⟨h.2.2.1, h.2.2.2.1⟩

set_option maxRecDepth 100000 in
theorem exampleTable_gate :
    IsInsideAcceptanceGate (InitializeFusionUtils defaultConfig) examplePrefused exampleTable =
      (true, some 0) := by
  with_unfolding_all decide

/-! ## The slot of a new track -/

theorem GetWorstPriorityLoop_live (l : FusedObjectList) (j : Fin 16) (rest : List (Fin 16))
    (r : ℚ × Option (Fin 16)) (h : (l.get j).id ≠ INVALID_ID) :
    GetWorstPriorityLoop l (j :: rest) r =
      GetWorstPriorityLoop l rest
        (if (l.get j).priority < r.1 then ((l.get j).priority, some j) else r) := by
  rw [GetWorstPriorityLoop, if_pos h]
  split_ifs <;> rfl

theorem GetWorstPriorityLoop_free (l : FusedObjectList) (j : Fin 16) (rest : List (Fin 16))
    (r : ℚ × Option (Fin 16)) (h : (l.get j).id = INVALID_ID) :
    GetWorstPriorityLoop l (j :: rest) r = ((-1) * MAX_PRIORITY, some j) := by
  rw [GetWorstPriorityLoop, if_neg (not_not.2 h)]

/-- The loop of `GetWorstPriority` stops at the first free slot it scans. -/
theorem GetWorstPriorityLoop_first_free (l : FusedObjectList) (xs : List (Fin 16))
    (hsorted : xs.Pairwise (fun a b => a < b)) (r : ℚ × Option (Fin 16))
    (hfree : ∃ j ∈ xs, (l.get j).id = INVALID_ID) :
    ∃ k ∈ xs, (l.get k).id = INVALID_ID ∧ (∀ i ∈ xs, i < k → (l.get i).id ≠ INVALID_ID) ∧
      GetWorstPriorityLoop l xs r = ((-1) * MAX_PRIORITY, some k) := by
  induction xs generalizing r with
  | nil =>
    obtain ⟨j, hj, -⟩ := hfree
    exact absurd hj (List.not_mem_nil j)
  | cons j xs ih =>
    have hp := List.pairwise_cons.1 hsorted
    by_cases hj : (l.get j).id = INVALID_ID
    · refine ⟨j, List.mem_cons_self _ _, hj, fun i hi hij => ?_,
        GetWorstPriorityLoop_free l j xs r hj⟩
      rcases List.mem_cons.1 hi with e | hi
      · exact absurd e (ne_of_lt hij)
      · exact absurd (hp.1 i hi) (not_lt.2 hij.le)
    · have hfree' : ∃ a ∈ xs, (l.get a).id = INVALID_ID := by
        obtain ⟨a, ha, hfa⟩ := hfree
        rcases List.mem_cons.1 ha with e | ha
        · rw [e] at hfa; exact absurd hfa hj
        · exact ⟨a, ha, hfa⟩
      obtain ⟨k, hk, hfk, hbefore, hres⟩ := ih hp.2
        (if (l.get j).priority < r.1 then ((l.get j).priority, some j) else r) hfree'
      refine ⟨k, List.mem_cons_of_mem _ hk, hfk, fun i hi hik => ?_, ?_⟩
      · rcases List.mem_cons.1 hi with e | hi
        · rw [e]; exact hj
        · exact hbefore i hi hik
      · rw [GetWorstPriorityLoop_live l j xs r hj]; exact hres

theorem WorstInv_congr (l : FusedObjectList) (seen seen' : Fin 16 → Prop)
    (r : ℚ × Option (Fin 16)) (h : ∀ i, seen i ↔ seen' i) (hr : WorstInv l seen r) :
    WorstInv l seen' r := by
  have e : seen = seen' := funext fun i => propext (h i)
  rw [← e]; exact hr

theorem WorstInv_step (l : FusedObjectList) (seen : Fin 16 → Prop) (r : ℚ × Option (Fin 16))
    (j : Fin 16) (hseen : ∀ i, seen i → i < j) (hr : WorstInv l seen r) :
    WorstInv l (fun i => seen i ∨ i = j)
      (if (l.get j).priority < r.1 then ((l.get j).priority, some j) else r) := by
  obtain ⟨hnone, hsome⟩ := hr
  have hle : ∀ i, seen i → r.1 ≤ (l.get i).priority := by
    intro i hi
    cases h2 : r.2 with
    | none => rw [(hnone h2).1]; exact (hnone h2).2 i hi
    | some k => exact (hsome k h2).2.2.2.1 i hi
  have hmax : r.1 ≤ MAX_PRIORITY := by
    cases h2 : r.2 with
    | none => rw [(hnone h2).1]
    | some k => exact (hsome k h2).2.2.1.le
  by_cases hlt : (l.get j).priority < r.1
  · rw [if_pos hlt]
    refine ⟨fun h => by simp at h, fun k hk => ?_⟩
    simp only [Option.some.injEq] at hk
    subst hk
    refine ⟨Or.inr rfl, rfl, lt_of_lt_of_le hlt hmax, fun i hi => ?_, fun i hi hij => ?_⟩
    · rcases hi with hi | hi
      · exact le_trans hlt.le (hle i hi)
      · rw [hi]
    · rcases hi with hi | hi
      · exact lt_of_lt_of_le hlt (hle i hi)
      · exact absurd hi (ne_of_lt hij)
  · rw [if_neg hlt]
    refine ⟨fun h => ⟨(hnone h).1, fun i hi => ?_⟩, fun k hk => ?_⟩
    · rcases hi with hi | hi
      · exact (hnone h).2 i hi
      · rw [hi, ← (hnone h).1]; exact not_lt.1 hlt
    · obtain ⟨a1, a2, a3, a4, a5⟩ := hsome k hk
      refine ⟨Or.inl a1, a2, a3, fun i hi => ?_, fun i hi hik => ?_⟩
      · rcases hi with hi | hi
        · exact a4 i hi
        · rw [hi]; exact not_lt.1 hlt
      · rcases hi with hi | hi
        · exact a5 i hi hik
        · rw [hi] at hik
          exact absurd (hseen k a1) (not_lt.2 hik.le)

/-- The loop of `GetWorstPriority` over live slots keeps its invariant. -/
theorem GetWorstPriorityLoop_all_live (l : FusedObjectList) (xs : List (Fin 16))
    (hsorted : xs.Pairwise (fun a b => a < b)) (hlive : ∀ j ∈ xs, (l.get j).id ≠ INVALID_ID)
    (seen : Fin 16 → Prop) (r : ℚ × Option (Fin 16))
    (hseen : ∀ i, seen i → ∀ x ∈ xs, i < x) (hr : WorstInv l seen r) :
    WorstInv l (fun i => seen i ∨ i ∈ xs) (GetWorstPriorityLoop l xs r) := by
  induction xs generalizing seen r with
  | nil =>
    rw [GetWorstPriorityLoop]
    exact WorstInv_congr l seen _ r (fun i => by simp) hr
  | cons j xs ih =>
    have hp := List.pairwise_cons.1 hsorted
    have h1 := WorstInv_step l seen r j (fun i hi => hseen i hi j (List.mem_cons_self _ _)) hr
    have h2 := ih hp.2 (fun a ha => hlive a (List.mem_cons_of_mem _ ha))
      (fun i => seen i ∨ i = j) _
      (fun i hi x hx => by
        rcases hi with hi | hi
        · exact hseen i hi x (List.mem_cons_of_mem _ hx)
        · rw [hi]; exact hp.1 x hx) h1
    rw [GetWorstPriorityLoop_live l j xs r (hlive j (List.mem_cons_self _ _))]
    exact WorstInv_congr l _ _ _ (fun i => by simp [or_assoc]) h2

/-- The result of `GetWorstPriority`: with a free slot in the table, the first free slot
and `-MAX_PRIORITY`; with a full table, the invariant of the scan over every slot. -/
theorem GetWorstPriority_spec (l : FusedObjectList) :
    ((∃ j, (l.get j).id = INVALID_ID) →
      ∃ k, (l.get k).id = INVALID_ID ∧ (∀ i, i < k → (l.get i).id ≠ INVALID_ID) ∧
        GetWorstPriority l = ((-1) * MAX_PRIORITY, some k)) ∧
    ((∀ j, (l.get j).id ≠ INVALID_ID) → WorstInv l (fun _ => True) (GetWorstPriority l)) := by
  refine ⟨fun hfree => ?_, fun hlive => ?_⟩
  · obtain ⟨j, hj⟩ := hfree
    obtain ⟨k, -, hk, hbefore, hres⟩ := GetWorstPriorityLoop_first_free l slots slots_sorted
      (MAX_PRIORITY, none) ⟨j, mem_slots j, hj⟩
    exact ⟨k, hk, fun i hi => hbefore i (mem_slots i) hi, hres⟩
  · have h := GetWorstPriorityLoop_all_live l slots slots_sorted (fun j _ => hlive j)
      (fun _ => False) (MAX_PRIORITY, none) (fun i hi => absurd hi id)
      ⟨fun _ => ⟨rfl, fun i hi => absurd hi id⟩, fun k hk => by simp at hk⟩
    exact WorstInv_congr l _ _ _ (fun i => by simp [mem_slots]) h

set_option maxRecDepth 100000 in
theorem exampleTable_worst : GetWorstPriority exampleTable = (-MAX_PRIORITY, some 1) := by
  with_unfolding_all decide

/-! ## Exhaustion of the table and of the ids -/

/-- C11: if no slot is free and the priority of the measurement is at most the priority of
every live track, `CreateFusedObject` returns the table unchanged, and so does
`AssociatePrefusedObject` for a measurement outside the gate. Priorities of measurements
are at most `MAX_PRIORITY`. -/
theorem c11_exhaustion_drops_measurement (g : Gating) (l : FusedObjectList)
    (p : PrefusedObject_t) (hp : p.priority ≤ MAX_PRIORITY)
    (hfull : ∀ j, (l.get j).id ≠ INVALID_ID)
    (hle : ∀ i, p.priority ≤ (l.get i).priority) :
    CreateFusedObject l p = some l ∧
    ((IsInsideAcceptanceGate g p l).1 = false → AssociatePrefusedObject g p l = some l) := by
  have hno : ¬ p.priority > (GetWorstPriority l).1 := by
    obtain ⟨hnone, hsome⟩ := (GetWorstPriority_spec l).2 hfull
    cases hw : (GetWorstPriority l).2 with
    | none =>
      rw [(hnone hw).1]
      exact not_lt.2 hp
    | some k =>
      rw [(hsome k hw).2.1]
      exact not_lt.2 (hle k)
  have hcreate : CreateFusedObject l p = some l := by
    unfold CreateFusedObject
    simp only
    rw [if_neg hno]
  refine ⟨hcreate, fun hgate => ?_⟩
  unfold AssociatePrefusedObject
  simp only
  rw [hgate]
  simpa using hcreate

theorem exampleFullTable_get (i : Fin 16) :
    exampleFullTable.get i =
      { id := i.val + 1, track := exampleTrack, lifetimeCounter := 1,
        seenThisCycle := Vector.replicate 4 0, lostCounter := 0, priority := 145 } := by
  unfold exampleFullTable
  rw [Vector.get_ofFn]

theorem c11_exhaustion_drops_measurement_witness :
    CreateFusedObject exampleFullTable examplePrefused = some exampleFullTable ∧
    ((IsInsideAcceptanceGate (InitializeFusionUtils defaultConfig) examplePrefused
        exampleFullTable).1 = false →
      AssociatePrefusedObject (InitializeFusionUtils defaultConfig) examplePrefused
        exampleFullTable = some exampleFullTable) :=
  c11_exhaustion_drops_measurement (InitializeFusionUtils defaultConfig) exampleFullTable
    examplePrefused (by norm_num [examplePrefused, MAX_PRIORITY])
    (fun j => by rw [exampleFullTable_get]; exact Nat.succ_ne_zero _)
    (fun i => by rw [exampleFullTable_get]; exact le_of_eq rfl)

/-- The loop of `GetAvailableId` returns the first tentative id that is not used. -/
theorem GetAvailableIdLoop_first (l : FusedObjectList) (xs : List Nat)
    (hsorted : xs.Pairwise (fun a b => a < b)) :
    (GetAvailableIdLoop l xs ∈ xs ∧ IsIdUsed l (GetAvailableIdLoop l xs) = false ∧
      ∀ x ∈ xs, x < GetAvailableIdLoop l xs → IsIdUsed l x = true) ∨
    (GetAvailableIdLoop l xs = INVALID_ID ∧ ∀ x ∈ xs, IsIdUsed l x = true) := by
  induction xs with
  | nil => right; simp [GetAvailableIdLoop]
  | cons x xs ih =>
    have hp := List.pairwise_cons.1 hsorted
    unfold GetAvailableIdLoop
    by_cases hx : IsIdUsed l x = true
    · simp only [hx, Bool.not_true, Bool.false_eq_true, if_false]
      rcases ih hp.2 with ⟨h1, h2, h3⟩ | ⟨h1, h2⟩
      · left
        refine ⟨List.mem_cons_of_mem _ h1, h2, fun y hy hlt => ?_⟩
        rcases List.mem_cons.1 hy with e | hy
        · rw [e]; exact hx
        · exact h3 y hy hlt
      · right
        refine ⟨h1, fun y hy => ?_⟩
        rcases List.mem_cons.1 hy with e | hy
        · rw [e]; exact hx
        · exact h2 y hy
    · have hx' : IsIdUsed l x = false := by
        cases h : IsIdUsed l x with
        | false => rfl
        | true => exact absurd h hx
      simp only [hx', Bool.not_false, if_true]
      left
      refine ⟨List.mem_cons_self _ _, trivial, fun y hy hlt => ?_⟩
      rcases List.mem_cons.1 hy with e | hy
      · exact absurd e (ne_of_lt hlt)
      · exact absurd (hp.1 y hy) (not_lt.2 hlt.le)

/-- C12: for every table, `GetAvailableId` returns the smallest id of `[1, MAX_ID)`, which
is `[1, 32)`, that no slot holds; it never returns `INVALID_ID`. -/
theorem c12_available_id_is_smallest_unused (l : FusedObjectList) :
    1 ≤ GetAvailableId l ∧ GetAvailableId l < 32 ∧ MAX_ID = 32 ∧
    (∀ i, (l.get i).id ≠ GetAvailableId l) ∧
    (∀ id, 1 ≤ id → id < GetAvailableId l → ∃ i, (l.get i).id = id) ∧
    GetAvailableId l ≠ INVALID_ID := by
  obtain ⟨h1, h2, h3⟩ := GetAvailableId_spec l
  refine ⟨h1, h2, rfl, h3, fun id hid hlt => ?_, fun h => ?_⟩
  · have hs : (List.range' (INVALID_ID + 1) (MAX_ID - 1)).Pairwise (fun a b => a < b) :=
      List.pairwise_lt_range' _ _
    have hmem : id ∈ List.range' (INVALID_ID + 1) (MAX_ID - 1) := by
      rw [List.mem_range'_1]
      have : GetAvailableId l < 32 := h2
      simp [INVALID_ID, MAX_ID]
      omega
    rcases GetAvailableIdLoop_first l _ hs with ⟨-, -, a3⟩ | ⟨-, a2⟩
    · exact (IsIdUsed_iff l id).1 (a3 id hmem hlt)
    · exact (IsIdUsed_iff l id).1 (a2 id hmem)
  · rw [h] at h1
    exact absurd h1 (by decide)

/-! ## Pruning -/

theorem CheckObjectsForPruning_within (c : Config) (o1 o2 : FusedObject_t)
    (h : WithinPruneLimits c o1 o2) :
    CheckObjectsForPruning c o1 o2 =
      if o1.priority > o2.priority then (o1, zeroFusedObject) else (zeroFusedObject, o2) := by
  unfold WithinPruneLimits at h
  unfold CheckObjectsForPruning
  rw [if_pos h]
  simp only [ResetFusedObject_eq]

theorem CheckObjectsForPruning_beyond (c : Config) (o1 o2 : FusedObject_t)
    (h : BeyondPruneLimits c o1 o2) : CheckObjectsForPruning c o1 o2 = (o1, o2) := by
  unfold CheckObjectsForPruning
  rw [if_neg]
  rintro ⟨h1, h2, h3, h4⟩
  rcases h with h | h | h | h
  · exact absurd h1 (not_le.2 h)
  · exact absurd h2 (not_le.2 h)
  · exact absurd h3 (not_le.2 h)
  · exact absurd h4 (not_le.2 h)

theorem exampleObjects_within : WithinPruneLimits defaultConfig exampleObject1 exampleObject2 := by
  unfold WithinPruneLimits
  with_unfolding_all decide

theorem exampleTwins_within : WithinPruneLimits defaultConfig exampleObject1 exampleObject3 := by
  unfold WithinPruneLimits
  with_unfolding_all decide

/-- C13: if the four state differences of two tracks are within the prune limits (in
particular if they are below them) and the priorities differ, `CheckObjectsForPruning`
resets the track of lower priority to the all-zero object and leaves the other track
unchanged; if some state difference is above its limit, it changes neither track. -/
theorem c13_pruning_resets_lower_priority (c : Config) (o1 o2 : FusedObject_t) :
    (WithinPruneLimits c o1 o2 → o1.priority ≠ o2.priority →
      (o2.priority < o1.priority → CheckObjectsForPruning c o1 o2 = (o1, zeroFusedObject)) ∧
      (o1.priority < o2.priority → CheckObjectsForPruning c o1 o2 = (zeroFusedObject, o2)) ∧
      (o2.priority < o1.priority ∨ o1.priority < o2.priority)) ∧
    (BeyondPruneLimits c o1 o2 → CheckObjectsForPruning c o1 o2 = (o1, o2)) ∧
    zeroFusedObject.id = INVALID_ID := by
  refine ⟨fun hw hne => ⟨fun h => ?_, fun h => ?_, ?_⟩,
    CheckObjectsForPruning_beyond c o1 o2, rfl⟩
  · rw [CheckObjectsForPruning_within c o1 o2 hw, if_pos h]
  · rw [CheckObjectsForPruning_within c o1 o2 hw, if_neg (not_lt.2 h.le)]
  · exact (lt_or_gt_of_ne hne).symm

theorem c13_pruning_resets_lower_priority_witness :
    CheckObjectsForPruning defaultConfig exampleObject1 exampleObject2 =
      (exampleObject1, zeroFusedObject) :=
  ((c13_pruning_resets_lower_priority defaultConfig exampleObject1 exampleObject2).1
    exampleObjects_within (by with_unfolding_all decide)).1 (by with_unfolding_all decide)

/-- C15: if the four state differences of two tracks are within the prune limits and the
priorities are equal, `CheckObjectsForPruning` resets its first argument to the all-zero
object, whose id is `INVALID_ID`, and leaves its second argument unchanged. -/
theorem c15_pruning_tie_resets_first_argument (c : Config) (o1 o2 : FusedObject_t)
    (hw : WithinPruneLimits c o1 o2) (heq : o1.priority = o2.priority) :
    CheckObjectsForPruning c o1 o2 = (zeroFusedObject, o2) ∧
    (CheckObjectsForPruning c o1 o2).1.id = INVALID_ID ∧
    (CheckObjectsForPruning c o1 o2).2 = o2 := by
  have e : CheckObjectsForPruning c o1 o2 = (zeroFusedObject, o2) := by
    rw [CheckObjectsForPruning_within c o1 o2 hw, if_neg (not_lt.2 (le_of_eq heq))]
  rw [e]
  exact ⟨rfl, rfl, rfl⟩

theorem c15_pruning_tie_resets_first_argument_witness :
    CheckObjectsForPruning defaultConfig exampleObject1 exampleObject3 =
        (zeroFusedObject, exampleObject3) ∧
    (CheckObjectsForPruning defaultConfig exampleObject1 exampleObject3).1.id = INVALID_ID ∧
    (CheckObjectsForPruning defaultConfig exampleObject1 exampleObject3).2 = exampleObject3 :=
  c15_pruning_tie_resets_first_argument defaultConfig exampleObject1 exampleObject3
    exampleTwins_within rfl

set_option maxRecDepth 100000 in
/-- C14, counterexample: in the table `exampleTwins` the slots `0` and `1` hold live tracks
of equal priority and identical state; after `Manage` the slot `0` is free and the slot `1`
still holds the track with the id `2`. -/
theorem c14_tie_resets_first_slot :
    (exampleTwins.get 0).id ≠ INVALID_ID ∧ (exampleTwins.get 1).id ≠ INVALID_ID ∧
    (exampleTwins.get 0).priority = (exampleTwins.get 1).priority ∧
    (exampleTwins.get 0).track.X = (exampleTwins.get 1).track.X ∧
    ((Manage defaultConfig exampleTwins).get 0).id = INVALID_ID ∧
    ((Manage defaultConfig exampleTwins).get 1).id = 2 := by
  with_unfolding_all decide

/-- C14, amended: for two live tracks in the slots `i < j` with equal priority and identical
`X`, and prune limits that are not negative, the pruning check of the pair in `Manage`
resets the first track (slot `i`) and leaves the second track (slot `j`) and every other
slot unchanged. -/
theorem c14_tie_prunes_first_slot (c : Config) (l : FusedObjectList) (i j : Fin 16)
    (hij : i < j) (hi : (l.get i).id ≠ INVALID_ID) (hj : (l.get j).id ≠ INVALID_ID)
    (hprio : (l.get i).priority = (l.get j).priority)
    (hX : (l.get i).track.X = (l.get j).track.X)
    (hlim : 0 ≤ c.PRUNE_LIMIT_X ∧ 0 ≤ c.PRUNE_LIMIT_Y ∧ 0 ≤ c.PRUNE_LIMIT_VX ∧
      0 ≤ c.PRUNE_LIMIT_VY) :
    (PruneStep c i l j).get i = zeroFusedObject ∧
    (PruneStep c i l j).get j = l.get j ∧
    ∀ k, k ≠ i → k ≠ j → (PruneStep c i l j).get k = l.get k := by
  have hw : WithinPruneLimits c (l.get i) (l.get j) := by
    unfold WithinPruneLimits
    rw [hX]
    simp only [sub_self, abs_zero]
    exact hlim
  have e : CheckObjectsForPruning c (l.get i) (l.get j) = (zeroFusedObject, l.get j) := by
    rw [CheckObjectsForPruning_within c _ _ hw, if_neg (not_lt.2 (le_of_eq hprio))]
  unfold PruneStep
  rw [if_pos ⟨hi, hj⟩]
  simp only [e]
  refine ⟨?_, ?_, fun k hki hkj => ?_⟩
  · rw [get_set, if_neg (ne_of_gt hij), get_set, if_pos rfl]
  · rw [get_set, if_pos rfl]
  · rw [get_set, if_neg (Ne.symm hkj), get_set, if_neg (Ne.symm hki)]

theorem c14_tie_prunes_first_slot_witness :
    (PruneStep defaultConfig 0 exampleTwins 1).get 0 = zeroFusedObject ∧
    (PruneStep defaultConfig 0 exampleTwins 1).get 1 = exampleTwins.get 1 ∧
    ∀ k, k ≠ 0 → k ≠ 1 → (PruneStep defaultConfig 0 exampleTwins 1).get k = exampleTwins.get k :=
  c14_tie_prunes_first_slot defaultConfig exampleTwins 0 1 (by decide)
    (by with_unfolding_all decide) (by with_unfolding_all decide)
    (by with_unfolding_all decide) (by with_unfolding_all decide)
    (by norm_num [defaultConfig])

/-! ## The counters of a track -/

set_option maxRecDepth 100000 in
/-- C16, the code at the failing input: with `MAX_COASTING_CYCLES = 254`, a live track with
`lostCounter = 254` that is not seen in its 301st cycle gets `lostCounter = 0` from
`MaintainObject` and stays live, where `(lostCounter + 1) mod 2^8` is `255`, which is above
`MAX_COASTING_CYCLES`. -/
theorem c16_lost_counter_wraps_at_255 :
    exampleCoasted.id = 1 ∧ exampleCoasted.lostCounter = 254 ∧
    IsObjectLost exampleCoasted = true ∧
    (MaintainObject configCoast254 exampleCoasted).lifetimeCounter = 301 ∧
    (MaintainObject configCoast254 exampleCoasted).lostCounter = 0 ∧
    (MaintainObject configCoast254 exampleCoasted).id = 1 ∧
    (exampleCoasted.lostCounter + 1) % 2 ^ 8 = 255 ∧
    configCoast254.MAX_COASTING_CYCLES < (exampleCoasted.lostCounter + 1) % 2 ^ 8 := by
  with_unfolding_all decide

set_option maxRecDepth 100000 in
/-- C17, the code at the failing input: a live track with `lifetimeCounter = 65534` gets
`lifetimeCounter = 0` from `MaintainObject` and stays live, where
`(lifetimeCounter + 1) mod 2^16` is `65535`. -/
theorem c17_lifetime_counter_wraps_at_65535 :
    exampleOld.id = 1 ∧ exampleOld.lifetimeCounter = 65534 ∧
    (MaintainObject defaultConfig exampleOld).lifetimeCounter = 0 ∧
    (MaintainObject defaultConfig exampleOld).id = 1 ∧
    (exampleOld.lifetimeCounter + 1) % 2 ^ 16 = 65535 ∧
    U16_MAX = 65535 := by
  with_unfolding_all decide

/-! ## The lifetime of a track through a cycle -/

theorem set_get_self {α : Type} {n : Nat} (v : Vector α n) (i : Fin n) :
    v.set i (v.get i) = v := by
  refine Vector.ext fun k => ?_
  rw [get_set]
  split_ifs with h
  · rw [h]
  · rfl

/-- A loop that rewrites each slot it visits from the content of that slot only. -/
theorem foldl_pointwise {α : Type} {n : Nat} (f : α → α) (xs : List (Fin n))
    (hnd : xs.Nodup) (v : Vector α n) (i : Fin n) :
    (xs.foldl (fun v x => v.set x (f (v.get x))) v).get i =
      if i ∈ xs then f (v.get i) else v.get i := by
  induction xs generalizing v with
  | nil => simp
  | cons x xs ih =>
    have hx := List.nodup_cons.1 hnd
    simp only [List.foldl_cons]
    rw [ih hx.2, get_set]
    by_cases hix : x = i
    · subst hix
      simp [hx.1]
    · have hne : i ≠ x := Ne.symm hix
      simp [hix, hne]

theorem slots_nodup : slots.Nodup := by
  unfold slots
  decide

theorem MaintainStep_eq (c : Config) (l : FusedObjectList) (i : Fin 16) :
    MaintainStep c l i =
      l.set i ((fun o => if o.id ≠ INVALID_ID then MaintainObject c o else o) (l.get i)) := by
  unfold MaintainStep
  simp only
  split_ifs
  · rfl
  · rw [set_get_self]

/-- The second loop of `Manage`, slot by slot. -/
theorem Maintain_get (c : Config) (l : FusedObjectList) (i : Fin 16) :
    (slots.foldl (MaintainStep c) l).get i =
      if (l.get i).id ≠ INVALID_ID then MaintainObject c (l.get i) else l.get i := by
  have e : MaintainStep c = fun v x =>
      v.set x ((fun o => if o.id ≠ INVALID_ID then MaintainObject c o else o) (v.get x)) :=
    funext fun v => funext fun x => MaintainStep_eq c v x
  have h := foldl_pointwise (fun o => if o.id ≠ INVALID_ID then MaintainObject c o else o)
    slots slots_nodup l i
  rw [if_pos (mem_slots i)] at h
  rw [e]
  exact h

/-- What `MaintainObject` does to the counters and the flags of an object. -/
theorem MaintainObject_eq (c : Config) (o : FusedObject_t) :
    MaintainObject c o =
      if (o.lifetimeCounter + 1) % U16_MAX > 1 then
        if IsObjectLost o = true then
          if (o.lostCounter + 1) % U8_MAX ≤ c.MAX_COASTING_CYCLES then
            { o with
              lifetimeCounter := (o.lifetimeCounter + 1) % U16_MAX
              lostCounter := (o.lostCounter + 1) % U8_MAX
              seenThisCycle := Vector.replicate 4 0 }
          else zeroFusedObject
        else
          { o with
            lifetimeCounter := (o.lifetimeCounter + 1) % U16_MAX
            lostCounter := 0
            seenThisCycle := Vector.replicate 4 0 }
      else
        { o with
          lifetimeCounter := (o.lifetimeCounter + 1) % U16_MAX
          seenThisCycle := Vector.replicate 4 0 } := by
  unfold MaintainObject
  simp only [IsObjectCoastable, IsObjectLost, ResetFusedObject, zeroFusedObject,
    decide_eq_true_eq, Bool.not_eq_true', decide_eq_false_iff_not, not_le, INVALID_ID]
  split_ifs <;> first | rfl | omega

theorem MaintainObject_live (c : Config) (o : FusedObject_t)
    (h : (MaintainObject c o).id ≠ INVALID_ID) :
    (MaintainObject c o).id = o.id ∧
    (MaintainObject c o).lifetimeCounter = (o.lifetimeCounter + 1) % U16_MAX := by
  rw [MaintainObject_eq] at h ⊢
  split_ifs at h ⊢
  · exact ⟨rfl, rfl⟩
  · exact absurd rfl h
  · exact ⟨rfl, rfl⟩
  · exact ⟨rfl, rfl⟩

theorem Manage_eq (c : Config) (l : FusedObjectList) :
    Manage c l = slots.foldl (MaintainStep c) (slots.foldl (PruneRow c) l) := rfl

/-! ## Confirmation -/

theorem foldl_fixed {σ ι : Type} (f : σ → ι → σ) (s : σ) (xs : List ι)
    (h : ∀ x ∈ xs, f s x = s) : xs.foldl f s = s := by
  induction xs with
  | nil => rfl
  | cons x xs ih =>
    simp only [List.foldl_cons]
    rw [h x (List.mem_cons_self _ _)]
    exact ih fun y hy => h y (List.mem_cons_of_mem _ hy)

/-- The first loop of `Manage` changes nothing in a table with at most one live slot. -/
theorem Prune_single (c : Config) (l : FusedObjectList) (s : Fin 16)
    (hz : ∀ i, i ≠ s → l.get i = zeroFusedObject) :
    slots.foldl (PruneRow c) l = l := by
  refine foldl_fixed _ l slots fun i _ => ?_
  unfold PruneRow
  split_ifs with hi
  · refine foldl_fixed _ l _ fun j hj => ?_
    have hij : i < j := by
      have := (List.mem_filter.1 hj).2
      simpa using this
    have his : i = s := by
      by_contra hne
      rw [hz i hne] at hi
      exact hi rfl
    have hjs : j ≠ s := by
      rw [← his]; exact ne_of_gt hij
    unfold PruneStep
    rw [if_neg]
    rintro ⟨-, h2⟩
    rw [hz j hjs] at h2
    exact h2 rfl
  · rfl

theorem IsObjectLost_unseen (o : FusedObject_t)
    (h : o.seenThisCycle = Vector.replicate 4 0) : IsObjectLost o = true := by
  unfold IsObjectLost
  rw [h]
  rfl

theorem MaintainObject_coasting (c : Config) (o : FusedObject_t) (L K : Nat)
    (h2 : o.lifetimeCounter = L) (h3 : o.lostCounter = K)
    (h4 : o.seenThisCycle = Vector.replicate 4 0) (hL : 1 ≤ L) (hL2 : L + 1 < U16_MAX) :
    MaintainObject c o =
      if (K + 1) % U8_MAX ≤ c.MAX_COASTING_CYCLES then
        { o with
          lifetimeCounter := L + 1
          lostCounter := (K + 1) % U8_MAX
          seenThisCycle := Vector.replicate 4 0 }
      else zeroFusedObject := by
  rw [MaintainObject_eq, h2, h3, Nat.mod_eq_of_lt hL2, if_pos (by omega),
    IsObjectLost_unseen o h4]
  simp only [if_true]

set_option maxRecDepth 100000 in
theorem GetWorstPriority_zero :
    GetWorstPriority zeroFusedObjectList = ((-1) * MAX_PRIORITY, some 0) := by
  with_unfolding_all decide

set_option maxRecDepth 100000 in
theorem GetAvailableId_zero : GetAvailableId zeroFusedObjectList = 1 := by
  with_unfolding_all decide

theorem examplePrefused_gate (c : Config) (hf : 0 ≤ c.ACCEPTANCE_GATE_SUM_FACTOR) :
    INVALID_GATING_VALUE ≤ (InitializeFusionUtils c).totalGatingValueMinLimit := by
  have e : (InitializeFusionUtils c).totalGatingValueMinLimit =
      4 * (1 / 10) * c.ACCEPTANCE_GATE_SUM_FACTOR := by
    simp only [InitializeFusionUtils, STATE_GATING_VALUE_MIN_LIMIT, KALMAN_STATES]
    norm_num
  have h1 : INVALID_GATING_VALUE = -1 := by
    norm_num [INVALID_GATING_VALUE, INVALID_SIMILARITY_VALUE]
  rw [e, h1]
  linarith

theorem examplePrefused_priority : examplePrefused.priority > -MAX_PRIORITY := by
  norm_num [examplePrefused, MAX_PRIORITY]

theorem packedOutput_get (l : FusedObjectList) (is : List (Fin 16)) (k : Fin 16) :
    (packedOutput l is).get k =
      match is.get? k.val with
      | some i =>
        { valid := 1,
          posX := (l.get i).track.X.get STATE_X, posY := (l.get i).track.X.get STATE_Y,
          velX := (l.get i).track.X.get STATE_VX, velY := (l.get i).track.X.get STATE_VY }
      | none => zeroBaseObject := by
  unfold packedOutput
  rw [Vector.get_ofFn]

theorem packedOutput_nil (l : FusedObjectList) :
    packedOutput l [] = Vector.replicate 16 zeroBaseObject := by
  apply Vector.ext
  intro k
  rw [packedOutput_get, Vector.get_replicate]
  rfl

theorem packedOutput_snoc (c : Config) (l : FusedObjectList) (is : List (Fin 16)) (i : Fin 16)
    (hc : IsTentativeObjectConfirmed c (l.get i) = true) (h : is.length < 16) :
    (packedOutput l is).set ⟨is.length, h⟩
        (AddOutputObject ((packedOutput l is).get ⟨is.length, h⟩) (l.get i)) =
      packedOutput l (is ++ [i]) := by
  have hid : (l.get i).id ≠ INVALID_ID := by
    unfold IsTentativeObjectConfirmed at hc
    by_contra hn
    simp [hn] at hc
  apply Vector.ext
  intro k
  rw [get_set]
  by_cases hk : (⟨is.length, h⟩ : Fin 16) = k
  · rw [if_pos hk]
    have hv : k.val = is.length := by rw [← hk]
    rw [packedOutput_get, packedOutput_get]
    simp only [hv, List.getElem?_eq_none (le_refl is.length), List.get?_eq_getElem?,
      List.getElem?_append_right (le_refl is.length), Nat.sub_self, List.getElem?_cons_zero]
    simp [AddOutputObject, hid]
  · rw [if_neg hk]
    have hv : k.val ≠ is.length := fun e => hk (Fin.ext e.symm)
    rw [packedOutput_get, packedOutput_get]
    rcases Nat.lt_or_gt_of_ne hv with h1 | h1
    · simp only [List.get?_eq_getElem?, List.getElem?_append_left h1]
    · have h2 : is.length ≤ k.val := by omega
      have h3 : (is ++ [i]).length ≤ k.val := by simp; omega
      simp only [List.get?_eq_getElem?, List.getElem?_eq_none h2, List.getElem?_eq_none h3]

theorem PrepareOutput_fold (c : Config) (l : FusedObjectList) (xs : List (Fin 16))
    (hx : xs.length ≤ 16) :
    xs.foldl (PrepareOutputStep c l) (Vector.replicate 16 zeroBaseObject, 0) =
      (packedOutput l (xs.filter (fun i => IsTentativeObjectConfirmed c (l.get i))),
       (xs.filter (fun i => IsTentativeObjectConfirmed c (l.get i))).length) := by
  induction xs using List.reverseRecOn with
  | nil => simp [packedOutput_nil]
  | append_singleton ys i ih =>
    have hy : ys.length < 16 := by simp at hx; omega
    rw [List.foldl_append, ih (by omega)]
    have hf : (ys.filter (fun i => IsTentativeObjectConfirmed c (l.get i))).length < 16 :=
      lt_of_le_of_lt (List.length_filter_le _ _) hy
    simp only [List.foldl_cons, List.foldl_nil, List.filter_append]
    unfold PrepareOutputStep
    by_cases hc : IsTentativeObjectConfirmed c (l.get i) = true
    · rw [if_pos hc, dif_pos hf]
      simp only [List.filter_cons, hc, if_true, List.filter_nil, List.length_append,
        List.length_singleton]
      rw [packedOutput_snoc c l _ i hc hf]
    · rw [if_neg hc]
      simp [List.filter_cons, hc]

theorem PrepareOutputObjects_eq (c : Config) (l : FusedObjectList) :
    PrepareOutputObjects c l = packedOutput l (confirmedSlots c l) := by
  unfold PrepareOutputObjects confirmedSlots
  rw [PrepareOutput_fold c l slots (by decide)]

theorem RunAlgorithm_eq (c : Config) (m : Libm) (t : Tracking) (g : Gating)
    (sensors : Vector SensorEntry 4) (l0 : FusedObjectList) (inp : Vector BaseObject_t 24) :
    RunAlgorithm c m t g sensors l0 inp =
      (RunFusion c m t g (PrepareInputObjects c m sensors inp).toList l0).map
        (fun l => (l, PrepareOutputObjects c l)) := by
  unfold RunAlgorithm
  dsimp only
  generalize RunFusion c m t g (PrepareInputObjects c m sensors inp).toList l0 = r
  cases r <;> rfl

set_option maxRecDepth 100000 in
/-- C22, counterexample: with `SIGMA_DOPPLER = 1 / 20` and `SIGMA_BASE = 1 / 10` the plot
built by `CreatePrefusedObject` has `R[vx,vx] = R[vy,vy] = 1 / 400`, which is less than
`SIGMA_BASE^2 = 1 / 100`. -/
theorem c22_velocity_noise_below_base :
    (CreatePrefusedObject configLowDoppler exampleLibm
        (zeroPrefusedObject examplePrefused.sensor) examplePrefused.sensor 4 3 10 0).plot.R.get
      (sq STATE_VX STATE_VX) = 1 / 400 ∧
    (CreatePrefusedObject configLowDoppler exampleLibm
        (zeroPrefusedObject examplePrefused.sensor) examplePrefused.sensor 4 3 10 0).plot.R.get
      (sq STATE_VY STATE_VY) = 1 / 400 ∧
    configLowDoppler.SIGMA_BASE * configLowDoppler.SIGMA_BASE = 1 / 100 ∧
    ¬ (CreatePrefusedObject configLowDoppler exampleLibm
        (zeroPrefusedObject examplePrefused.sensor) examplePrefused.sensor 4 3 10 0).plot.R.get
      (sq STATE_VX STATE_VX) ≥ configLowDoppler.SIGMA_BASE * configLowDoppler.SIGMA_BASE := by
  with_unfolding_all decide

/-- C22, amended: for every sensor, every input and every setting of the tunables, the plot
built by `CreatePrefusedObject` has `R[x,x]` and `R[y,y]` greater than or equal to
`SIGMA_BASE^2`, and `R[vx,vx] = R[vy,vy] = SIGMA_DOPPLER^2`. -/
theorem c22_plot_noise_diagonal (c : Config) (m : Libm) (p0 : PrefusedObject_t)
    (pSensor : Sensor_t) (posX posY velX velY : ℚ) :
    (CreatePrefusedObject c m p0 pSensor posX posY velX velY).plot.R.get (sq STATE_X STATE_X) ≥
      c.SIGMA_BASE * c.SIGMA_BASE ∧
    (CreatePrefusedObject c m p0 pSensor posX posY velX velY).plot.R.get (sq STATE_Y STATE_Y) ≥
      c.SIGMA_BASE * c.SIGMA_BASE ∧
    (CreatePrefusedObject c m p0 pSensor posX posY velX velY).plot.R.get
      (sq STATE_VX STATE_VX) = c.SIGMA_DOPPLER * c.SIGMA_DOPPLER ∧
    (CreatePrefusedObject c m p0 pSensor posX posY velX velY).plot.R.get
      (sq STATE_VY STATE_VY) = c.SIGMA_DOPPLER * c.SIGMA_DOPPLER := by
  refine ⟨?_, ?_, ?_, ?_⟩
  · simp only [CreatePrefusedObject, GetVarX, get_set]
    simp
  · simp only [CreatePrefusedObject, GetVarY, get_set]
    simp
  · simp only [CreatePrefusedObject, get_set]
    simp
  · simp only [CreatePrefusedObject, get_set]
    simp

theorem GetBearingConfidence_eq (c : Config) (m : Libm) (x y : ℚ) (sensor : Sensor_t) :
    GetBearingConfidence c m x y sensor =
      if targetBearing m x y sensor ≤ sensor.tf.fov / 2 - c.SENSOR_WEAK_BEARING_AREA then
        c.MAX_BEARING_CONFIDENCE
      else if targetBearing m x y sensor ≤ sensor.tf.fov / 2 then
        GetLinInterpolatedValue (targetBearing m x y sensor)
          (sensor.tf.fov / 2 - c.SENSOR_WEAK_BEARING_AREA) (sensor.tf.fov / 2)
          c.MAX_BEARING_CONFIDENCE c.MIN_BEARING_CONFIDENCE
      else c.MIN_BEARING_CONFIDENCE := by
  have h0 : targetBearing m x y sensor ≥ 0 := abs_nonneg _
  unfold GetBearingConfidence
  simp only []
  change (if targetBearing m x y sensor ≥ 0 ∧ targetBearing m x y sensor ≤ _ then _ else
    if targetBearing m x y sensor > _ ∧ targetBearing m x y sensor ≤ _ then
      GetLinInterpolatedValue (targetBearing m x y sensor) _ _ _ _ else _) = _
  by_cases h1 : targetBearing m x y sensor ≤ sensor.tf.fov / 2 - c.SENSOR_WEAK_BEARING_AREA
  · rw [if_pos ⟨h0, h1⟩, if_pos h1]
  · rw [if_neg (fun h => h1 h.2), if_neg h1]
    by_cases h2 : targetBearing m x y sensor ≤ sensor.tf.fov / 2
    · rw [if_pos ⟨lt_of_not_le h1, h2⟩, if_pos h2]
    · rw [if_neg (fun h => h2 h.2), if_neg h2]

theorem GetBearingConfidenceDivisors_eq (c : Config) (m : Libm) (x y : ℚ) (sensor : Sensor_t) :
    GetBearingConfidenceDivisors c m x y sensor =
      if targetBearing m x y sensor ≤ sensor.tf.fov / 2 - c.SENSOR_WEAK_BEARING_AREA then []
      else if targetBearing m x y sensor ≤ sensor.tf.fov / 2 then
        [sensor.tf.fov / 2 - (sensor.tf.fov / 2 - c.SENSOR_WEAK_BEARING_AREA)]
      else [] := by
  have h0 : targetBearing m x y sensor ≥ 0 := abs_nonneg _
  unfold GetBearingConfidenceDivisors GetLinInterpolatedValueDivisors
  simp only []
  change (if targetBearing m x y sensor ≥ 0 ∧ targetBearing m x y sensor ≤ _ then _ else
    if targetBearing m x y sensor > _ ∧ targetBearing m x y sensor ≤ _ then _ else _) = _
  by_cases h1 : targetBearing m x y sensor ≤ sensor.tf.fov / 2 - c.SENSOR_WEAK_BEARING_AREA
  · rw [if_pos ⟨h0, h1⟩, if_pos h1]
  · rw [if_neg (fun h => h1 h.2), if_neg h1]
    by_cases h2 : targetBearing m x y sensor ≤ sensor.tf.fov / 2
    · rw [if_pos ⟨lt_of_not_le h1, h2⟩, if_pos h2]
    · rw [if_neg (fun h => h2 h.2), if_neg h2]

/-- The linear interpolation between `(x1, y1)` and `(x2, y2)` with `x1 < x2` and
`y2 ≤ y1`, at a point of `[x1, x2]`, lies in `[y2, y1]`. -/
theorem GetLinInterpolatedValue_bounds (x x1 x2 y1 y2 : ℚ) (hx : x1 < x2) (hy : y2 ≤ y1)
    (h1 : x1 ≤ x) (h2 : x ≤ x2) :
    y2 ≤ GetLinInterpolatedValue x x1 x2 y1 y2 ∧ GetLinInterpolatedValue x x1 x2 y1 y2 ≤ y1 := by
  have hd : 0 < x2 - x1 := by linarith
  have e : GetLinInterpolatedValue x x1 x2 y1 y2 = y1 - (y1 - y2) * ((x - x1) / (x2 - x1)) := by
    unfold GetLinInterpolatedValue
    field_simp
    ring
  have r0 : 0 ≤ (x - x1) / (x2 - x1) := div_nonneg (by linarith) hd.le
  have r1 : (x - x1) / (x2 - x1) ≤ 1 := (div_le_one hd).2 (by linarith)
  rw [e]
  constructor
  · nlinarith
  · nlinarith

set_option maxRecDepth 100000 in
/-- C24, counterexample: for the means `2` and `0` and the variances `-1` and `0`, the
variance sum is `-1`, `d = (2 - 0)^2 / (-1) = -4 < 0`, and `GetSimilarityValue` returns
`1 / d = -1 / 4`, not the sentinel `-1`. -/
theorem c24_negative_dissimilarity_is_inverted :
    ((2 : ℚ) - 0) * (2 - 0) / (-1 + 0) = -4 ∧
    GetDissimilarityValue 2 0 (-1) 0 = -4 ∧
    GetSimilarityValue 2 0 (-1) 0 = -1 / 4 ∧
    GetSimilarityValue 2 0 (-1) 0 ≠ INVALID_SIMILARITY_VALUE := by
  with_unfolding_all decide

/-- C24, amended: for all means and variances, with `d = (m1 - m2)^2 / (v1 + v2)`:
`GetSimilarityValue` returns `1 / d` if `v1 + v2 ≠ 0` and `d ≠ 0` (in particular if
`d > 0`), `MAX_SIMILARITY_VALUE = 1000` if `d = 0` with `v1 + v2 ≠ 0`, and the sentinel `-1`
if `v1 + v2 = 0`. -/
theorem c24_similarity_value (m1 m2 v1 v2 : ℚ) :
    (v1 + v2 ≠ 0 → (m1 - m2) * (m1 - m2) / (v1 + v2) ≠ 0 →
      GetSimilarityValue m1 m2 v1 v2 = 1 / ((m1 - m2) * (m1 - m2) / (v1 + v2))) ∧
    ((m1 - m2) * (m1 - m2) / (v1 + v2) > 0 →
      GetSimilarityValue m1 m2 v1 v2 = 1 / ((m1 - m2) * (m1 - m2) / (v1 + v2))) ∧
    (v1 + v2 ≠ 0 → (m1 - m2) * (m1 - m2) / (v1 + v2) = 0 →
      GetSimilarityValue m1 m2 v1 v2 = MAX_SIMILARITY_VALUE ∧ MAX_SIMILARITY_VALUE = 1000) ∧
    (v1 + v2 = 0 → GetSimilarityValue m1 m2 v1 v2 = INVALID_SIMILARITY_VALUE ∧
      INVALID_SIMILARITY_VALUE = -1) := by
  have key : ∀ hv : v1 + v2 ≠ 0, GetDissimilarityValue m1 m2 v1 v2 =
      (m1 - m2) * (m1 - m2) / (v1 + v2) := by
    intro hv
    unfold GetDissimilarityValue
    simp only []
    rw [if_pos hv]
  have a1 : v1 + v2 ≠ 0 → (m1 - m2) * (m1 - m2) / (v1 + v2) ≠ 0 →
      GetSimilarityValue m1 m2 v1 v2 = 1 / ((m1 - m2) * (m1 - m2) / (v1 + v2)) := by
    intro hv hd
    unfold GetSimilarityValue
    simp only []
    rw [key hv, if_neg hd]
  refine ⟨a1, ?_, ?_, ?_⟩
  · intro hd
    have hv : v1 + v2 ≠ 0 := by
      intro e
      rw [e, div_zero] at hd
      exact lt_irrefl _ hd
    exact a1 hv (ne_of_gt hd)
  · intro hv hd
    unfold GetSimilarityValue
    simp only []
    rw [key hv, if_pos hd]
    exact ⟨rfl, rfl⟩
  · intro hv
    unfold GetSimilarityValue GetDissimilarityValue
    simp only []
    rw [if_neg (not_not.2 hv)]
    norm_num [INVALID_SIMILARITY_VALUE]

theorem c24_similarity_value_witness :
    (1 : ℚ) + 1 ≠ 0 ∧ ((2 : ℚ) - 0) * (2 - 0) / (1 + 1) ≠ 0 ∧
    GetSimilarityValue 2 0 1 1 = 1 / ((2 - 0) * (2 - 0) / (1 + 1)) :=
  ⟨by norm_num, by norm_num, (c24_similarity_value 2 0 1 1).1 (by norm_num) (by norm_num)⟩

theorem GetSimilarityValueDivisors_ne (m1 m2 v1 v2 : ℚ) :
    ∀ d ∈ GetSimilarityValueDivisors m1 m2 v1 v2, d ≠ 0 := by
  intro d hd
  unfold GetSimilarityValueDivisors GetDissimilarityValueDivisors at hd
  simp only [List.mem_append] at hd
  rcases hd with hd | hd
  · by_cases h : v1 + v2 ≠ 0
    · rw [if_pos h, List.mem_singleton] at hd
      rw [hd]; exact h
    · rw [if_neg h] at hd
      exact absurd hd (List.not_mem_nil d)
  · by_cases h : GetDissimilarityValue m1 m2 v1 v2 = 0
    · rw [if_pos h] at hd
      exact absurd hd (List.not_mem_nil d)
    · rw [if_neg h, List.mem_singleton] at hd
      rw [hd]; exact h

theorem GetGatingValueLoopDivisors_cons (g : Gating) (p : PrefusedObject_t)
    (o : FusedObject_t) (i : Fin 4) (rest : List (Fin 4)) :
    GetGatingValueLoopDivisors g p o (i :: rest) =
      GetSimilarityValueDivisors (p.plot.Z.get i) (o.track.X.get i) (p.plot.R.get (sq i i))
          (o.track.P.get (sq i i)) ++
        (if stateSimilarity g p o i > STATE_GATING_VALUE_MIN_LIMIT then
          GetGatingValueLoopDivisors g p o rest
        else []) := rfl

theorem GetGatingValueLoopDivisors_ne (g : Gating) (p : PrefusedObject_t) (o : FusedObject_t)
    (xs : List (Fin 4)) : ∀ d ∈ GetGatingValueLoopDivisors g p o xs, d ≠ 0 := by
  induction xs with
  | nil => intro d hd; exact absurd hd (List.not_mem_nil d)
  | cons i rest ih =>
    intro d hd
    rw [GetGatingValueLoopDivisors_cons, List.mem_append] at hd
    rcases hd with hd | hd
    · exact GetSimilarityValueDivisors_ne _ _ _ _ d hd
    · by_cases h : stateSimilarity g p o i > STATE_GATING_VALUE_MIN_LIMIT
      · rw [if_pos h] at hd
        exact ih d hd
      · rw [if_neg h] at hd
        exact absurd hd (List.not_mem_nil d)

theorem GetGatingValueLoop_invalid (g : Gating) (p : PrefusedObject_t) (o : FusedObject_t)
    (xs : List (Fin 4)) (v : ℚ)
    (h : ∃ i ∈ xs, stateSimilarity g p o i ≤ STATE_GATING_VALUE_MIN_LIMIT) :
    GetGatingValueLoop g p o xs v = INVALID_GATING_VALUE := by
  induction xs generalizing v with
  | nil => obtain ⟨i, hi, _⟩ := h; exact absurd hi (List.not_mem_nil i)
  | cons j rest ih =>
    rw [GetGatingValueLoop_cons]
    by_cases hj : stateSimilarity g p o j > STATE_GATING_VALUE_MIN_LIMIT
    · rw [if_pos hj]
      apply ih
      obtain ⟨i, hi, hle⟩ := h
      rcases List.mem_cons.1 hi with e | e
      · rw [e] at hle
        exact absurd hj (not_lt.2 hle)
      · exact ⟨i, e, hle⟩
    · rw [if_neg hj]

theorem GetSimilarityValue_zero_variance (m1 m2 v1 v2 : ℚ) (h : v1 + v2 = 0) :
    GetSimilarityValue m1 m2 v1 v2 = -1 := by
  unfold GetSimilarityValue GetDissimilarityValue
  simp only []
  rw [if_neg (not_not.2 h)]
  norm_num [INVALID_SIMILARITY_VALUE]

/-- C25: for gating weights that are not negative, if for some state `i` the variances
`R[i,i]` of the plot and `P[i,i]` of the track sum to zero, then `GetGatingValue` returns
`INVALID_GATING_VALUE`, which is `-1`, whatever the means are, and none of the divisors of
the divisions evaluated is zero. -/
theorem c25_zero_variance_gating_is_invalid (g : Gating) (p : PrefusedObject_t)
    (o : FusedObject_t) (hw : ∀ i, 0 ≤ g.gatingWeights.get i) (i : Fin 4)
    (hv : p.plot.R.get (sq i i) + o.track.P.get (sq i i) = 0) :
    GetGatingValue g p o = INVALID_GATING_VALUE ∧ INVALID_GATING_VALUE = -1 ∧
    ∀ d ∈ GetGatingValueDivisors g p o, d ≠ 0 := by
  refine ⟨?_, by norm_num [INVALID_GATING_VALUE, INVALID_SIMILARITY_VALUE],
    GetGatingValueLoopDivisors_ne g p o states⟩
  unfold GetGatingValue
  apply GetGatingValueLoop_invalid
  refine ⟨i, mem_states i, ?_⟩
  unfold stateSimilarity
  rw [GetSimilarityValue_zero_variance _ _ _ _ hv]
  have := hw i
  have hl : STATE_GATING_VALUE_MIN_LIMIT = 1 / 10 := rfl
  rw [hl]
  linarith

set_option maxRecDepth 100000 in
theorem exampleZeroVariance_weights :
    ∀ i, 0 ≤ (InitializeFusionUtils defaultConfig).gatingWeights.get i := by
  with_unfolding_all decide

set_option maxRecDepth 100000 in
theorem exampleZeroVariance_sum :
    exampleZeroVariancePlot.plot.R.get (sq 0 0) +
      exampleZeroVarianceTrack.track.P.get (sq 0 0) = 0 := by
  with_unfolding_all decide

theorem c25_zero_variance_gating_is_invalid_witness :
    exampleZeroVariancePlot.plot.Z = exampleZeroVarianceTrack.track.X ∧
    (∀ i, exampleZeroVariancePlot.plot.R.get (sq i i) = 0 ∧
      exampleZeroVarianceTrack.track.P.get (sq i i) = 0) ∧
    GetGatingValue (InitializeFusionUtils defaultConfig) exampleZeroVariancePlot
      exampleZeroVarianceTrack = INVALID_GATING_VALUE ∧ INVALID_GATING_VALUE = -1 ∧
    ∀ d ∈ GetGatingValueDivisors (InitializeFusionUtils defaultConfig) exampleZeroVariancePlot
      exampleZeroVarianceTrack, d ≠ 0 :=
  ⟨rfl, by with_unfolding_all decide,
    c25_zero_variance_gating_is_invalid (InitializeFusionUtils defaultConfig)
      exampleZeroVariancePlot exampleZeroVarianceTrack exampleZeroVariance_weights 0
      exampleZeroVariance_sum⟩

theorem PredictState_InitF (dt : ℚ) (X : Vector ℚ 4) :
    (PredictState (InitF dt) X).get STATE_X = X.get STATE_X + dt * X.get STATE_VX ∧
    (PredictState (InitF dt) X).get STATE_Y = X.get STATE_Y + dt * X.get STATE_VY ∧
    (PredictState (InitF dt) X).get STATE_VX = X.get STATE_VX ∧
    (PredictState (InitF dt) X).get STATE_VY = X.get STATE_VY := by
  refine ⟨?_, ?_, ?_, ?_⟩ <;>
    simp [PredictState, InitF, states, sq, get_set, Vector.get_replicate, STATE_X, STATE_Y,
      STATE_VX, STATE_VY, -Vector.replicate_succ, -Vector.get_zero]

theorem GetSimilarityValue_equal (m v1 v2 : ℚ) (h : v1 + v2 ≠ 0) :
    GetSimilarityValue m m v1 v2 = MAX_SIMILARITY_VALUE := by
  unfold GetSimilarityValue GetDissimilarityValue
  simp only []
  rw [if_pos h, sub_self, zero_mul, zero_div, if_pos rfl]

theorem GetGatingValue_all (g : Gating) (p : PrefusedObject_t) (o : FusedObject_t)
    (h : ∀ i, stateSimilarity g p o i > STATE_GATING_VALUE_MIN_LIMIT) :
    GetGatingValue g p o = stateSimilarity g p o 0 + stateSimilarity g p o 1 +
      stateSimilarity g p o 2 + stateSimilarity g p o 3 := by
  unfold GetGatingValue states
  simp only [GetGatingValueLoop_cons]
  rw [if_pos (h 0), if_pos (h 1), if_pos (h 2), if_pos (h 3)]
  simp only [GetGatingValueLoop, zero_add]

theorem CreatePrefusedObject_priority (c : Config) (m : Libm) (p0 : PrefusedObject_t)
    (pSensor : Sensor_t) (posX posY velX velY : ℚ) :
    (CreatePrefusedObject c m p0 pSensor posX posY velX velY).priority =
      MAX_PRIORITY - m.sqrt
        ((CreatePrefusedObject c m p0 pSensor posX posY velX velY).plot.Z.get STATE_X *
          (CreatePrefusedObject c m p0 pSensor posX posY velX velY).plot.Z.get STATE_X +
         (CreatePrefusedObject c m p0 pSensor posX posY velX velY).plot.Z.get STATE_Y *
          (CreatePrefusedObject c m p0 pSensor posX posY velX velY).plot.Z.get STATE_Y) := rfl

theorem exampleLibmLinear_mono (a b : ℚ) (_h : 0 ≤ a) (hab : a < b) :
    exampleLibmLinear.sqrt a < exampleLibmLinear.sqrt b := by
  change a / 200 < b / 200
  linarith

/-- C33, the code at the failing input: for a square root that is increasing and exact at
`40000`, the range of the position `(200, 200)` is above `MAX_PRIORITY = 150`, and the
positions `(200, 200)` and `(120, 160)`, which are within the limits `200` of the distances,
have a negative priority; the priority of `(120, 160)` is `-50`. -/
theorem c33_priority_negative_in_range (m : Libm)
    (hm : ∀ a b : ℚ, 0 ≤ a → a < b → m.sqrt a < m.sqrt b) (h200 : m.sqrt 40000 = 200) :
    MAX_PRIORITY = 150 ∧ GetRange m 200 200 > MAX_PRIORITY ∧
    GetObjectPriority m 200 200 < 0 ∧
    |(120 : ℚ)| ≤ 200 ∧ |(160 : ℚ)| ≤ 200 ∧ GetObjectPriority m 120 160 = -50 := by
  have h1 : GetRange m 200 200 = m.sqrt 80000 := by
    unfold GetRange
    norm_num
  have h2 : GetRange m 120 160 = m.sqrt 40000 := by
    unfold GetRange
    norm_num
  have h3 := hm 40000 80000 (by norm_num) (by norm_num)
  have hM : MAX_PRIORITY = 150 := rfl
  refine ⟨hM, ?_, ?_, by norm_num [abs_le], by norm_num [abs_le], ?_⟩
  · rw [h1, hM]; linarith
  · unfold GetObjectPriority
    rw [h1, hM]; linarith
  · unfold GetObjectPriority
    rw [h2, h200, hM]; norm_num

theorem c33_priority_negative_in_range_witness :
    GetRange exampleLibmLinear 200 200 > MAX_PRIORITY ∧
    GetObjectPriority exampleLibmLinear 120 160 = -50 :=
  have h := c33_priority_negative_in_range exampleLibmLinear exampleLibmLinear_mono
    (by change (40000 : ℚ) / 200 = 200; norm_num)
  ⟨h.2.1, h.2.2.2.2.2⟩

set_option maxRecDepth 100000 in
theorem exampleTable_live : (exampleTable.get 0).id ≠ INVALID_ID := by
  with_unfolding_all decide

/-- C38, counterexample: for the means `1 / 100` and `0` and the variances `1` and `0`, whose
sum is positive, `GetSimilarityValue` returns `10000`, which is above
`MAX_SIMILARITY_VALUE = 1000`. -/
theorem c38_similarity_above_max :
    (1 : ℚ) + 0 > 0 ∧ GetSimilarityValue (1 / 100) 0 1 0 = 10000 ∧
    ¬ GetSimilarityValue (1 / 100) 0 1 0 ≤ MAX_SIMILARITY_VALUE ∧
    MAX_SIMILARITY_VALUE = 1000 := by
  have e : GetSimilarityValue (1 / 100) 0 1 0 = 10000 := by
    unfold GetSimilarityValue GetDissimilarityValue
    norm_num
  refine ⟨by norm_num, e, ?_, rfl⟩
  rw [e]
  norm_num [MAX_SIMILARITY_VALUE]

/-- C38, amended: for all means and all variances with `v1 + v2 > 0`, `GetSimilarityValue`
is `MAX_SIMILARITY_VALUE = 1000` when the two means are equal, and
`(v1 + v2) / (m1 - m2)^2` otherwise, which is at most `MAX_SIMILARITY_VALUE` exactly when
`v1 + v2 ≤ 1000 * (m1 - m2)^2`. -/
theorem c38_similarity_value_bound (m1 m2 v1 v2 : ℚ) (hv : v1 + v2 > 0) :
    (m1 = m2 → GetSimilarityValue m1 m2 v1 v2 = MAX_SIMILARITY_VALUE) ∧
    (m1 ≠ m2 → GetSimilarityValue m1 m2 v1 v2 = (v1 + v2) / ((m1 - m2) * (m1 - m2)) ∧
      (GetSimilarityValue m1 m2 v1 v2 ≤ MAX_SIMILARITY_VALUE ↔
        v1 + v2 ≤ 1000 * ((m1 - m2) * (m1 - m2)))) ∧
    MAX_SIMILARITY_VALUE = 1000 := by
  refine ⟨fun h => ?_, fun h => ?_, rfl⟩
  · rw [h]
    exact GetSimilarityValue_equal m2 v1 v2 hv.ne'
  · have hd : m1 - m2 ≠ 0 := sub_ne_zero.2 h
    have hsq : 0 < (m1 - m2) * (m1 - m2) := mul_self_pos.2 hd
    have e : GetSimilarityValue m1 m2 v1 v2 = (v1 + v2) / ((m1 - m2) * (m1 - m2)) := by
      unfold GetSimilarityValue GetDissimilarityValue
      simp only []
      rw [if_pos hv.ne', if_neg (div_ne_zero hsq.ne' hv.ne'), one_div_div]
    refine ⟨e, ?_⟩
    rw [e, div_le_iff₀ hsq]
    rfl

theorem c38_similarity_value_bound_witness :
    GetSimilarityValue 2 0 1 1 = (1 + 1) / ((2 - 0) * (2 - 0)) ∧
    (GetSimilarityValue 2 0 1 1 ≤ MAX_SIMILARITY_VALUE ↔
      (1 : ℚ) + 1 ≤ 1000 * ((2 - 0) * (2 - 0))) :=
  (c38_similarity_value_bound 2 0 1 1 (by norm_num)).2.1 (by norm_num)

theorem GetGatingValue_invalid (g : Gating) (p : PrefusedObject_t) (o : FusedObject_t)
    (h : ∃ i, stateSimilarity g p o i ≤ STATE_GATING_VALUE_MIN_LIMIT) :
    GetGatingValue g p o = INVALID_GATING_VALUE := by
  obtain ⟨i, hi⟩ := h
  exact GetGatingValueLoop_invalid g p o states 0 ⟨i, mem_states i, hi⟩

theorem totalGatingValueMinLimit_eq (c : Config) :
    (InitializeFusionUtils c).totalGatingValueMinLimit =
      4 * (1 / 10) * c.ACCEPTANCE_GATE_SUM_FACTOR := by
  simp only [InitializeFusionUtils, STATE_GATING_VALUE_MIN_LIMIT, KALMAN_STATES]
  norm_num

/-- C40: with `0 ≤ ACCEPTANCE_GATE_SUM_FACTOR ≤ 1`, a gating value that is not the invalid
value `-1` is the sum of four weighted similarities above `1 / 10` and is above
`totalGatingValueMinLimit = 4 * (1 / 10) * ACCEPTANCE_GATE_SUM_FACTOR`, and
`IsInsideAcceptanceGate` returns true if and only if some live track has all four weighted
state similarities above `STATE_GATING_VALUE_MIN_LIMIT`. -/
theorem c40_sum_threshold_is_redundant (c : Config) (p : PrefusedObject_t)
    (l : FusedObjectList) (h0 : 0 ≤ c.ACCEPTANCE_GATE_SUM_FACTOR)
    (h1 : c.ACCEPTANCE_GATE_SUM_FACTOR ≤ 1) :
    ((IsInsideAcceptanceGate (InitializeFusionUtils c) p l).1 = true ↔
      GateBySimilarities (InitializeFusionUtils c) p l) ∧
    (∀ o, GetGatingValue (InitializeFusionUtils c) p o ≠ INVALID_GATING_VALUE →
      (∀ s, stateSimilarity (InitializeFusionUtils c) p o s > STATE_GATING_VALUE_MIN_LIMIT) ∧
      GetGatingValue (InitializeFusionUtils c) p o =
        stateSimilarity (InitializeFusionUtils c) p o 0 +
        stateSimilarity (InitializeFusionUtils c) p o 1 +
        stateSimilarity (InitializeFusionUtils c) p o 2 +
        stateSimilarity (InitializeFusionUtils c) p o 3 ∧
      GetGatingValue (InitializeFusionUtils c) p o >
        (InitializeFusionUtils c).totalGatingValueMinLimit) ∧
    (InitializeFusionUtils c).totalGatingValueMinLimit =
      4 * (1 / 10) * c.ACCEPTANCE_GATE_SUM_FACTOR ∧
    STATE_GATING_VALUE_MIN_LIMIT = 1 / 10 := by
  have hlim := totalGatingValueMinLimit_eq c
  have hL : STATE_GATING_VALUE_MIN_LIMIT = 1 / 10 := rfl
  have hI : INVALID_GATING_VALUE = -1 := by
    norm_num [INVALID_GATING_VALUE, INVALID_SIMILARITY_VALUE]
  have hg : INVALID_GATING_VALUE ≤ (InitializeFusionUtils c).totalGatingValueMinLimit := by
    rw [hlim, hI]
    nlinarith
  have hall : ∀ o, (∀ s, stateSimilarity (InitializeFusionUtils c) p o s >
        STATE_GATING_VALUE_MIN_LIMIT) →
      GetGatingValue (InitializeFusionUtils c) p o >
        (InitializeFusionUtils c).totalGatingValueMinLimit := by
    intro o hs
    rw [GetGatingValue_all _ p o hs, hlim]
    have s0 := hs 0
    have s1 := hs 1
    have s2 := hs 2
    have s3 := hs 3
    rw [hL] at s0 s1 s2 s3
    nlinarith
  have hvalid : ∀ o, GetGatingValue (InitializeFusionUtils c) p o ≠ INVALID_GATING_VALUE →
      ∀ s, stateSimilarity (InitializeFusionUtils c) p o s > STATE_GATING_VALUE_MIN_LIMIT := by
    intro o hne s
    by_contra hs
    exact hne (GetGatingValue_invalid _ p o ⟨s, not_lt.1 hs⟩)
  refine ⟨?_, fun o hne => ⟨hvalid o hne, GetGatingValue_all _ p o (hvalid o hne),
    hall o (hvalid o hne)⟩, hlim, hL⟩
  rw [(IsInsideAcceptanceGate_spec (InitializeFusionUtils c) p l hg).1]
  unfold GateBySimilarities
  constructor
  · rintro ⟨i, hi, hgt⟩
    refine ⟨i, hi, hvalid _ ?_⟩
    intro e
    rw [e] at hgt
    exact absurd hg (not_le.2 hgt)
  · rintro ⟨i, hi, hs⟩
    exact ⟨i, hi, hall _ hs⟩

theorem c40_sum_threshold_is_redundant_witness :
    (0 : ℚ) ≤ defaultConfig.ACCEPTANCE_GATE_SUM_FACTOR ∧
    defaultConfig.ACCEPTANCE_GATE_SUM_FACTOR ≤ 1 ∧
    ((IsInsideAcceptanceGate (InitializeFusionUtils defaultConfig) examplePrefused
        exampleTable).1 = true ↔
      GateBySimilarities (InitializeFusionUtils defaultConfig) examplePrefused exampleTable) :=
  ⟨by norm_num [defaultConfig], by norm_num [defaultConfig],
    (c40_sum_threshold_is_redundant defaultConfig examplePrefused exampleTable
      (by norm_num [defaultConfig]) (by norm_num [defaultConfig])).1⟩

theorem PruneStep_priority_zero (c : Config) (a : Fin 16) (l : FusedObjectList) (j : Fin 16)
    (i : Fin 16) (hi : (l.get i).priority = 0) : ((PruneStep c a l j).get i).priority = 0 := by
  unfold PruneStep
  split_ifs
  · obtain ⟨h1, h2⟩ := CheckObjectsForPruning_cases c (l.get a) (l.get j)
    simp only [get_set]
    split_ifs with hj ha
    · rcases h2 with e | e
      · rw [e, hj]; exact hi
      · rw [e]; rfl
    · rcases h1 with e | e
      · rw [e, ha]; exact hi
      · rw [e]; rfl
    · exact hi
  · exact hi

theorem PruneRow_priority_zero (c : Config) (l : FusedObjectList) (a : Fin 16)
    (i : Fin 16) (hi : (l.get i).priority = 0) : ((PruneRow c l a).get i).priority = 0 := by
  unfold PruneRow
  split_ifs
  · exact foldl_preserves (fun l : FusedObjectList => (l.get i).priority = 0) (PruneStep c a)
      (fun s x hs => PruneStep_priority_zero c a s x i hs) _ l hi
  · exact hi

theorem MaintainObject_priority (c : Config) (o : FusedObject_t) :
    (MaintainObject c o).priority = o.priority ∨ MaintainObject c o = zeroFusedObject := by
  rw [MaintainObject_eq]
  split_ifs
  · left; rfl
  · right; rfl
  · left; rfl
  · left; rfl

theorem Manage_priority_zero (c : Config) (l : FusedObjectList) (i : Fin 16)
    (hi : (l.get i).priority = 0) : ((Manage c l).get i).priority = 0 := by
  have h1 : ((slots.foldl (PruneRow c) l).get i).priority = 0 :=
    foldl_preserves (fun l : FusedObjectList => (l.get i).priority = 0) (PruneRow c)
      (fun s x hs => PruneRow_priority_zero c s x i hs) slots l hi
  rw [Manage_eq, Maintain_get]
  split_ifs
  · rcases MaintainObject_priority c ((slots.foldl (PruneRow c) l).get i) with e | e
    · rw [e]; exact h1
    · rw [e]; rfl
  · exact h1

theorem Kept_refl (l : FusedObjectList) : Kept l l := fun _ => Or.inr rfl

theorem Kept_trans {l l1 l2 : FusedObjectList} (h : Kept l l1) (h' : Kept l1 l2) :
    Kept l l2 := by
  intro k
  rcases h' k with e | e
  · exact Or.inl e
  · rw [e]; exact h k

theorem Kept_live {l l' : FusedObjectList} (h : Kept l l') (k : Fin 16)
    (hk : (l'.get k).id ≠ INVALID_ID) : l'.get k = l.get k := by
  rcases h k with e | e
  · rw [e] at hk
    exact absurd rfl hk
  · exact e

theorem PruneStep_kept (c : Config) (i : Fin 16) (l : FusedObjectList) (j : Fin 16) :
    Kept l (PruneStep c i l j) := by
  unfold PruneStep
  split_ifs
  · obtain ⟨h1, h2⟩ := CheckObjectsForPruning_cases c (l.get i) (l.get j)
    intro k
    simp only [get_set]
    split_ifs with hj hi
    · rcases h2 with e | e
      · right; rw [e, hj]
      · left; exact e
    · rcases h1 with e | e
      · right; rw [e, hi]
      · left; exact e
    · right; rfl
  · exact Kept_refl l

/-- After the pruning check of the pair `(i, j)`, the two slots do not both hold live tracks
within the prune limits. -/
theorem PruneStep_pair (c : Config) (i : Fin 16) (l : FusedObjectList) (j : Fin 16)
    (hij : i ≠ j) (hi : ((PruneStep c i l j).get i).id ≠ INVALID_ID)
    (hj : ((PruneStep c i l j).get j).id ≠ INVALID_ID) :
    ¬ WithinPruneLimits c ((PruneStep c i l j).get i) ((PruneStep c i l j).get j) := by
  unfold PruneStep at hi hj ⊢
  by_cases hl : (l.get i).id ≠ INVALID_ID ∧ (l.get j).id ≠ INVALID_ID
  · rw [if_pos hl] at hi hj ⊢
    simp only [get_set, if_neg (Ne.symm hij), if_true] at hi hj ⊢
    intro hw
    by_cases hin : WithinPruneLimits c (l.get i) (l.get j)
    · rw [CheckObjectsForPruning_within c _ _ hin] at hi hj
      split_ifs at hi hj
      · exact hj rfl
      · exact hi rfl
    · have hb : CheckObjectsForPruning c (l.get i) (l.get j) = (l.get i, l.get j) := by
        unfold CheckObjectsForPruning
        unfold WithinPruneLimits at hin
        rw [if_neg hin]
      rw [hb] at hw
      exact hin hw
  · rw [if_neg hl] at hi hj
    exact absurd ⟨hi, hj⟩ hl

theorem PruneStep_fold_pairs (c : Config) (i : Fin 16) (js : List (Fin 16))
    (hjs : ∀ j ∈ js, i ≠ j) (l : FusedObjectList) :
    Kept l (js.foldl (PruneStep c i) l) ∧
    ∀ b ∈ js, ((js.foldl (PruneStep c i) l).get i).id ≠ INVALID_ID →
      ((js.foldl (PruneStep c i) l).get b).id ≠ INVALID_ID →
      ¬ WithinPruneLimits c ((js.foldl (PruneStep c i) l).get i)
        ((js.foldl (PruneStep c i) l).get b) := by
  induction js generalizing l with
  | nil => exact ⟨Kept_refl l, fun b hb => absurd hb (List.not_mem_nil b)⟩
  | cons j rest ih =>
    obtain ⟨k1, k2⟩ := ih (fun x hx => hjs x (List.mem_cons_of_mem _ hx)) (PruneStep c i l j)
    simp only [List.foldl_cons]
    refine ⟨Kept_trans (PruneStep_kept c i l j) k1, fun b hb hi hbl => ?_⟩
    rcases List.mem_cons.1 hb with e | hb'
    · rw [e] at hbl ⊢
      have ei := Kept_live k1 i hi
      have ej := Kept_live k1 j hbl
      rw [ei] at hi ⊢
      rw [ej] at hbl ⊢
      exact PruneStep_pair c i l j (hjs j (List.mem_cons_self _ _)) hi hbl
    · exact k2 b hb' hi hbl

theorem PruneRow_pairs (c : Config) (l : FusedObjectList) (i : Fin 16) :
    Kept l (PruneRow c l i) ∧
    ∀ b, i < b → ((PruneRow c l i).get i).id ≠ INVALID_ID →
      ((PruneRow c l i).get b).id ≠ INVALID_ID →
      ¬ WithinPruneLimits c ((PruneRow c l i).get i) ((PruneRow c l i).get b) := by
  unfold PruneRow
  by_cases hl : (l.get i).id ≠ INVALID_ID
  · rw [if_pos hl]
    obtain ⟨k1, k2⟩ := PruneStep_fold_pairs c i (slots.filter (fun j => i < j))
      (fun j hj => by
        have := (List.mem_filter.1 hj).2
        exact ne_of_lt (by simpa using this)) l
    exact ⟨k1, fun b hb => k2 b (List.mem_filter.2 ⟨mem_slots b, by simpa using hb⟩)⟩
  · rw [if_neg hl]
    exact ⟨Kept_refl l, fun b _ hi => absurd hi hl⟩

theorem Prune_fold_pairs (c : Config) (is : List (Fin 16)) (l : FusedObjectList) :
    Kept l (is.foldl (PruneRow c) l) ∧
    ∀ a ∈ is, ∀ b, a < b → ((is.foldl (PruneRow c) l).get a).id ≠ INVALID_ID →
      ((is.foldl (PruneRow c) l).get b).id ≠ INVALID_ID →
      ¬ WithinPruneLimits c ((is.foldl (PruneRow c) l).get a)
        ((is.foldl (PruneRow c) l).get b) := by
  induction is generalizing l with
  | nil => exact ⟨Kept_refl l, fun a ha => absurd ha (List.not_mem_nil a)⟩
  | cons i rest ih =>
    obtain ⟨k1, k2⟩ := ih (PruneRow c l i)
    obtain ⟨r1, r2⟩ := PruneRow_pairs c l i
    simp only [List.foldl_cons]
    refine ⟨Kept_trans r1 k1, fun a ha b hab hal hbl => ?_⟩
    rcases List.mem_cons.1 ha with e | ha'
    · rw [e] at hal hab ⊢
      have ei := Kept_live k1 i hal
      have eb := Kept_live k1 b hbl
      rw [ei] at hal ⊢
      rw [eb] at hbl ⊢
      exact r2 b hab hal hbl
    · exact k2 a ha' b hab hal hbl

theorem WithinPruneLimits_symm (c : Config) (o1 o2 : FusedObject_t)
    (h : WithinPruneLimits c o1 o2) : WithinPruneLimits c o2 o1 := by
  unfold WithinPruneLimits at h ⊢
  rw [abs_sub_comm (o2.track.X.get STATE_X), abs_sub_comm (o2.track.X.get STATE_Y),
    abs_sub_comm (o2.track.X.get STATE_VX), abs_sub_comm (o2.track.X.get STATE_VY)]
  exact h

theorem MaintainObject_track (c : Config) (o : FusedObject_t)
    (h : (MaintainObject c o).id ≠ INVALID_ID) :
    (MaintainObject c o).track = o.track ∧ o.id ≠ INVALID_ID := by
  rw [MaintainObject_eq] at h ⊢
  split_ifs at h ⊢
  · exact ⟨rfl, h⟩
  · exact absurd rfl h
  · exact ⟨rfl, h⟩
  · exact ⟨rfl, h⟩

/-- A live slot after `Manage` holds the track it held before `Manage`, and it was live
after the pruning loop with the same object as before `Manage`. -/
theorem Manage_live (c : Config) (l : FusedObjectList) (i : Fin 16)
    (h : ((Manage c l).get i).id ≠ INVALID_ID) :
    ((Manage c l).get i).track = (l.get i).track ∧
    ((slots.foldl (PruneRow c) l).get i).id ≠ INVALID_ID ∧
    (slots.foldl (PruneRow c) l).get i = l.get i := by
  have hk := (Prune_fold_pairs c slots l).1
  rw [Manage_eq, Maintain_get] at h ⊢
  by_cases hl : ((slots.foldl (PruneRow c) l).get i).id ≠ INVALID_ID
  · rw [if_pos hl] at h ⊢
    have e := Kept_live hk i hl
    refine ⟨?_, hl, e⟩
    rw [(MaintainObject_track c _ h).1, e]
  · rw [if_neg hl] at h
    exact absurd h hl

set_option maxRecDepth 100000 in
theorem exampleNearTable_facts :
    (exampleNearTable.get 0).id ≠ INVALID_ID ∧ (exampleNearTable.get 1).id ≠ INVALID_ID ∧
    ((Manage defaultConfig exampleNearTable).get 0).id ≠ INVALID_ID ∧
    ((Manage defaultConfig exampleNearTable).get 1).id = INVALID_ID := by
  with_unfolding_all decide

theorem toU32_lt (x : Int) : toU32 x < 4294967296 := by
  unfold toU32
  have h1 : 0 ≤ x % 4294967296 := Int.emod_nonneg x (by norm_num)
  have h2 : x % 4294967296 < 4294967296 := Int.emod_lt_of_pos x (by norm_num)
  omega

theorem GuardGeZeroU_true (j : Int) : GuardGeZeroU j = true := by
  unfold GuardGeZeroU
  rw [decide_eq_true_eq]
  exact Nat.zero_le _

theorem GuardLeMinusOneU_zero (i : Int) : GuardLeMinusOneU i 0 = true := by
  unfold GuardLeMinusOneU
  rw [decide_eq_true_eq]
  have h := toU32_lt i
  have e : (toU32 0 + 4294967295) % 4294967296 = 4294967295 := rfl
  rw [e]
  omega

theorem DecomposeUDMachine_run (n : Nat) :
    DecomposeUDMachine (n + 5) 3 [] =
      Run.outOfBounds [(3, 3), (3, 2), (3, 1), (3, 0)] (3, -1) := rfl

/-- C37, the code at the failing input: with the counters converted to `unsigned int` as the
C comparison does, the guard `j >= 0u` holds for every value of the counter and the guard
`i <= j - 1u` holds for every value of `i` when `j = 0`.  `DecomposeUD` is meant to visit
ten index pairs; run from `j = 3` it visits `(3, 3)`, `(3, 2)`, `(3, 1)`, `(3, 0)`, then
enters the body with `i = -1` and reads `UDU[-1]`, and it never leaves its loops by a
guard.  The sweep of `FuseState` at `j = 0` makes four passes and then indexes
`transformation[4]`, where zero passes are meant, and the sweep of `EstimateCovariance` at
`i = 0`, `j = 0` makes eight passes and then indexes `outputQu` out of its bounds.  For
`j = 1, 2, 3` the sweep of `FuseState` makes the `j` passes meant. -/
theorem c37_kernel_loops_leave_their_bounds :
    (∀ j : Int, GuardGeZeroU j = true) ∧
    (∀ i : Int, GuardLeMinusOneU i 0 = true) ∧
    intendedDecomposeUDVisits =
      [(3, 3), (3, 2), (3, 1), (3, 0), (2, 2), (2, 1), (2, 0), (1, 1), (1, 0), (0, 0)] ∧
    (∀ n : Nat, DecomposeUDMachine (n + 5) 3 [] =
      Run.outOfBounds [(3, 3), (3, 2), (3, 1), (3, 0)] (3, -1)) ∧
    (∀ (fuel : Nat) (visited : List (Int × Int)),
      DecomposeUDMachine fuel 3 [] ≠ Run.finished visited) ∧
    (∀ n : Nat, FuseStateSweepMachine 0 (n + 5) 0 [] = Run.outOfBounds [0, 1, 2, 3] 4) ∧
    (∀ n : Nat, EstimateCovarianceSweepMachine 0 0 (n + 9) 0 [] =
      Run.outOfBounds [0, 1, 2, 3, 4, 5, 6, 7] 8) ∧
    (∀ n : Nat, FuseStateSweepMachine 1 (n + 2) 0 [] = Run.finished [0]) ∧
    (∀ n : Nat, FuseStateSweepMachine 2 (n + 3) 0 [] = Run.finished [0, 1]) ∧
    (∀ n : Nat, FuseStateSweepMachine 3 (n + 4) 0 [] = Run.finished [0, 1, 2]) := by
  refine ⟨GuardGeZeroU_true, GuardLeMinusOneU_zero, by decide, DecomposeUDMachine_run, ?_,
    fun _ => rfl, fun _ => rfl, fun _ => rfl, fun _ => rfl, fun _ => rfl⟩
  intro fuel visited e
  have h : (DecomposeUDMachine fuel 3 []).isFinished = false := by
    match fuel with
    | 0 => rfl
    | 1 => rfl
    | 2 => rfl
    | 3 => rfl
    | 4 => rfl
    | n + 5 => rw [DecomposeUDMachine_run]; rfl
  rw [e] at h
  exact Bool.noConfusion h

/-- A measurement outside every gate is handed to `CreateFusedObject`. -/
theorem AssociatePrefusedObject_outside (g : Gating) (p : PrefusedObject_t)
    (l : FusedObjectList) (h : (IsInsideAcceptanceGate g p l).1 = false) :
    AssociatePrefusedObject g p l = CreateFusedObject l p := by
  unfold AssociatePrefusedObject
  simp only
  rw [h]
  rfl

/-- The plot and the priority that `CreatePrefusedObject` writes. -/
theorem CreatePrefusedObject_fields (c : Config) (m : Libm) (p0 : PrefusedObject_t)
    (s : Sensor_t) (x y vx vy : ℚ) :
    (CreatePrefusedObject c m p0 s x y vx vy).valid = 1 ∧
    (CreatePrefusedObject c m p0 s x y vx vy).plot.Z.get STATE_X = x + s.tf.canX ∧
    (CreatePrefusedObject c m p0 s x y vx vy).plot.Z.get STATE_Y = y + s.tf.canY ∧
    (CreatePrefusedObject c m p0 s x y vx vy).plot.Z.get STATE_VX = vx ∧
    (CreatePrefusedObject c m p0 s x y vx vy).plot.Z.get STATE_VY = vy ∧
    (CreatePrefusedObject c m p0 s x y vx vy).plot.R.get (sq STATE_X STATE_X) =
      GetVarX m (x + s.tf.canX) (y + s.tf.canY) (c.SIGMA_RANGE * c.SIGMA_RANGE)
        (DEG2RAD c.SIGMA_BEARING * DEG2RAD c.SIGMA_BEARING) (c.SIGMA_BASE * c.SIGMA_BASE) ∧
    (CreatePrefusedObject c m p0 s x y vx vy).plot.R.get (sq STATE_VX STATE_VX) =
      c.SIGMA_DOPPLER * c.SIGMA_DOPPLER ∧
    (CreatePrefusedObject c m p0 s x y vx vy).priority =
      MAX_PRIORITY - m.sqrt ((x + s.tf.canX) * (x + s.tf.canX) +
        (y + s.tf.canY) * (y + s.tf.canY)) := by
  refine ⟨rfl, ?_, ?_, ?_, ?_, ?_, ?_, ?_⟩ <;>
    simp [CreatePrefusedObject, ApplySensorTF, GetObjectPriority, GetRange, get_set, sq,
      STATE_X, STATE_Y, STATE_VX, STATE_VY, -Vector.get_zero]

/-! ## The kernel at machine level -/

theorem forLoop_succ {σ : Type} (guard : Int → Bool) (next : Int → Int)
    (body : Int → σ → Outcome σ) (fuel : Nat) (k : Int) (s : σ) :
    forLoop guard next body (fuel + 1) k s =
      if guard k then (body k s).bind (forLoop guard next body fuel (next k))
      else Outcome.returned s := rfl

theorem readAt_in {n : Nat} (a : Vector ℚ n) (k : Int) (h : 0 ≤ k ∧ k < n) :
    ∃ v, readAt a k = Outcome.returned v := ⟨_, dif_pos h⟩

theorem writeAt_in {n : Nat} (a : Vector ℚ n) (k : Int) (v : ℚ) (h : 0 ≤ k ∧ k < n) :
    ∃ b, writeAt a k v = Outcome.returned b := ⟨_, dif_pos h⟩

theorem DecomposeUDStep_returns (fuel : Nat) (UDU : Vector ℚ 16) (i : Int)
    (hi : i = 3 ∨ i = 2 ∨ i = 1 ∨ i = 0) (UD : Vector ℚ 10 × Vector ℚ 4) :
    ∃ UD', DecomposeUDStep (fuel + 1) UDU 3 i UD = Outcome.returned UD' := by
  have hk : toS16 (((toU32 3 + 1) % 4294967296 : Nat) : Int) = 4 := by decide
  have hg : decide (toU32 4 ≤ 3) = false := by decide
  have u3 : UpperIndexU 3 3 = 9 := by decide
  have u2 : UpperIndexU 2 3 = 8 := by decide
  have u1 : UpperIndexU 1 3 = 6 := by decide
  have u0 : UpperIndexU 0 3 = 3 := by decide
  rcases hi with h | h | h | h <;> subst h <;>
    simp +decide [DecomposeUDStep, forLoop_succ, readAt, writeAt, Outcome.bind, hk, hg, u3, u2,
      u1, u0]

theorem DecomposeUDStep_leaves (fuel : Nat) (UDU : Vector ℚ 16)
    (UD : Vector ℚ 10 × Vector ℚ 4) :
    DecomposeUDStep fuel UDU 3 (-1) UD = Outcome.outOfBounds := by
  simp +decide [DecomposeUDStep, readAt, Outcome.bind]

theorem DecomposeUDColumn_leaves (fuel : Nat) (UDU : Vector ℚ 16)
    (UD : Vector ℚ 10 × Vector ℚ 4) :
    DecomposeUDColumn (fuel + 5) UDU 3 UD = Outcome.outOfBounds := by
  have g3 : GuardGeZeroU 3 = true := by decide
  have g2 : GuardGeZeroU 2 = true := by decide
  have g1 : GuardGeZeroU 1 = true := by decide
  have g0 : GuardGeZeroU 0 = true := by decide
  have gm : GuardGeZeroU (-1) = true := by decide
  have n3 : toS16 (3 - 1) = 2 := by decide
  have n2 : toS16 (2 - 1) = 1 := by decide
  have n1 : toS16 (1 - 1) = 0 := by decide
  have n0 : toS16 (0 - 1) = -1 := by decide
  obtain ⟨UD3, h3⟩ := DecomposeUDStep_returns (fuel + 4) UDU 3 (Or.inl rfl) UD
  obtain ⟨UD2, h2⟩ := DecomposeUDStep_returns (fuel + 4) UDU 2 (Or.inr (Or.inl rfl)) UD3
  obtain ⟨UD1, h1⟩ := DecomposeUDStep_returns (fuel + 4) UDU 1 (Or.inr (Or.inr (Or.inl rfl))) UD2
  obtain ⟨UD0, h0⟩ := DecomposeUDStep_returns (fuel + 4) UDU 0 (Or.inr (Or.inr (Or.inr rfl))) UD1
  unfold DecomposeUDColumn
  rw [forLoop_succ, g3, if_pos rfl, h3]
  simp only [Outcome.bind]
  rw [n3, forLoop_succ, g2, if_pos rfl, h2]
  simp only [Outcome.bind]
  rw [n2, forLoop_succ, g1, if_pos rfl, h1]
  simp only [Outcome.bind]
  rw [n1, forLoop_succ, g0, if_pos rfl, h0]
  simp only [Outcome.bind]
  rw [n0, forLoop_succ, gm, if_pos rfl, DecomposeUDStep_leaves]
  rfl

theorem DecomposeUD_leaves (fuel : Nat) (UDU : Vector ℚ 16) :
    DecomposeUD (fuel + 5) UDU = Outcome.outOfBounds := by
  unfold DecomposeUD
  rw [forLoop_succ, show GuardGeZeroU 3 = true from by decide, if_pos rfl,
    DecomposeUDColumn_leaves]
  rfl

theorem bind_none_left {α β : Type} (x : Outcome α) (f : α → Outcome β)
    (h : x.toOption = none) : (x.bind f).toOption = none := by
  cases x with
  | returned a => exact absurd h (by simp [Outcome.toOption])
  | outOfBounds => rfl
  | outOfFuel => rfl

theorem bind_none_right {α β : Type} (x : Outcome α) (f : α → Outcome β)
    (h : ∀ a, (f a).toOption = none) : (x.bind f).toOption = none := by
  cases x with
  | returned a => exact h a
  | outOfBounds => rfl
  | outOfFuel => rfl

/-- A loop whose guard holds for every value of the counter does not return. -/
theorem forLoop_none_of_guard {σ : Type} (guard : Int → Bool) (next : Int → Int)
    (body : Int → σ → Outcome σ) (h : ∀ k, guard k = true) :
    ∀ (fuel : Nat) (k : Int) (s : σ), (forLoop guard next body fuel k s).toOption = none
  | 0, _, _ => rfl
  | fuel + 1, k, s => by
    rw [forLoop_succ, h k, if_pos rfl]
    exact bind_none_right _ _ (forLoop_none_of_guard guard next body h fuel (next k))

/-- A loop whose first pass does not return does not return. -/
theorem forLoop_none_of_first {σ : Type} (guard : Int → Bool) (next : Int → Int)
    (body : Int → σ → Outcome σ) (fuel : Nat) (k : Int) (s : σ) (hg : guard k = true)
    (h : (body k s).toOption = none) : (forLoop guard next body fuel k s).toOption = none := by
  cases fuel with
  | zero => rfl
  | succ fuel =>
    rw [forLoop_succ, hg, if_pos rfl]
    exact bind_none_left _ _ h

theorem DecomposeUD_none (fuel : Nat) (UDU : Vector ℚ 16) :
    (DecomposeUD fuel UDU).toOption = none :=
  forLoop_none_of_guard _ _ _ GuardGeZeroU_true fuel 3 _

theorem FuseState_none (fuel : Nat) (innovation alpha : ℚ) (transformation state : Vector ℚ 4)
    (outputQu : Vector ℚ 10) (outputQd : Vector ℚ 4) :
    (FuseState fuel innovation alpha transformation state outputQu outputQd).toOption =
      none := by
  unfold FuseState
  apply bind_none_left
  apply forLoop_none_of_first _ _ _ _ _ _ (by decide)
  unfold FuseStateVector1Step
  apply bind_none_right
  intro h
  apply bind_none_right
  intro t
  exact forLoop_none_of_guard _ _ _ GuardLeMinusOneU_zero fuel 0 t

theorem EstimateCovariance_none (fuel : Nat) (F inputF : Vector ℚ 16) (inputQu : Vector ℚ 10)
    (inputQd : Vector ℚ 4) (outputQu : Vector ℚ 10) (outputQd : Vector ℚ 4) :
    (EstimateCovariance fuel F inputF inputQu inputQd outputQu outputQd).toOption = none := by
  unfold EstimateCovariance
  apply bind_none_left
  apply forLoop_none_of_first _ _ _ _ _ _ (by decide)
  exact forLoop_none_of_guard _ _ _ GuardGeZeroU_true fuel 3 F

theorem FuseStateVector1Sweep_returns (transformation : Vector ℚ 4) (outputQu : Vector ℚ 10)
    (i : Int) (hi : i = 0 ∨ i = 1 ∨ i = 2 ∨ i = 3) (t : Vector ℚ 4) :
    ∃ t', FuseStateVector1Sweep transformation outputQu 0 i t = Outcome.returned t' := by
  have u0 : UpperIndexU 0 0 = 0 := by decide
  have u1 : UpperIndexU 1 0 = 3 := by decide
  have u2 : UpperIndexU 2 0 = 5 := by decide
  have u3 : UpperIndexU 3 0 = 6 := by decide
  rcases hi with h | h | h | h <;> subst h <;>
    simp +decide [FuseStateVector1Sweep, readAt, writeAt, Outcome.bind, u0, u1, u2, u3]

theorem FuseStateVector1Sweep_leaves (transformation : Vector ℚ 4) (outputQu : Vector ℚ 10)
    (t : Vector ℚ 4) :
    FuseStateVector1Sweep transformation outputQu 0 4 t = Outcome.outOfBounds := by
  have u4 : UpperIndexU 4 0 = 6 := by decide
  simp +decide [FuseStateVector1Sweep, readAt, Outcome.bind, u4]

/-- `FuseState` leaves the bounds of `transformation` in the first sweep, at `j = 0` and
`i = 4`. -/
theorem FuseState_leaves (fuel : Nat) (innovation alpha : ℚ) (transformation state : Vector ℚ 4)
    (outputQu : Vector ℚ 10) (outputQd : Vector ℚ 4) :
    FuseState (fuel + 5) innovation alpha transformation state outputQu outputQd =
      Outcome.outOfBounds := by
  have g : ∀ i, GuardLeMinusOneU i 0 = true := GuardLeMinusOneU_zero
  have n0 : toS16 (0 + 1) = 1 := by decide
  have n1 : toS16 (1 + 1) = 2 := by decide
  have n2 : toS16 (2 + 1) = 3 := by decide
  have n3 : toS16 (3 + 1) = 4 := by decide
  have hsweep : ∀ t : Vector ℚ 4, forLoop (fun i => GuardLeMinusOneU i 0)
      (fun i => toS16 (i + 1)) (FuseStateVector1Sweep transformation outputQu 0) (fuel + 5) 0 t =
        Outcome.outOfBounds := by
    intro t
    obtain ⟨t0, h0⟩ := FuseStateVector1Sweep_returns transformation outputQu 0 (Or.inl rfl) t
    obtain ⟨t1, h1⟩ := FuseStateVector1Sweep_returns transformation outputQu 1
      (Or.inr (Or.inl rfl)) t0
    obtain ⟨t2, h2⟩ := FuseStateVector1Sweep_returns transformation outputQu 2
      (Or.inr (Or.inr (Or.inl rfl))) t1
    obtain ⟨t3, h3⟩ := FuseStateVector1Sweep_returns transformation outputQu 3
      (Or.inr (Or.inr (Or.inr rfl))) t2
    rw [forLoop_succ]
    simp only [g, if_true, h0, Outcome.bind, n0]
    rw [forLoop_succ]
    simp only [g, if_true, h1, Outcome.bind, n1]
    rw [forLoop_succ]
    simp only [g, if_true, h2, Outcome.bind, n2]
    rw [forLoop_succ]
    simp only [g, if_true, h3, Outcome.bind, n3]
    rw [forLoop_succ]
    simp only [g, if_true, FuseStateVector1Sweep_leaves, Outcome.bind]
  have hstep : ∀ t : Vector ℚ 4,
      FuseStateVector1Step (fuel + 5) transformation outputQu 0 t = Outcome.outOfBounds := by
    intro t
    unfold FuseStateVector1Step
    obtain ⟨h, hh⟩ := readAt_in transformation 0 (by decide)
    obtain ⟨t', ht⟩ := writeAt_in t 0 h (by decide)
    rw [hh]
    simp only [Outcome.bind, ht, hsweep]
  unfold FuseState
  simp only []
  rw [forLoop_succ]
  simp only [show decide ((0 : Int) < 4) = true from by decide, if_true, hstep, Outcome.bind]

theorem EstimateCovarianceSweep_returns (inputF : Vector ℚ 16) (outputQu : Vector ℚ 10)
    (j k : Int) (sigma : ℚ)
    (h : (j = 3 ∧ (k = 0 ∨ k = 1 ∨ k = 2)) ∨ (j = 2 ∧ (k = 0 ∨ k = 1)) ∨ (j = 1 ∧ k = 0) ∨
      (j = 0 ∧ (k = 0 ∨ k = 1 ∨ k = 2 ∨ k = 3 ∨ k = 4 ∨ k = 5 ∨ k = 6 ∨ k = 7))) :
    ∃ sigma', EstimateCovarianceSweep inputF outputQu 0 j k sigma = Outcome.returned sigma' := by
  unfold EstimateCovarianceSweep
  have hk : 0 ≤ k ∧ k < 8 := by omega
  obtain ⟨f, hf⟩ := readAt_in inputF (4 * 0 + k) (by constructor <;> push_cast <;> omega)
  have hu : (0 : Int) ≤ (UpperIndexU k j : Int) ∧ (UpperIndexU k j : Int) < (10 : Nat) := by
    rcases h with ⟨hj, h⟩ | ⟨hj, h⟩ | ⟨hj, h⟩ | ⟨hj, h⟩ <;> subst hj
    · rcases h with h | h | h <;> subst h <;> decide
    · rcases h with h | h <;> subst h <;> decide
    · subst h; decide
    · rcases h with h | h | h | h | h | h | h | h <;> subst h <;> decide
  obtain ⟨u, hu'⟩ := readAt_in outputQu (UpperIndexU k j) hu
  rw [hf]
  simp only [Outcome.bind, hu']
  exact ⟨_, rfl⟩

theorem EstimateCovarianceSweep_leaves (inputF : Vector ℚ 16) (outputQu : Vector ℚ 10)
    (sigma : ℚ) :
    EstimateCovarianceSweep inputF outputQu 0 0 8 sigma = Outcome.outOfBounds := by
  have u8 : UpperIndexU 8 0 = 4294967292 := by decide
  simp +decide [EstimateCovarianceSweep, readAt, Outcome.bind, u8]

theorem returned_bind {α β : Type} (a : α) (f : α → Outcome β) :
    (Outcome.returned a).bind f = f a := rfl

theorem outOfBounds_bind {α β : Type} (f : α → Outcome β) :
    (Outcome.outOfBounds : Outcome α).bind f = Outcome.outOfBounds := rfl

theorem forLoop_step {σ : Type} (guard : Int → Bool) (next : Int → Int)
    (body : Int → σ → Outcome σ) (fuel : Nat) (k k' : Int) (s s' : σ) (hg : guard k = true)
    (hb : body k s = Outcome.returned s') (hn : next k = k') :
    forLoop guard next body (fuel + 1) k s = forLoop guard next body fuel k' s' := by
  rw [forLoop_succ, hg, if_pos rfl, hb, hn]
  rfl

theorem forLoop_exit {σ : Type} (guard : Int → Bool) (next : Int → Int)
    (body : Int → σ → Outcome σ) (fuel : Nat) (k : Int) (s : σ) (hg : guard k = false) :
    forLoop guard next body (fuel + 1) k s = Outcome.returned s := by
  rw [forLoop_succ, hg]
  rfl

theorem forLoop_leaves {σ : Type} (guard : Int → Bool) (next : Int → Int)
    (body : Int → σ → Outcome σ) (fuel : Nat) (k : Int) (s : σ) (hg : guard k = true)
    (hb : body k s = Outcome.outOfBounds) :
    forLoop guard next body (fuel + 1) k s = Outcome.outOfBounds := by
  rw [forLoop_succ, hg, if_pos rfl, hb]
  rfl

/-- `EstimateCovariance` leaves the bounds of `outputQu` in the first sweep, at `i = 0`,
`j = 0` and `k = 8`. -/
theorem EstimateCovariance_leaves (fuel : Nat) (F inputF : Vector ℚ 16) (inputQu : Vector ℚ 10)
    (inputQd : Vector ℚ 4) (outputQu : Vector ℚ 10) (outputQd : Vector ℚ 4) :
    EstimateCovariance (fuel + 9) F inputF inputQu inputQd outputQu outputQd =
      Outcome.outOfBounds := by
  have g0 : ∀ k, GuardLeMinusOneU k 0 = true := GuardLeMinusOneU_zero
  have gg : ∀ j, GuardGeZeroU j = true := GuardGeZeroU_true
  have n0 : toS16 (0 + 1) = 1 := by decide
  have n1 : toS16 (1 + 1) = 2 := by decide
  have n2 : toS16 (2 + 1) = 3 := by decide
  have n3 : toS16 (3 + 1) = 4 := by decide
  have n4 : toS16 (4 + 1) = 5 := by decide
  have n5 : toS16 (5 + 1) = 6 := by decide
  have n6 : toS16 (6 + 1) = 7 := by decide
  have n7 : toS16 (7 + 1) = 8 := by decide
  have d3 : toS16 (3 - 1) = 2 := by decide
  have d2 : toS16 (2 - 1) = 1 := by decide
  have d1 : toS16 (1 - 1) = 0 := by decide
  have g30 : GuardLeMinusOneU 0 3 = true := by decide
  have g31 : GuardLeMinusOneU 1 3 = true := by decide
  have g32 : GuardLeMinusOneU 2 3 = true := by decide
  have g33 : GuardLeMinusOneU 3 3 = false := by decide
  have g20 : GuardLeMinusOneU 0 2 = true := by decide
  have g21 : GuardLeMinusOneU 1 2 = true := by decide
  have g22 : GuardLeMinusOneU 2 2 = false := by decide
  have g10 : GuardLeMinusOneU 0 1 = true := by decide
  have g11 : GuardLeMinusOneU 1 1 = false := by decide
  -- the entries of the columns 3, 2 and 1 of the row 0
  have e3 : ∀ G : Vector ℚ 16, ∃ G', EstimateCovarianceEntry (fuel + 9) inputF outputQu 0 3 G =
      Outcome.returned G' := by
    intro G
    unfold EstimateCovarianceEntry
    obtain ⟨s0, h0⟩ := readAt_in inputF (4 * 0 + 3) (by decide)
    obtain ⟨s1, h1⟩ := EstimateCovarianceSweep_returns inputF outputQu 3 0 s0
      (Or.inl ⟨rfl, Or.inl rfl⟩)
    obtain ⟨s2, h2⟩ := EstimateCovarianceSweep_returns inputF outputQu 3 1 s1
      (Or.inl ⟨rfl, Or.inr (Or.inl rfl)⟩)
    obtain ⟨s3, h3⟩ := EstimateCovarianceSweep_returns inputF outputQu 3 2 s2
      (Or.inl ⟨rfl, Or.inr (Or.inr rfl)⟩)
    rw [h0, returned_bind]
    rw [forLoop_step (fun k => GuardLeMinusOneU k 3) _ _ (fuel + 8) 0 1 s0 s1 g30 h1 n0,
      forLoop_step (fun k => GuardLeMinusOneU k 3) _ _ (fuel + 7) 1 2 s1 s2 g31 h2 n1,
      forLoop_step (fun k => GuardLeMinusOneU k 3) _ _ (fuel + 6) 2 3 s2 s3 g32 h3 n2,
      forLoop_exit (fun k => GuardLeMinusOneU k 3) _ _ (fuel + 5) 3 s3 g33, returned_bind]
    exact writeAt_in G (4 * 0 + 3) s3 (by decide)
  have e2 : ∀ G : Vector ℚ 16, ∃ G', EstimateCovarianceEntry (fuel + 9) inputF outputQu 0 2 G =
      Outcome.returned G' := by
    intro G
    unfold EstimateCovarianceEntry
    obtain ⟨s0, h0⟩ := readAt_in inputF (4 * 0 + 2) (by decide)
    obtain ⟨s1, h1⟩ := EstimateCovarianceSweep_returns inputF outputQu 2 0 s0
      (Or.inr (Or.inl ⟨rfl, Or.inl rfl⟩))
    obtain ⟨s2, h2⟩ := EstimateCovarianceSweep_returns inputF outputQu 2 1 s1
      (Or.inr (Or.inl ⟨rfl, Or.inr rfl⟩))
    rw [h0, returned_bind]
    rw [forLoop_step (fun k => GuardLeMinusOneU k 2) _ _ (fuel + 8) 0 1 s0 s1 g20 h1 n0,
      forLoop_step (fun k => GuardLeMinusOneU k 2) _ _ (fuel + 7) 1 2 s1 s2 g21 h2 n1,
      forLoop_exit (fun k => GuardLeMinusOneU k 2) _ _ (fuel + 6) 2 s2 g22, returned_bind]
    exact writeAt_in G (4 * 0 + 2) s2 (by decide)
  have e1 : ∀ G : Vector ℚ 16, ∃ G', EstimateCovarianceEntry (fuel + 9) inputF outputQu 0 1 G =
      Outcome.returned G' := by
    intro G
    unfold EstimateCovarianceEntry
    obtain ⟨s0, h0⟩ := readAt_in inputF (4 * 0 + 1) (by decide)
    obtain ⟨s1, h1⟩ := EstimateCovarianceSweep_returns inputF outputQu 1 0 s0
      (Or.inr (Or.inr (Or.inl ⟨rfl, rfl⟩)))
    rw [h0, returned_bind]
    rw [forLoop_step (fun k => GuardLeMinusOneU k 1) _ _ (fuel + 8) 0 1 s0 s1 g10 h1 n0,
      forLoop_exit (fun k => GuardLeMinusOneU k 1) _ _ (fuel + 7) 1 s1 g11, returned_bind]
    exact writeAt_in G (4 * 0 + 1) s1 (by decide)
  -- the entry of the column 0 of the row 0
  have e0 : ∀ G : Vector ℚ 16, EstimateCovarianceEntry (fuel + 9) inputF outputQu 0 0 G =
      Outcome.outOfBounds := by
    intro G
    unfold EstimateCovarianceEntry
    obtain ⟨s0, h0⟩ := readAt_in inputF (4 * 0 + 0) (by decide)
    have hr : ∀ k, (k = 0 ∨ k = 1 ∨ k = 2 ∨ k = 3 ∨ k = 4 ∨ k = 5 ∨ k = 6 ∨ k = 7) →
        ∀ s, ∃ s', EstimateCovarianceSweep inputF outputQu 0 0 k s = Outcome.returned s' :=
      fun k hk s => EstimateCovarianceSweep_returns inputF outputQu 0 k s
        (Or.inr (Or.inr (Or.inr ⟨rfl, hk⟩)))
    obtain ⟨s1, h1⟩ := hr 0 (by omega) s0
    obtain ⟨s2, h2⟩ := hr 1 (by omega) s1
    obtain ⟨s3, h3⟩ := hr 2 (by omega) s2
    obtain ⟨s4, h4⟩ := hr 3 (by omega) s3
    obtain ⟨s5, h5⟩ := hr 4 (by omega) s4
    obtain ⟨s6, h6⟩ := hr 5 (by omega) s5
    obtain ⟨s7, h7⟩ := hr 6 (by omega) s6
    obtain ⟨s8, h8⟩ := hr 7 (by omega) s7
    rw [h0, returned_bind]
    rw [forLoop_step (fun k => GuardLeMinusOneU k 0) _ _ (fuel + 8) 0 1 s0 s1 (g0 0) h1 n0,
      forLoop_step (fun k => GuardLeMinusOneU k 0) _ _ (fuel + 7) 1 2 s1 s2 (g0 1) h2 n1,
      forLoop_step (fun k => GuardLeMinusOneU k 0) _ _ (fuel + 6) 2 3 s2 s3 (g0 2) h3 n2,
      forLoop_step (fun k => GuardLeMinusOneU k 0) _ _ (fuel + 5) 3 4 s3 s4 (g0 3) h4 n3,
      forLoop_step (fun k => GuardLeMinusOneU k 0) _ _ (fuel + 4) 4 5 s4 s5 (g0 4) h5 n4,
      forLoop_step (fun k => GuardLeMinusOneU k 0) _ _ (fuel + 3) 5 6 s5 s6 (g0 5) h6 n5,
      forLoop_step (fun k => GuardLeMinusOneU k 0) _ _ (fuel + 2) 6 7 s6 s7 (g0 6) h7 n6,
      forLoop_step (fun k => GuardLeMinusOneU k 0) _ _ (fuel + 1) 7 8 s7 s8 (g0 7) h8 n7,
      forLoop_leaves (fun k => GuardLeMinusOneU k 0) _ _ fuel 8 s8 (g0 8) (EstimateCovarianceSweep_leaves inputF outputQu s8), outOfBounds_bind]
  have hrow : ∀ G : Vector ℚ 16,
      EstimateCovarianceRowF (fuel + 9) inputF outputQu 0 G = Outcome.outOfBounds := by
    intro G
    unfold EstimateCovarianceRowF
    obtain ⟨G3, h3⟩ := e3 G
    obtain ⟨G2, h2⟩ := e2 G3
    obtain ⟨G1, h1⟩ := e1 G2
    rw [forLoop_step GuardGeZeroU _ _ (fuel + 8) 3 2 G G3 (gg 3) h3 d3,
      forLoop_step GuardGeZeroU _ _ (fuel + 7) 2 1 G3 G2 (gg 2) h2 d2,
      forLoop_step GuardGeZeroU _ _ (fuel + 6) 1 0 G2 G1 (gg 1) h1 d1,
      forLoop_leaves GuardGeZeroU _ _ (fuel + 5) 0 G1 (gg 0) (e0 G1)]
  unfold EstimateCovariance
  rw [forLoop_leaves (fun i => decide (i < 4)) _ _ (fuel + 8) 0 F (by decide) (hrow F),
    outOfBounds_bind]

/-! ## The track operations and the cycle on the kernel at machine level -/

theorem InitializeTracking_none (c : Config) (dt : ℚ) : InitializeTracking c dt = none := by
  unfold InitializeTracking
  simp only [DecomposeUD_none, Option.map_none']

theorem InitializeTrack_none (track : Track_t) (plot : Plot_t) :
    InitializeTrack track plot = none := by
  unfold InitializeTrack
  simp only [DecomposeUD_none, Option.map_none']

theorem PredictTrack_none (t : Tracking) (track : Track_t) : PredictTrack t track = none := by
  unfold PredictTrack
  simp only [EstimateCovariance_none, Option.map_none']

theorem FuseTrackStep_none (plot : Plot_t) (track : Track_t) (i : Fin 4) :
    FuseTrackStep plot track i = none := by
  unfold FuseTrackStep
  simp only [FuseState_none, Option.map_none']

theorem FuseTrack_none (track : Track_t) (plot : Plot_t) : FuseTrack track plot = none := by
  have h : states = (0 : Fin 4) :: [1, 2, 3] := rfl
  unfold FuseTrack
  rw [h, List.foldlM_cons, FuseTrackStep_none]
  rfl

theorem PredictStep_free (t : Tracking) (m : Libm) (l : FusedObjectList) (i : Fin 16)
    (h : (l.get i).id = INVALID_ID) : PredictStep t m l i = some l := by
  unfold PredictStep
  simp [h]

theorem PredictStep_live (t : Tracking) (m : Libm) (l : FusedObjectList) (i : Fin 16)
    (h : (l.get i).id ≠ INVALID_ID) : PredictStep t m l i = none := by
  unfold PredictStep
  simp [h, PredictTrack_none]

theorem PredictLoop_free (t : Tracking) (m : Libm) (l : FusedObjectList) (is : List (Fin 16))
    (h : ∀ i ∈ is, (l.get i).id = INVALID_ID) : is.foldlM (PredictStep t m) l = some l := by
  induction is with
  | nil => rfl
  | cons i rest ih =>
    rw [List.foldlM_cons, PredictStep_free t m l i (h i (List.mem_cons_self _ _))]
    exact ih fun j hj => h j (List.mem_cons_of_mem _ hj)

theorem PredictLoop_live (t : Tracking) (m : Libm) (l : FusedObjectList) (is : List (Fin 16))
    (h : ∃ i ∈ is, (l.get i).id ≠ INVALID_ID) : is.foldlM (PredictStep t m) l = none := by
  induction is with
  | nil => obtain ⟨i, hi, _⟩ := h; cases hi
  | cons i rest ih =>
    rw [List.foldlM_cons]
    by_cases hi : (l.get i).id = INVALID_ID
    · rw [PredictStep_free t m l i hi]
      obtain ⟨j, hj, hl⟩ := h
      rcases List.mem_cons.1 hj with rfl | hj
      · exact absurd hi hl
      · exact ih ⟨j, hj, hl⟩
    · rw [PredictStep_live t m l i hi]
      rfl

theorem Predict_free (t : Tracking) (m : Libm) (l : FusedObjectList)
    (h : ∀ i, (l.get i).id = INVALID_ID) : Predict t m l = some l :=
  PredictLoop_free t m l slots fun i _ => h i

theorem Predict_live (t : Tracking) (m : Libm) (l : FusedObjectList) (i : Fin 16)
    (h : (l.get i).id ≠ INVALID_ID) : Predict t m l = none :=
  PredictLoop_live t m l slots ⟨i, mem_slots i, h⟩

theorem CreateFusedObject_creating (l : FusedObjectList) (p : PrefusedObject_t)
    (h : p.priority > (GetWorstPriority l).1) : CreateFusedObject l p = none := by
  unfold CreateFusedObject
  simp only [h, if_true]
  cases (GetWorstPriority l).2 with
  | none => rfl
  | some index => simp only [InitializeTrack_none]

theorem CreateFusedObject_skipping (l : FusedObjectList) (p : PrefusedObject_t)
    (h : ¬ p.priority > (GetWorstPriority l).1) : CreateFusedObject l p = some l := by
  unfold CreateFusedObject
  simp only [h, if_false]

theorem CreateFusedObject_some (l l' : FusedObjectList) (p : PrefusedObject_t)
    (h : CreateFusedObject l p = some l') : l' = l ∧ ¬ p.priority > (GetWorstPriority l).1 := by
  by_cases hp : p.priority > (GetWorstPriority l).1
  · rw [CreateFusedObject_creating l p hp] at h
    cases h
  · rw [CreateFusedObject_skipping l p hp] at h
    exact ⟨(Option.some.inj h).symm, hp⟩

theorem AssociatePrefusedObject_inside (g : Gating) (p : PrefusedObject_t)
    (l : FusedObjectList) (h : (IsInsideAcceptanceGate g p l).1 = true) :
    AssociatePrefusedObject g p l = none := by
  unfold AssociatePrefusedObject
  simp only [h, if_true]
  cases (IsInsideAcceptanceGate g p l).2 with
  | none => rfl
  | some pairIndex => simp only [FuseTrack_none]

theorem AssociatePrefusedObject_some (g : Gating) (p : PrefusedObject_t)
    (l l' : FusedObjectList) (h : AssociatePrefusedObject g p l = some l') :
    l' = l ∧ (IsInsideAcceptanceGate g p l).1 = false ∧
      ¬ p.priority > (GetWorstPriority l).1 := by
  cases hg : (IsInsideAcceptanceGate g p l).1 with
  | true =>
    rw [AssociatePrefusedObject_inside g p l hg] at h
    cases h
  | false =>
    rw [AssociatePrefusedObject_outside g p l hg] at h
    exact ⟨(CreateFusedObject_some l l' p h).1, rfl, (CreateFusedObject_some l l' p h).2⟩

theorem Update_some (g : Gating) (ps : List PrefusedObject_t) (l l' : FusedObjectList)
    (h : Update g ps l = some l') : l' = l := by
  induction ps with
  | nil => exact (Option.some.inj h).symm
  | cons p rest ih =>
    unfold Update at h
    by_cases hv : p.valid ≠ 0
    · rw [if_pos hv] at h
      cases ha : AssociatePrefusedObject g p l with
      | none => simp only [ha] at h; cases h
      | some l1 =>
        simp only [ha] at h
        rw [(AssociatePrefusedObject_some g p l l1 ha).1] at h
        exact ih h
    · rw [if_neg hv] at h
      exact ih h

theorem Update_creating (g : Gating) (pre post : List PrefusedObject_t) (p : PrefusedObject_t)
    (l : FusedObjectList) (hpre : ∀ q ∈ pre, q.valid = 0) (hv : p.valid ≠ 0)
    (hp : p.priority > (GetWorstPriority l).1) : Update g (pre ++ p :: post) l = none := by
  induction pre with
  | nil =>
    have ha : AssociatePrefusedObject g p l = none := by
      cases h : AssociatePrefusedObject g p l with
      | none => rfl
      | some l1 => exact absurd hp (AssociatePrefusedObject_some g p l l1 h).2.2
    show Update g (p :: post) l = none
    unfold Update
    rw [if_pos hv, ha]
  | cons q rest ih =>
    show Update g (q :: (rest ++ p :: post)) l = none
    unfold Update
    have hq : q.valid = 0 := hpre q (List.mem_cons_self _ _)
    rw [if_neg (not_not.2 hq)]
    exact ih fun r hr => hpre r (List.mem_cons_of_mem _ hr)

theorem Manage_free (c : Config) (l : FusedObjectList) (h : ∀ i, (l.get i).id = INVALID_ID) :
    Manage c l = l := by
  have h1 : slots.foldl (PruneRow c) l = l :=
    foldl_fixed _ _ _ fun i _ => by unfold PruneRow; simp [h i]
  rw [Manage_eq, h1]
  exact foldl_fixed _ _ _ fun i _ => by unfold MaintainStep; simp [h i]

theorem RunFusion_live (c : Config) (m : Libm) (t : Tracking) (g : Gating)
    (ps : List PrefusedObject_t) (l : FusedObjectList) (i : Fin 16)
    (h : (l.get i).id ≠ INVALID_ID) : RunFusion c m t g ps l = none := by
  unfold RunFusion
  simp only [Predict_live t m l i h]

theorem RunFusion_free (c : Config) (m : Libm) (t : Tracking) (g : Gating)
    (ps : List PrefusedObject_t) (l : FusedObjectList) (h : ∀ i, (l.get i).id = INVALID_ID) :
    RunFusion c m t g ps l = (Update g ps l).map (Manage c) := by
  unfold RunFusion
  simp only [Predict_free t m l h]
  cases Update g ps l <;> rfl

theorem RunFusion_some (c : Config) (m : Libm) (t : Tracking) (g : Gating)
    (ps : List PrefusedObject_t) (l l' : FusedObjectList)
    (h : RunFusion c m t g ps l = some l') :
    (∀ i, (l.get i).id = INVALID_ID) ∧ Update g ps l = some l ∧ l' = l := by
  have hf : ∀ i, (l.get i).id = INVALID_ID := by
    intro i
    by_contra hi
    rw [RunFusion_live c m t g ps l i hi] at h
    cases h
  rw [RunFusion_free c m t g ps l hf] at h
  cases hu : Update g ps l with
  | none => rw [hu] at h; cases h
  | some l1 =>
    rw [hu] at h
    have h1 : l1 = l := Update_some g ps l l1 hu
    subst h1
    refine ⟨hf, rfl, ?_⟩
    rw [← Option.some.inj h]
    exact Manage_free c l1 hf

theorem RunFusion_creating (c : Config) (m : Libm) (t : Tracking) (g : Gating)
    (pre post : List PrefusedObject_t) (p : PrefusedObject_t) (l : FusedObjectList)
    (hpre : ∀ q ∈ pre, q.valid = 0) (hv : p.valid ≠ 0)
    (hp : p.priority > (GetWorstPriority l).1) :
    RunFusion c m t g (pre ++ p :: post) l = none := by
  by_cases hf : ∀ i, (l.get i).id = INVALID_ID
  · rw [RunFusion_free c m t g _ l hf, Update_creating g pre post p l hpre hv hp]
    rfl
  · push_neg at hf
    obtain ⟨i, hi⟩ := hf
    exact RunFusion_live c m t g _ l i hi

theorem zeroFusedObjectList_free (i : Fin 16) : (zeroFusedObjectList.get i).id = INVALID_ID := by
  unfold zeroFusedObjectList
  rw [Vector.get_replicate]
  rfl

/-! ## The numeric kernel as the code runs it -/

/-- C3: for every `F`, every factors `(U, D)` and every noise factors `(Qu, Qd)`,
`EstimateCovariance` does not return.  At `i = 0`, `j = 0` the guard `k <= j - 1u` of the
sweep compares with `4294967295` and holds for every `k`; the passes `k = 0, ..., 7` return
and the pass `k = 8` indexes `outputQu` out of its bounds, so with nine passes or more
allowed to each loop the run ends out of bounds, and with fewer it uses up its passes.  No
factors `(U', D')` are produced, whatever the entries of the input. -/
theorem c3_estimate_covariance_never_returns (fuel : Nat) (F inputF : Vector ℚ 16)
    (inputQu : Vector ℚ 10) (inputQd : Vector ℚ 4) (outputQu : Vector ℚ 10)
    (outputQd : Vector ℚ 4) :
    (EstimateCovariance fuel F inputF inputQu inputQd outputQu outputQd).toOption = none ∧
    EstimateCovariance (fuel + 9) F inputF inputQu inputQd outputQu outputQd =
      Outcome.outOfBounds ∧
    (∀ k : Int, GuardLeMinusOneU k 0 = true) ∧
    (∀ sigma : ℚ,
      EstimateCovarianceSweep inputF outputQu 0 0 8 sigma = Outcome.outOfBounds) :=
  ⟨EstimateCovariance_none fuel F inputF inputQu inputQd outputQu outputQd,
    EstimateCovariance_leaves fuel F inputF inputQu inputQd outputQu outputQd,
    GuardLeMinusOneU_zero, EstimateCovarianceSweep_leaves inputF outputQu⟩

/-- C4: for every state `X`, factors `(U, D)`, row vector `h`, noise `alpha` and innovation,
`FuseState` does not return.  In the first loop, at `j = 0`, the guard `i <= j - 1u` of the
sweep compares with `4294967295` and holds for every `i`; the passes `i = 0, ..., 3` return
and the pass `i = 4` reads `transformation[4]`, so with five passes or more allowed to each
loop the run ends out of bounds, and with fewer it uses up its passes.  No state `X'` and no
factors `(U', D')` are produced, whatever the entries of the input. -/
theorem c4_fuse_state_never_returns (fuel : Nat) (innovation alpha : ℚ)
    (transformation state : Vector ℚ 4) (outputQu : Vector ℚ 10) (outputQd : Vector ℚ 4) :
    (FuseState fuel innovation alpha transformation state outputQu outputQd).toOption =
      none ∧
    FuseState (fuel + 5) innovation alpha transformation state outputQu outputQd =
      Outcome.outOfBounds ∧
    (∀ i : Int, GuardLeMinusOneU i 0 = true) ∧
    (∀ tempVector1 : Vector ℚ 4,
      FuseStateVector1Sweep transformation outputQu 0 4 tempVector1 = Outcome.outOfBounds) :=
  ⟨FuseState_none fuel innovation alpha transformation state outputQu outputQd,
    FuseState_leaves fuel innovation alpha transformation state outputQu outputQd,
    GuardLeMinusOneU_zero, FuseStateVector1Sweep_leaves transformation outputQu⟩

/-- C5: for every 4x4 matrix `M`, symmetric positive definite or not, `DecomposeUD` does not
return.  The guard `i >= 0u` holds for every `i`; started with `j = 3`, the inner loop makes
the passes `i = 3, 2, 1, 0`, which return, and the pass `i = -1` reads `UDU[4 * (-1) + 3]`,
so with five passes or more allowed to each loop the run ends out of bounds, and with fewer
it uses up its passes.  No factors `(U, D)` are produced. -/
theorem c5_decompose_never_returns (fuel : Nat) (UDU : Vector ℚ 16) :
    (DecomposeUD fuel UDU).toOption = none ∧
    DecomposeUD (fuel + 5) UDU = Outcome.outOfBounds ∧
    (∀ i : Int, GuardGeZeroU i = true) ∧
    (∀ UD : Vector ℚ 10 × Vector ℚ 4,
      DecomposeUDStep fuel UDU 3 (-1) UD = Outcome.outOfBounds) :=
  ⟨DecomposeUD_none fuel UDU, DecomposeUD_leaves fuel UDU, GuardGeZeroU_true,
    DecomposeUDStep_leaves fuel UDU⟩

/-- C7: no Track operation reaches its end: for every track, plot and file-scope matrices,
`InitializeTrack` (which calls `DecomposeUD`), `PredictTrack` (which calls
`EstimateCovariance`) and `FuseTrack` (which calls `FuseState`) do not return, and
`InitializeTracking` (which calls `DecomposeUD`) returns no file-scope matrices. -/
theorem c7_track_operations_never_return (c : Config) (dt : ℚ) (t : Tracking)
    (track : Track_t) (plot : Plot_t) :
    InitializeTrack track plot = none ∧ PredictTrack t track = none ∧
    FuseTrack track plot = none ∧ InitializeTracking c dt = none :=
  ⟨InitializeTrack_none track plot, PredictTrack_none t track, FuseTrack_none track plot,
    InitializeTracking_none c dt⟩

/-- C26: `PredictState` with the matrix `F` of `InitF` maps `X = (x, y, vx, vy)` to
`(x + dt * vx, y + dt * vy, vx, vy)`, and `(4, 3, 10, 0)` to `(4.4, 3, 10, 0)` for
`dt = CYCLE_TIME`; but `PredictTrack` calls `EstimateCovariance` before `PredictState`, and
does not return, for every track and whatever the file-scope matrices: the track is not
given the state predicted. -/
theorem c26_predict_track_never_returns (t : Tracking) (track : Track_t) (dt : ℚ) :
    PredictTrack t track = none ∧
    (PredictState (InitF dt) track.X).get STATE_X =
      track.X.get STATE_X + dt * track.X.get STATE_VX ∧
    (PredictState (InitF dt) track.X).get STATE_Y =
      track.X.get STATE_Y + dt * track.X.get STATE_VY ∧
    (PredictState (InitF dt) track.X).get STATE_VX = track.X.get STATE_VX ∧
    (PredictState (InitF dt) track.X).get STATE_VY = track.X.get STATE_VY ∧
    PredictState (InitF CYCLE_TIME) exampleX = ⟨[22 / 5, 3, 10, 0], rfl⟩ := by
  obtain ⟨h1, h2, h3, h4⟩ := PredictState_InitF dt track.X
  refine ⟨PredictTrack_none t track, h1, h2, h3, h4, ?_⟩
  obtain ⟨e1, e2, e3, e4⟩ := PredictState_InitF CYCLE_TIME exampleX
  apply Vector.ext
  intro i
  fin_cases i
  · rw [show ((⟨0, by decide⟩ : Fin 4)) = STATE_X from rfl, e1]
    norm_num [exampleX, CYCLE_TIME, STATE_X, STATE_VX, Vector.get]
  · rw [show ((⟨1, by decide⟩ : Fin 4)) = STATE_Y from rfl, e2]
    norm_num [exampleX, CYCLE_TIME, STATE_Y, STATE_VY, Vector.get]
  · rw [show ((⟨2, by decide⟩ : Fin 4)) = STATE_VX from rfl, e3]
    norm_num [exampleX, STATE_VX, Vector.get]
  · rw [show ((⟨3, by decide⟩ : Fin 4)) = STATE_VY from rfl, e4]
    norm_num [exampleX, STATE_VY, Vector.get]

/-- C27: for every track and every plot, with a diagonal covariance or not, `FuseTrack`
does not return: its first pass, at the state `x`, calls `FuseState`, which does not
return.  No covariance is decreased and `X` is not moved towards `Z`; a fusion cannot be
repeated. -/
theorem c27_fuse_track_never_returns (track : Track_t) (plot : Plot_t) :
    FuseTrack track plot = none ∧ FuseTrackStep plot track STATE_X = none ∧
    ∀ fuel : Nat,
      (FuseState fuel ((plot.Z.get STATE_X - track.X.get STATE_X) * plot.weight)
        (plot.R.get (sq STATE_X STATE_X)) ((Vector.replicate 4 0).set STATE_X 1) track.X
        track.P_U track.P_D).toOption = none :=
  ⟨FuseTrack_none track plot, FuseTrackStep_none plot track STATE_X,
    fun fuel => FuseState_none fuel _ _ _ _ _ _⟩

/-! ## The cycle as the code runs it -/

theorem IsInsideAcceptanceGate_free (g : Gating) (p : PrefusedObject_t) (l : FusedObjectList)
    (h : ∀ i, (l.get i).id = INVALID_ID) :
    IsInsideAcceptanceGate g p l =
      (decide (INVALID_GATING_VALUE > g.totalGatingValueMinLimit), none) := by
  unfold IsInsideAcceptanceGate
  rw [foldl_fixed (IsInsideAcceptanceGateStep g p l) (INVALID_GATING_VALUE, none) slots
    fun i _ => by unfold IsInsideAcceptanceGateStep; simp [h i]]

theorem defaultGating_zeroTable (p : PrefusedObject_t) :
    (IsInsideAcceptanceGate (InitializeFusionUtils defaultConfig) p zeroFusedObjectList).1 =
      false := by
  rw [IsInsideAcceptanceGate_free _ p _ zeroFusedObjectList_free]
  have h := examplePrefused_gate defaultConfig (by norm_num [defaultConfig])
  simpa using h

/-- C10: the choice of the slot is made by `GetWorstPriority`: if the table has a free slot,
the slot chosen is the free slot of lowest index, with the worst priority `-MAX_PRIORITY`;
if the table is full, it is the live slot of minimum priority, the lowest index winning on
equal priorities; and a measurement whose priority is not strictly greater than the worst
priority leaves the table as it is.  But when the priority is strictly greater, so that a
track is to be created, `CreateFusedObject` does not return: it calls `InitializeTrack`,
which does not return.  No track is placed in the slot chosen. -/
theorem c10_creation_never_returns (l : FusedObjectList) (p : PrefusedObject_t) :
    ((∃ j, (l.get j).id = INVALID_ID) →
      ∃ k, (l.get k).id = INVALID_ID ∧ (∀ i, i < k → (l.get i).id ≠ INVALID_ID) ∧
        GetWorstPriority l = ((-1) * MAX_PRIORITY, some k)) ∧
    ((∀ j, (l.get j).id ≠ INVALID_ID) → ∀ k, (GetWorstPriority l).2 = some k →
      (GetWorstPriority l).1 = (l.get k).priority ∧
      (∀ i, (l.get k).priority ≤ (l.get i).priority) ∧
      ∀ i, i < k → (l.get k).priority < (l.get i).priority) ∧
    (¬ p.priority > (GetWorstPriority l).1 → CreateFusedObject l p = some l) ∧
    (p.priority > (GetWorstPriority l).1 → CreateFusedObject l p = none) := by
  refine ⟨(GetWorstPriority_spec l).1, fun hl k hk => ?_, CreateFusedObject_skipping l p,
    CreateFusedObject_creating l p⟩
  obtain ⟨_, h2, _, h4, h5⟩ := ((GetWorstPriority_spec l).2 hl).2 k hk
  exact ⟨h2, fun i => h2 ▸ h4 i trivial, fun i hi => h2 ▸ h5 i trivial hi⟩

theorem c10_creation_never_returns_witness :
    (∃ k, (exampleTable.get k).id = INVALID_ID ∧
      (∀ i, i < k → (exampleTable.get i).id ≠ INVALID_ID) ∧
      GetWorstPriority exampleTable = ((-1) * MAX_PRIORITY, some k)) ∧
    CreateFusedObject exampleTable examplePrefused = none :=
  ⟨(c10_creation_never_returns exampleTable examplePrefused).1
      ⟨1, by rw [exampleTable, get_set]; rfl⟩,
    (c10_creation_never_returns exampleTable examplePrefused).2.2.2 (by
      rw [exampleTable_worst]
      norm_num [examplePrefused, MAX_PRIORITY])⟩

/-- C29: from the all-free table, a `RunFusion` cycle whose first valid measurement has a
priority above `-MAX_PRIORITY` does not return.  The measurement is outside the gate (with
a gate limit that is not below the invalid gating value), `CreateFusedObject` chooses the
slot `0` and the id `1`, and calls `InitializeTrack` on the plot, which does not return: the
slot `0` is never left live with `X = Z` and `P = diag(R)`. -/
theorem c29_create_cycle_never_returns (c : Config) (m : Libm) (t : Tracking) (g : Gating)
    (pre post : List PrefusedObject_t) (p : PrefusedObject_t)
    (hpre : ∀ q ∈ pre, q.valid = 0) (hv : p.valid ≠ 0) (hp : p.priority > -MAX_PRIORITY) :
    RunFusion c m t g (pre ++ p :: post) zeroFusedObjectList = none ∧
    (INVALID_GATING_VALUE ≤ g.totalGatingValueMinLimit →
      AssociatePrefusedObject g p zeroFusedObjectList =
        CreateFusedObject zeroFusedObjectList p) ∧
    GetWorstPriority zeroFusedObjectList = ((-1) * MAX_PRIORITY, some 0) ∧
    GetAvailableId zeroFusedObjectList = 1 ∧
    InitializeTrack (zeroFusedObjectList.get 0).track p.plot = none ∧
    CreateFusedObject zeroFusedObjectList p = none := by
  have hw : p.priority > (GetWorstPriority zeroFusedObjectList).1 := by
    rw [GetWorstPriority_zero]
    simpa using hp
  refine ⟨RunFusion_creating c m t g pre post p _ hpre hv hw, fun hg => ?_,
    GetWorstPriority_zero, GetAvailableId_zero, InitializeTrack_none _ _,
    CreateFusedObject_creating _ p hw⟩
  apply AssociatePrefusedObject_outside
  rw [IsInsideAcceptanceGate_free g p _ zeroFusedObjectList_free]
  simpa using hg

theorem c29_create_cycle_never_returns_witness :
    RunFusion defaultConfig exampleLibm
      exampleTracking
      (InitializeFusionUtils defaultConfig) ([] ++ examplePrefused :: [])
      zeroFusedObjectList = none :=
  (c29_create_cycle_never_returns defaultConfig exampleLibm _ _ [] [] examplePrefused
    (fun _ h => absurd h (List.not_mem_nil _)) (by decide) examplePrefused_priority).1

/-- C30: a `RunFusion` cycle on a table that holds a live track does not return, whatever
the measurements: `Predict` calls `PredictTrack` on the first live slot, which does not
return.  A measurement inside the acceptance gate is not fused either:
`AssociatePrefusedObject` calls `FuseTrack`, which does not return. -/
theorem c30_fuse_cycle_never_returns (c : Config) (m : Libm) (t : Tracking) (g : Gating)
    (ps : List PrefusedObject_t) (l : FusedObjectList) (k : Fin 16)
    (hk : (l.get k).id ≠ INVALID_ID) :
    RunFusion c m t g ps l = none ∧ Predict t m l = none ∧
    PredictTrack t (l.get k).track = none ∧
    ∀ p, (IsInsideAcceptanceGate g p l).1 = true → AssociatePrefusedObject g p l = none :=
  ⟨RunFusion_live c m t g ps l k hk, Predict_live t m l k hk, PredictTrack_none t _,
    fun p hp => AssociatePrefusedObject_inside g p l hp⟩

theorem c30_fuse_cycle_never_returns_witness :
    (exampleTable.get 0).id ≠ INVALID_ID ∧
    RunFusion defaultConfig exampleLibm
      exampleTracking
      (InitializeFusionUtils defaultConfig) [examplePrefused] exampleTable = none ∧
    AssociatePrefusedObject (InitializeFusionUtils defaultConfig) examplePrefused
      exampleTable = none :=
  ⟨exampleTable_live,
    (c30_fuse_cycle_never_returns defaultConfig exampleLibm _ _ _ exampleTable 0
      exampleTable_live).1,
    (c30_fuse_cycle_never_returns defaultConfig exampleLibm
      exampleTracking
      (InitializeFusionUtils defaultConfig) [] exampleTable 0
      exampleTable_live).2.2.2 examplePrefused (by rw [exampleTable_gate])⟩

/-- C31: with the default tunables and a C library whose `sqrt` gives `sqrt(25) = 5`, the
cycle A of the scenario, on the measurement `(FRONT_LEFT, 4, 3, 10, 0)` from the all-free
table, does not return: the measurement is valid with the priority `145`, above
`-MAX_PRIORITY`, and the creation of its track calls `InitializeTrack`, which does not
return.  There is no table after cycle A on which the cycle B could run; and on a table
with a live track, as the claim has it after cycle A, the cycle B does not return either. -/
theorem c31_reject_scenario_never_runs (m : Libm) (t : Tracking) (g : Gating)
    (post : List PrefusedObject_t) (hs : m.sqrt (4 * 4 + 3 * 3) = 5) :
    (testMeasurement m (sensorList.get 0).1 4 3 10 0).valid ≠ 0 ∧
    (testMeasurement m (sensorList.get 0).1 4 3 10 0).priority = 145 ∧
    RunFusion defaultConfig m t g (testMeasurement m (sensorList.get 0).1 4 3 10 0 :: post)
      zeroFusedObjectList = none ∧
    ∀ l : FusedObjectList, (l.get 0).id ≠ INVALID_ID →
      RunFusion defaultConfig m t g
        (testMeasurement m (sensorList.get 3).1 (-4) 3 10 0 :: post) l = none := by
  obtain ⟨f1, f2, f3, _, _, _, _, f8⟩ := CreatePrefusedObject_fields defaultConfig m
    (zeroPrefusedObject nullSensor) (sensorList.get 0).1 4 3 10 0
  have h0 : (sensorList.get 0).1.tf.canX = 0 ∧ (sensorList.get 0).1.tf.canY = 0 :=
    ⟨rfl, rfl⟩
  rw [h0.1, h0.2, add_zero, add_zero, hs] at f8
  have hv : (testMeasurement m (sensorList.get 0).1 4 3 10 0).valid ≠ 0 := by
    unfold testMeasurement
    rw [f1]
    decide
  have hp : (testMeasurement m (sensorList.get 0).1 4 3 10 0).priority = 145 := by
    unfold testMeasurement
    rw [f8]
    norm_num [MAX_PRIORITY]
  refine ⟨hv, hp, ?_, fun l hl => RunFusion_live _ m t g _ l 0 hl⟩
  exact (RunFusion_creating defaultConfig m t g [] post _ zeroFusedObjectList
    (fun _ h => absurd h (List.not_mem_nil _)) hv (by
      rw [GetWorstPriority_zero, hp]
      norm_num [MAX_PRIORITY]))

theorem c31_reject_scenario_never_runs_witness :
    RunFusion defaultConfig exampleLibm
      exampleTracking
      (InitializeFusionUtils defaultConfig)
      (testMeasurement exampleLibm (sensorList.get 0).1 4 3 10 0 :: [])
      zeroFusedObjectList = none :=
  (c31_reject_scenario_never_runs exampleLibm _ _ [] rfl).2.2.1

/-- C34: if `IsInsideAcceptanceGate` holds, `AssociatePrefusedObject` does not return: it
calls `FuseTrack` on the track of the pair index (or reads the pair index unwritten), and
`FuseTrack` does not return, so the slot is not given the result of a fusion.  If the gate
does not hold, the result is that of `CreateFusedObject`. -/
theorem c34_association_never_fuses (g : Gating) (p : PrefusedObject_t)
    (l : FusedObjectList) :
    ((IsInsideAcceptanceGate g p l).1 = true → AssociatePrefusedObject g p l = none) ∧
    (∀ k, (IsInsideAcceptanceGate g p l).2 = some k →
      FuseTrack (l.get k).track p.plot = none) ∧
    ((IsInsideAcceptanceGate g p l).1 = false →
      AssociatePrefusedObject g p l = CreateFusedObject l p) :=
  ⟨AssociatePrefusedObject_inside g p l, fun _ _ => FuseTrack_none _ _,
    AssociatePrefusedObject_outside g p l⟩

theorem c34_association_never_fuses_witness :
    AssociatePrefusedObject (InitializeFusionUtils defaultConfig) examplePrefused
      exampleTable = none ∧
    AssociatePrefusedObject (InitializeFusionUtils defaultConfig) examplePrefused
      zeroFusedObjectList = CreateFusedObject zeroFusedObjectList examplePrefused :=
  ⟨(c34_association_never_fuses (InitializeFusionUtils defaultConfig) examplePrefused
      exampleTable).1 (by rw [exampleTable_gate]),
    (c34_association_never_fuses (InitializeFusionUtils defaultConfig) examplePrefused
      zeroFusedObjectList).2.2 (defaultGating_zeroTable examplePrefused)⟩

/-- C35: for every table and every measurement whose priority is above the worst priority
of the table, `CreateFusedObject` does not return: the slot claimed is reset where it was
live and given its id, and then `InitializeTrack` is called, which does not return; no
cycle ends with a track created.  `ResetFusedObject` sets the priority to zero,
`CreateFusedObject` has no statement that writes the priority, and `Manage` leaves a
priority of zero as it is. -/
theorem c35_creation_never_returns (c : Config) (l : FusedObjectList)
    (p : PrefusedObject_t) :
    (p.priority > (GetWorstPriority l).1 → CreateFusedObject l p = none) ∧
    (∀ o, (ResetFusedObject o).priority = 0) ∧
    (∀ i, (l.get i).priority = 0 → ((Manage c l).get i).priority = 0) :=
  ⟨CreateFusedObject_creating l p, fun _ => rfl, Manage_priority_zero c l⟩

theorem c35_creation_never_returns_witness :
    CreateFusedObject zeroFusedObjectList examplePrefused = none ∧
    ((Manage defaultConfig zeroFusedObjectList).get 0).priority = 0 :=
  ⟨(c35_creation_never_returns defaultConfig zeroFusedObjectList examplePrefused).1 (by
      rw [GetWorstPriority_zero]
      norm_num [examplePrefused, MAX_PRIORITY]),
    (c35_creation_never_returns defaultConfig zeroFusedObjectList examplePrefused).2.2 0 (by
      rw [zeroFusedObjectList_get]; rfl)⟩

/-- C36: `Predict` leaves a table without a live track as it is, so every free slot is
left untouched; on a table with a live track it does not return: at the first live slot it
calls `PredictTrack`, which does not return, so no live track is given a predicted state or
a priority. -/
theorem c36_predict_never_returns_on_live (t : Tracking) (m : Libm) (l : FusedObjectList) :
    ((∀ i, (l.get i).id = INVALID_ID) → Predict t m l = some l) ∧
    ((∃ i, (l.get i).id ≠ INVALID_ID) → Predict t m l = none) ∧
    (∀ i, (l.get i).id = INVALID_ID → PredictStep t m l i = some l) ∧
    (∀ i, (l.get i).id ≠ INVALID_ID → PredictStep t m l i = none) :=
  ⟨Predict_free t m l, fun ⟨i, hi⟩ => Predict_live t m l i hi, PredictStep_free t m l,
    PredictStep_live t m l⟩

theorem c36_predict_never_returns_on_live_witness :
    Predict exampleTracking exampleLibm
      zeroFusedObjectList = some zeroFusedObjectList ∧
    Predict exampleTracking exampleLibm
      exampleTable = none :=
  ⟨(c36_predict_never_returns_on_live _ exampleLibm zeroFusedObjectList).1
      zeroFusedObjectList_free,
    (c36_predict_never_returns_on_live _ exampleLibm exampleTable).2.1
      ⟨0, exampleTable_live⟩⟩

/-! ## Confirmation and near duplicates -/

/-- C39: after `Manage`, and so after a `RunFusion` cycle, no two live tracks have all four
state differences within the prune limits; and a track that is live after `Manage` has the
`X` it had before `Manage`. -/
theorem c39_no_near_duplicates (c : Config) (l : FusedObjectList) :
    (∀ i j, i ≠ j → ((Manage c l).get i).id ≠ INVALID_ID →
      ((Manage c l).get j).id ≠ INVALID_ID →
      ¬ (|((Manage c l).get i).track.X.get STATE_X - ((Manage c l).get j).track.X.get STATE_X|
            ≤ c.PRUNE_LIMIT_X ∧
         |((Manage c l).get i).track.X.get STATE_Y - ((Manage c l).get j).track.X.get STATE_Y|
            ≤ c.PRUNE_LIMIT_Y ∧
         |((Manage c l).get i).track.X.get STATE_VX -
            ((Manage c l).get j).track.X.get STATE_VX| ≤ c.PRUNE_LIMIT_VX ∧
         |((Manage c l).get i).track.X.get STATE_VY -
            ((Manage c l).get j).track.X.get STATE_VY| ≤ c.PRUNE_LIMIT_VY)) ∧
    (∀ i, ((Manage c l).get i).id ≠ INVALID_ID →
      ((Manage c l).get i).track.X = (l.get i).track.X ∧ (l.get i).id ≠ INVALID_ID) ∧
    ∀ (m : Libm) (t : Tracking) (g : Gating) (ps : List PrefusedObject_t)
      (l0 l' : FusedObjectList), RunFusion c m t g ps l0 = some l' →
      ∀ i j, i ≠ j → (l'.get i).id ≠ INVALID_ID → (l'.get j).id ≠ INVALID_ID →
        ¬ WithinPruneLimits c (l'.get i) (l'.get j) := by
  have key : ∀ l : FusedObjectList, ∀ i j, i < j → ((Manage c l).get i).id ≠ INVALID_ID →
      ((Manage c l).get j).id ≠ INVALID_ID →
      ¬ WithinPruneLimits c ((Manage c l).get i) ((Manage c l).get j) := by
    intro l i j hij hi hj hw
    obtain ⟨ti, li, -⟩ := Manage_live c l i hi
    obtain ⟨tj, lj, -⟩ := Manage_live c l j hj
    have hp := (Prune_fold_pairs c slots l).2 i (mem_slots i) j hij li lj
    have ei := Kept_live (Prune_fold_pairs c slots l).1 i li
    have ej := Kept_live (Prune_fold_pairs c slots l).1 j lj
    apply hp
    unfold WithinPruneLimits at hw ⊢
    rw [ei, ej]
    rw [ti, tj] at hw
    exact hw
  have all : ∀ l : FusedObjectList, ∀ i j, i ≠ j → ((Manage c l).get i).id ≠ INVALID_ID →
      ((Manage c l).get j).id ≠ INVALID_ID →
      ¬ WithinPruneLimits c ((Manage c l).get i) ((Manage c l).get j) := by
    intro l i j hij hi hj hw
    rcases lt_or_gt_of_ne hij with h | h
    · exact key l i j h hi hj hw
    · exact key l j i h hj hi (WithinPruneLimits_symm c _ _ hw)
  refine ⟨fun i j hij hi hj => all l i j hij hi hj, fun i hi => ?_, ?_⟩
  · obtain ⟨ti, li, ei⟩ := Manage_live c l i hi
    refine ⟨by rw [ti], ?_⟩
    rw [← ei]; exact li
  · intro m t g ps l0 l' h i j hij hi hj
    obtain ⟨hf, -, e⟩ := RunFusion_some c m t g ps l0 l' h
    exact absurd (e ▸ hf i) hi

theorem c39_no_near_duplicates_witness :
    (exampleNearTable.get 0).id ≠ INVALID_ID ∧ (exampleNearTable.get 1).id ≠ INVALID_ID ∧
    WithinPruneLimits defaultConfig (exampleNearTable.get 0) (exampleNearTable.get 1) ∧
    ((Manage defaultConfig exampleNearTable).get 0).id ≠ INVALID_ID ∧
    ((Manage defaultConfig exampleNearTable).get 1).id = INVALID_ID ∧
    ((Manage defaultConfig exampleNearTable).get 0).track.X =
      (exampleNearTable.get 0).track.X :=
  ⟨exampleNearTable_facts.1, exampleNearTable_facts.2.1, exampleObjects_within,
    exampleNearTable_facts.2.2.1, exampleNearTable_facts.2.2.2,
    ((c39_no_near_duplicates defaultConfig exampleNearTable).2.1 0
      exampleNearTable_facts.2.2.1).1⟩

/-! ## The table invariants -/

/-- `Manage` on a table that holds one track only, which no sensor has seen. -/
theorem Manage_coasting (c : Config) (l : FusedObjectList) (s : Fin 16) (d L K : Nat)
    (hd : d ≠ INVALID_ID) (hL : 1 ≤ L) (hL2 : L + 1 < U16_MAX) (h : Coasting s d L K l) :
    if (K + 1) % U8_MAX ≤ c.MAX_COASTING_CYCLES then
      Coasting s d (L + 1) ((K + 1) % U8_MAX) (Manage c l) ∧
        ((Manage c l).get s).track = (l.get s).track
    else ∀ i, (Manage c l).get i = zeroFusedObject := by
  obtain ⟨h1, h2, h3, h4, hz⟩ := h
  have hlive : (l.get s).id ≠ INVALID_ID := by rw [h1]; exact hd
  have hother : ∀ i, i ≠ s → (Manage c l).get i = zeroFusedObject := by
    intro i hi
    rw [Manage_eq, Prune_single c l s hz, Maintain_get, hz i hi, if_neg (fun h => h rfl)]
  have hs : (Manage c l).get s = MaintainObject c (l.get s) := by
    rw [Manage_eq, Prune_single c l s hz, Maintain_get, if_pos hlive]
  rw [MaintainObject_coasting c (l.get s) L K h2 h3 h4 hL hL2] at hs
  by_cases hk : (K + 1) % U8_MAX ≤ c.MAX_COASTING_CYCLES
  · rw [if_pos hk] at hs ⊢
    refine ⟨⟨?_, ?_, ?_, ?_, hother⟩, ?_⟩
    · rw [hs]; exact h1
    · rw [hs]
    · rw [hs]
    · rw [hs]
    · rw [hs]
  · rw [if_neg hk] at hs ⊢
    intro i
    by_cases hi : i = s
    · rw [hi, hs]
    · exact hother i hi

/-- Repeated `Manage` on a table that holds one track only, which no sensor sees: the track
is kept and its counters grow by one each time, while `lostCounter` stays at most
`MAX_COASTING_CYCLES` and below `U8_MAX`. -/
theorem Manage_iterate_coasting (c : Config) (n : Nat) (l : FusedObjectList) (s : Fin 16)
    (d L K : Nat) (hd : d ≠ INVALID_ID) (hL : 1 ≤ L) (hL2 : L + n < U16_MAX)
    (hK : K + n ≤ c.MAX_COASTING_CYCLES) (hK2 : K + n < U8_MAX) (h : Coasting s d L K l) :
    Coasting s d (L + n) (K + n) ((Manage c)^[n] l) := by
  induction n generalizing l L K with
  | zero => exact h
  | succ n ih =>
    rw [Function.iterate_succ_apply]
    have hc := Manage_coasting c l s d L K hd hL (by omega) h
    have hmod : (K + 1) % U8_MAX = K + 1 := Nat.mod_eq_of_lt (by omega)
    rw [hmod, if_pos (by omega)] at hc
    have e1 : L + (n + 1) = L + 1 + n := by omega
    have e2 : K + (n + 1) = K + 1 + n := by omega
    rw [e1, e2]
    exact ih (Manage c l) (L + 1) (K + 1) (by omega) (by omega) (by omega) (by omega) hc.1

/-- Repeated `Manage` on a table that holds one track only, which no sensor sees: the
`Manage` in which `lostCounter` goes above `MAX_COASTING_CYCLES` empties the table. -/
theorem Manage_iterate_death (c : Config) (n : Nat) (l : FusedObjectList) (s : Fin 16)
    (d L K : Nat) (hd : d ≠ INVALID_ID) (hL : 1 ≤ L) (hL2 : L + n < U16_MAX)
    (hK0 : K ≤ c.MAX_COASTING_CYCLES) (hK : K + n = c.MAX_COASTING_CYCLES + 1)
    (hK2 : c.MAX_COASTING_CYCLES + 1 < U8_MAX) (h : Coasting s d L K l) :
    ∀ i, ((Manage c)^[n] l).get i = zeroFusedObject := by
  induction n generalizing l L K with
  | zero => omega
  | succ n ih =>
    rw [Function.iterate_succ_apply]
    have hc := Manage_coasting c l s d L K hd hL (by omega) h
    have hmod : (K + 1) % U8_MAX = K + 1 := Nat.mod_eq_of_lt (by omega)
    rw [hmod] at hc
    by_cases hk : K + 1 ≤ c.MAX_COASTING_CYCLES
    · rw [if_pos hk] at hc
      exact ih (Manage c l) (L + 1) (K + 1) (by omega) (by omega) hk (by omega) hc.1
    · rw [if_neg hk] at hc
      have hn : n = 0 := by omega
      subst hn
      exact hc

/-- Repeated `Manage` on a table that holds one track only, which no sensor sees: with
`MAX_COASTING_CYCLES` at least `254` the track is never reset. -/
theorem Manage_iterate_forever (c : Config) (hmax : 254 ≤ c.MAX_COASTING_CYCLES) (n : Nat)
    (l : FusedObjectList) (s : Fin 16) (d L K : Nat) (hd : d ≠ INVALID_ID) (hL : 1 ≤ L)
    (hL2 : L + n < U16_MAX) (h : Coasting s d L K l) :
    ∃ K', Coasting s d (L + n) K' ((Manage c)^[n] l) := by
  induction n generalizing l L K with
  | zero => exact ⟨K, h⟩
  | succ n ih =>
    rw [Function.iterate_succ_apply]
    have hc := Manage_coasting c l s d L K hd hL (by omega) h
    have hlt : (K + 1) % U8_MAX < U8_MAX := Nat.mod_lt _ (by decide)
    have e8 : U8_MAX = 255 := rfl
    have hle : (K + 1) % U8_MAX ≤ c.MAX_COASTING_CYCLES := by
      rw [e8] at hlt ⊢
      omega
    rw [if_pos hle] at hc
    have e1 : L + (n + 1) = L + 1 + n := by omega
    rw [e1]
    exact ih (Manage c l) (L + 1) ((K + 1) % U8_MAX) (by omega) (by omega) hc.1

theorem exampleTable_coasting : Coasting 0 1 1 0 exampleTable := by
  refine ⟨rfl, rfl, rfl, rfl, fun i hi => ?_⟩
  rw [exampleTable, get_set, if_neg (Ne.symm hi), zeroFusedObjectList_get]

/-- C18: for a track whose `lifetimeCounter` is not `65534`, `MaintainObject` leaves the
track reset or with a `lifetimeCounter` of at least `1`; a track at `65534` that stays live
comes out with `lifetimeCounter = (65534 + 1) % U16_MAX = 0`, where a counter of 16 bits
would be at `65535`.  So the table `exampleOldTable`, whose slot `0` is live at `65534`, has
after `Manage` a live slot `0` with `lifetimeCounter = 0`. -/
theorem c18_lifetime_zero_after_65534 (c : Config) :
    (∀ o : FusedObject_t, o.lifetimeCounter < 65536 → o.lifetimeCounter ≠ 65534 →
      (MaintainObject c o).id ≠ INVALID_ID → 1 ≤ (MaintainObject c o).lifetimeCounter) ∧
    (∀ o : FusedObject_t, o.lifetimeCounter = 65534 →
      (MaintainObject c o).id ≠ INVALID_ID → (MaintainObject c o).lifetimeCounter = 0) ∧
    (65534 + 1) % 2 ^ 16 = 65535 ∧
    (exampleOldTable.get 0).id ≠ INVALID_ID ∧
    (exampleOldTable.get 0).lifetimeCounter = 65534 ∧
    ((Manage defaultConfig exampleOldTable).get 0).id ≠ INVALID_ID ∧
    ((Manage defaultConfig exampleOldTable).get 0).lifetimeCounter = 0 := by
  have e16 : U16_MAX = 65535 := rfl
  have hz : ∀ i, i ≠ 0 → exampleOldTable.get i = zeroFusedObject := by
    intro i hi
    rw [exampleOldTable, get_set, if_neg (Ne.symm hi), zeroFusedObjectList_get]
  have hs : (Manage defaultConfig exampleOldTable).get 0 =
      MaintainObject defaultConfig (exampleOldTable.get 0) := by
    rw [Manage_eq, Prune_single defaultConfig exampleOldTable 0 hz, Maintain_get,
      if_pos (by decide)]
  refine ⟨fun o h1 h2 hl => ?_, fun o h1 hl => ?_, by decide, by decide, rfl, ?_, ?_⟩
  · rw [(MaintainObject_live c o hl).2, e16]
    omega
  · rw [(MaintainObject_live c o hl).2, h1]
    rfl
  · rw [hs]
    with_unfolding_all decide
  · rw [hs]
    with_unfolding_all decide

set_option maxRecDepth 100000 in
theorem c18_lifetime_zero_after_65534_witness :
    1 ≤ (MaintainObject defaultConfig exampleObject1).lifetimeCounter ∧
    (MaintainObject defaultConfig exampleOld).lifetimeCounter = 0 :=
  ⟨(c18_lifetime_zero_after_65534 defaultConfig).1 exampleObject1 (by decide) (by decide)
      (by with_unfolding_all decide),
    (c18_lifetime_zero_after_65534 defaultConfig).2.1 exampleOld rfl
      (by with_unfolding_all decide)⟩

/-- C20, counterexample: with `MAX_COASTING_CYCLES = 255`, the only track of the table
`exampleTable` (slot `0`, id `1`, `lifetimeCounter = 1`, `lostCounter = 0`, seen by no
sensor) is still live, with the id `1`, after `MAX_COASTING_CYCLES + 1 = 256` times
`Manage`. -/
theorem c20_track_never_dies_at_255 :
    configCoast255.MAX_COASTING_CYCLES + 1 = 256 ∧
    Coasting 0 1 1 0 exampleTable ∧
    (((Manage configCoast255)^[256] exampleTable).get 0).id = 1 := by
  refine ⟨rfl, exampleTable_coasting, ?_⟩
  obtain ⟨K', h⟩ := Manage_iterate_forever configCoast255 (by decide) 256 exampleTable 0 1 1 0
    (by decide) (by decide) (by decide) exampleTable_coasting
  exact h.1

/-- C20, amended: for `MAX_COASTING_CYCLES ≤ 253` and a table whose only track sits in the
slot `0` with the id `1`, `lifetimeCounter = 1`, `lostCounter = 0` and no `seenThisCycle`
flag set: one `Manage` on a table with one track that no sensor has seen, whatever its
state, adds one to both counters and keeps the track while `lostCounter` is at most
`MAX_COASTING_CYCLES`, and empties the table otherwise; so after `k` times `Manage`, for
`1 ≤ k ≤ MAX_COASTING_CYCLES`, the track is live with the same id, `lifetimeCounter = k + 1`
and `lostCounter = k`, and after `MAX_COASTING_CYCLES + 1` times its slot is free. -/
theorem c20_coasting_to_death (c : Config) (l0 : FusedObjectList)
    (h0 : Coasting 0 1 1 0 l0) (hmax : c.MAX_COASTING_CYCLES ≤ 253) :
    (∀ (l : FusedObjectList) (L K : Nat), 1 ≤ L → L + 1 < U16_MAX → K + 1 < U8_MAX →
      Coasting 0 1 L K l →
      if K + 1 ≤ c.MAX_COASTING_CYCLES then Coasting 0 1 (L + 1) (K + 1) (Manage c l)
      else ∀ i, ((Manage c l).get i).id = INVALID_ID) ∧
    (∀ k, 1 ≤ k → k ≤ c.MAX_COASTING_CYCLES →
      (((Manage c)^[k] l0).get 0).id = 1 ∧
      (((Manage c)^[k] l0).get 0).lifetimeCounter = k + 1 ∧
      (((Manage c)^[k] l0).get 0).lostCounter = k) ∧
    (((Manage c)^[c.MAX_COASTING_CYCLES + 1] l0).get 0).id = INVALID_ID := by
  have e16 : U16_MAX = 65535 := rfl
  have e8 : U8_MAX = 255 := rfl
  refine ⟨fun l L K hL hL2 hK h => ?_, fun k h1 hk => ?_, ?_⟩
  · have hc := Manage_coasting c l 0 1 L K (by decide) hL hL2 h
    rw [Nat.mod_eq_of_lt hK] at hc
    by_cases hk : K + 1 ≤ c.MAX_COASTING_CYCLES
    · rw [if_pos hk] at hc ⊢
      exact hc.1
    · rw [if_neg hk] at hc ⊢
      intro i
      rw [hc i]
      rfl
  · have hc := Manage_iterate_coasting c k l0 0 1 1 0 (by decide) (by decide)
      (by rw [e16]; omega) (by omega) (by rw [e8]; omega) h0
    refine ⟨hc.1, ?_, ?_⟩
    · rw [hc.2.1]; omega
    · rw [hc.2.2.1]; omega
  · rw [Manage_iterate_death c (c.MAX_COASTING_CYCLES + 1) l0 0 1 1 0 (by decide) (by decide)
      (by rw [e16]; omega) (Nat.zero_le _) (by omega) (by rw [e8]; omega) h0 0]
    rfl

theorem c20_coasting_to_death_witness :
    Coasting 0 1 1 0 exampleTable ∧
    (((Manage defaultConfig)^[20] exampleTable).get 0).id = 1 ∧
    (((Manage defaultConfig)^[20] exampleTable).get 0).lifetimeCounter = 21 ∧
    (((Manage defaultConfig)^[20] exampleTable).get 0).lostCounter = 20 ∧
    (((Manage defaultConfig)^[21] exampleTable).get 0).id = INVALID_ID :=
  ⟨exampleTable_coasting,
    ((c20_coasting_to_death defaultConfig exampleTable exampleTable_coasting
      (by decide)).2.1 20 (by decide) (by decide)).1,
    ((c20_coasting_to_death defaultConfig exampleTable exampleTable_coasting
      (by decide)).2.1 20 (by decide) (by decide)).2.1,
    ((c20_coasting_to_death defaultConfig exampleTable exampleTable_coasting
      (by decide)).2.1 20 (by decide) (by decide)).2.2,
    (c20_coasting_to_death defaultConfig exampleTable exampleTable_coasting (by decide)).2.2⟩

/-! ## The output array -/

set_option maxRecDepth 100000 in
/-- C21, counterexample: the table `exampleGapTable` has the slot `0` free and a confirmed
track in the slot `1`; in the array that `PrepareOutputObjects` builds from it, `output[0]`
is valid and carries the state `(4, 3, 10, 0)` of the slot `1`, and `output[1]` is not
valid. -/
theorem c21_output_not_slot_aligned :
    IsTentativeObjectConfirmed defaultConfig (exampleGapTable.get 0) = false ∧
    IsTentativeObjectConfirmed defaultConfig (exampleGapTable.get 1) = true ∧
    (exampleGapTable.get 1).track.X = ⟨[4, 3, 10, 0], rfl⟩ ∧
    (PrepareOutputObjects defaultConfig exampleGapTable).get 0 =
      { valid := 1, posX := 4, posY := 3, velX := 10, velY := 0 } ∧
    ((PrepareOutputObjects defaultConfig exampleGapTable).get 1).valid = 0 := by
  with_unfolding_all decide

/-- C21, amended: the output array of `PrepareOutputObjects`, which is the one that
`RunAlgorithm` returns for the table at the end of its cycle, is packed: its `k`-th entry is
valid and carries the `(X, Y, VX, VY)` of the `k`-th confirmed slot of the table, in slot
order, and every entry behind the confirmed tracks is all-zero, hence not valid. -/
theorem c21_output_is_packed (c : Config) (l : FusedObjectList) (k : Fin 16) :
    (∀ i, (confirmedSlots c l).get? k.val = some i →
      IsTentativeObjectConfirmed c (l.get i) = true ∧
      ((PrepareOutputObjects c l).get k).valid = 1 ∧
      ((PrepareOutputObjects c l).get k).posX = (l.get i).track.X.get STATE_X ∧
      ((PrepareOutputObjects c l).get k).posY = (l.get i).track.X.get STATE_Y ∧
      ((PrepareOutputObjects c l).get k).velX = (l.get i).track.X.get STATE_VX ∧
      ((PrepareOutputObjects c l).get k).velY = (l.get i).track.X.get STATE_VY) ∧
    ((confirmedSlots c l).get? k.val = none →
      (PrepareOutputObjects c l).get k = zeroBaseObject ∧
      ((PrepareOutputObjects c l).get k).valid = 0) ∧
    (∀ (m : Libm) (t : Tracking) (g : Gating) (sensors : Vector SensorEntry 4)
      (l0 : FusedObjectList) (inp : Vector BaseObject_t 24) (out : Vector BaseObject_t 16),
      RunAlgorithm c m t g sensors l0 inp = some (l, out) →
        out = PrepareOutputObjects c l) := by
  rw [PrepareOutputObjects_eq, packedOutput_get]
  refine ⟨fun i hi => ?_, fun hn => ?_, fun m t g sensors l0 inp out h => ?_⟩
  · rw [hi]
    refine ⟨?_, rfl, rfl, rfl, rfl, rfl⟩
    have hm : i ∈ confirmedSlots c l := List.get?_mem hi
    unfold confirmedSlots at hm
    simpa using (List.mem_filter.mp hm).2
  · rw [hn]
    exact ⟨rfl, rfl⟩
  · rw [RunAlgorithm_eq] at h
    cases hr : RunFusion c m t g (PrepareInputObjects c m sensors inp).toList l0 with
    | none => rw [hr] at h; cases h
    | some l1 =>
      rw [hr] at h
      simp only [Option.map_some', Option.some.injEq, Prod.mk.injEq] at h
      obtain ⟨h1, h2⟩ := h
      subst h1
      rw [← h2, PrepareOutputObjects_eq]

set_option maxRecDepth 100000 in
theorem exampleGapTable_confirmed :
    (confirmedSlots defaultConfig exampleGapTable).get? (0 : Fin 16).val = some 1 ∧
    (confirmedSlots defaultConfig exampleGapTable).get? (1 : Fin 16).val = none := by
  with_unfolding_all decide

theorem c21_output_is_packed_witness :
    (confirmedSlots defaultConfig exampleGapTable).get? (0 : Fin 16).val = some 1 ∧
    (confirmedSlots defaultConfig exampleGapTable).get? (1 : Fin 16).val = none ∧
    (IsTentativeObjectConfirmed defaultConfig (exampleGapTable.get 1) = true ∧
      ((PrepareOutputObjects defaultConfig exampleGapTable).get 0).valid = 1 ∧
      ((PrepareOutputObjects defaultConfig exampleGapTable).get 0).posX =
        (exampleGapTable.get 1).track.X.get STATE_X ∧
      ((PrepareOutputObjects defaultConfig exampleGapTable).get 0).posY =
        (exampleGapTable.get 1).track.X.get STATE_Y ∧
      ((PrepareOutputObjects defaultConfig exampleGapTable).get 0).velX =
        (exampleGapTable.get 1).track.X.get STATE_VX ∧
      ((PrepareOutputObjects defaultConfig exampleGapTable).get 0).velY =
        (exampleGapTable.get 1).track.X.get STATE_VY) ∧
    ((PrepareOutputObjects defaultConfig exampleGapTable).get 1 = zeroBaseObject ∧
      ((PrepareOutputObjects defaultConfig exampleGapTable).get 1).valid = 0) :=
  ⟨exampleGapTable_confirmed.1, exampleGapTable_confirmed.2,
    (c21_output_is_packed defaultConfig exampleGapTable 0).1 1 exampleGapTable_confirmed.1,
    (c21_output_is_packed defaultConfig exampleGapTable 1).2.1 exampleGapTable_confirmed.2⟩

/-! ## The binary32 arithmetic -/

theorem pow2_pos (e : Int) : 0 < pow2 e := zpow_pos (by norm_num) e

theorem pow2_mono {a b : Int} (h : a ≤ b) : pow2 a ≤ pow2 b :=
  zpow_le_zpow_right₀ (by norm_num) h

theorem binadeLoop_eq (x : ℚ) (e : Int) (h1 : pow2 e ≤ x) (h2 : x < pow2 (e + 1)) :
    ∀ (n : Nat) (e0 : Int), e ≤ e0 → e0 - e < n → binadeLoop x n e0 = e
  | 0, e0, _, h => by omega
  | n + 1, e0, he, h => by
    unfold binadeLoop
    by_cases hx : pow2 e0 ≤ x
    · rw [if_pos hx]
      by_contra hne
      have : e + 1 ≤ e0 := by omega
      exact absurd (lt_of_lt_of_le h2 (pow2_mono this)) (not_lt.2 hx)
    · rw [if_neg hx]
      have hne : e ≠ e0 := fun h => hx (h ▸ h1)
      exact binadeLoop_eq x e h1 h2 n (e0 - 1) (by omega) (by omega)

/-- The binade of a normal number. -/
theorem binade_eq (x : ℚ) (e : Int) (h1 : pow2 e ≤ |x|) (h2 : |x| < pow2 (e + 1))
    (hl : -125 ≤ e) (hu : e ≤ 127) : binade x = e :=
  binadeLoop_eq |x| e h1 h2 253 127 hu (by push_cast; linarith)

theorem roundHalfEven_down (s : ℚ) (f : Int) (h1 : (f : ℚ) ≤ s) (h2 : s - f < 1 / 2) :
    roundHalfEven s = f := by
  have hf : ⌊s⌋ = f := Int.floor_eq_iff.2 ⟨h1, by linarith⟩
  unfold roundHalfEven
  rw [hf, if_pos h2]

theorem roundHalfEven_up (s : ℚ) (f : Int) (h1 : 1 / 2 < s - f) (h2 : s < f + 1) :
    roundHalfEven s = f + 1 := by
  have hf : ⌊s⌋ = f := Int.floor_eq_iff.2 ⟨by linarith, h2⟩
  unfold roundHalfEven
  rw [hf, if_neg (not_lt.2 h1.le), if_pos h1]

theorem roundHalfEven_tie (s : ℚ) (f : Int) (h : s - f = 1 / 2) :
    roundHalfEven s = if f % 2 = 0 then f else f + 1 := by
  have hf : ⌊s⌋ = f := Int.floor_eq_iff.2 ⟨by linarith, by linarith⟩
  unfold roundHalfEven
  rw [hf, h, if_neg (lt_irrefl _), if_neg (lt_irrefl _)]

theorem roundF32_eq (x : ℚ) (e n : Int) (hb : binade x = e)
    (hr : roundHalfEven (x / pow2 (e - 23)) = n) : roundF32 x = n * pow2 (e - 23) := by
  unfold roundF32
  rw [hb, hr]


/-- The binary32 number nearest to `1 / 10`. -/
theorem roundF32_tenth : roundF32 (1 / 10) = 13421773 / 134217728 := by
  have hb : binade (1 / 10) = -4 := by
    apply binade_eq <;> norm_num [pow2, abs_of_pos]
  rw [roundF32_eq _ (-4) 13421773 hb]
  · norm_num [pow2]
  · have := roundHalfEven_up (1 / 10 / pow2 (-4 - 23)) 13421772 (by norm_num [pow2])
      (by norm_num [pow2])
    simpa using this

/-- A number `n * 2 ^ (e - 23)` of the binade `e` is a binary32 number. -/
theorem roundF32_exact (x : ℚ) (e n : Int) (hb : binade x = e)
    (hx : x = n * pow2 (e - 23)) : roundF32 x = x := by
  rw [roundF32_eq x e n hb, ← hx]
  apply roundHalfEven_down
  · rw [hx, mul_div_assoc, div_self (ne_of_gt (pow2_pos _)), mul_one]
  · rw [hx, mul_div_assoc, div_self (ne_of_gt (pow2_pos _)), mul_one, sub_self]
    norm_num

theorem interpolation_step1 :
    subF32 0 (13421773 / 134217728) = -13421773 / 134217728 := by
  unfold subF32
  rw [zero_sub]
  have hb : binade (-(13421773 / 134217728 : ℚ)) = -4 := by
    apply binade_eq <;> norm_num [pow2, abs_of_pos]
  rw [roundF32_exact _ (-4) (-13421773) hb (by norm_num [pow2])]
  norm_num

theorem interpolation_step2 : subF32 30 27 = 3 := by
  unfold subF32
  have hb : binade ((30 : ℚ) - 27) = 1 := by
    apply binade_eq <;> norm_num [pow2, abs_of_pos]
  rw [roundF32_exact _ 1 12582912 hb (by norm_num [pow2])]
  norm_num

theorem interpolation_step3 :
    divF32 (-13421773 / 134217728) 3 = -8947849 / 268435456 := by
  unfold divF32
  have hb : binade ((-13421773 / 134217728 : ℚ) / 3) = -5 := by
    apply binade_eq <;> norm_num [pow2, abs_of_pos]
  rw [roundF32_eq _ (-5) (-8947849) hb]
  · norm_num [pow2]
  · apply roundHalfEven_down
    · norm_num [pow2]
    · norm_num [pow2]

theorem interpolation_step4 :
    mulF32 (-8947849 / 268435456) 3 = -13421774 / 134217728 := by
  unfold mulF32
  have hb : binade ((-8947849 / 268435456 : ℚ) * 3) = -4 := by
    apply binade_eq <;> norm_num [pow2, abs_of_pos]
  rw [roundF32_eq _ (-4) (-13421774) hb]
  · norm_num [pow2]
  · have h := roundHalfEven_tie ((-8947849 / 268435456 : ℚ) * 3 / pow2 (-4 - 23)) (-13421774)
      (by norm_num [pow2])
    rw [h]
    decide

theorem interpolation_step5 :
    addF32 (-13421774 / 134217728) (13421773 / 134217728) = -1 / 134217728 := by
  unfold addF32
  have hb : binade ((-13421774 / 134217728 : ℚ) + 13421773 / 134217728) = -27 := by
    apply binade_eq <;> norm_num [pow2, abs_of_pos]
  rw [roundF32_exact _ (-27) (-8388608) hb (by norm_num [pow2])]
  norm_num

/-- The interpolation of `GetLinInterpolatedValue` at the upper abscissa, in binary32, for
the ordinates `0.1f` and `0`. -/
theorem GetLinInterpolatedValueF32_below :
    GetLinInterpolatedValueF32 30 27 30 (13421773 / 134217728) 0 = -1 / 134217728 := by
  unfold GetLinInterpolatedValueF32
  rw [interpolation_step1, interpolation_step2, interpolation_step3, interpolation_step4,
    interpolation_step5]

/-! ## The claims that depend on the rounding -/

set_option maxRecDepth 100000 in
theorem exampleAxis_bearings :
    targetBearing exampleLibm 4 0 exampleSensor75 = 75 ∧
    targetBearing exampleLibm 4 0 exampleSensor65 = 65 ∧
    targetBearing exampleLibm 4 0 exampleSensor30 = 30 ∧
    GetBearing exampleLibm (4 - exampleSensor75.tf.x) (0 - exampleSensor75.tf.y) =
      exampleLibm.atan2 0 4 := by
  with_unfolding_all decide

set_option maxRecDepth 100000 in
/-- C23, counterexample: (a) with `SENSOR_WEAK_BEARING_AREA = -10`, for a sensor with the
field of view `140` and the mounting angle `75`, and a target on the x axis of the sensor,
where the bearing `atan2(0, 4)` is `0` and so `theta = 75 > fov / 2 = 70`, the weight is
`MAX_BEARING_CONFIDENCE = 1` and not `MIN_BEARING_CONFIDENCE = 7 / 10`; (b) with
`MIN_BEARING_CONFIDENCE = 0`, `MAX_BEARING_CONFIDENCE = 0.1f`,
`SENSOR_WEAK_BEARING_AREA = 3`, the field of view `60` and `theta = 30`, the weight is the
interpolation at the abscissae `27` and `30`, which is `MIN_BEARING_CONFIDENCE` in exact
arithmetic and `-2 ^ (-27)`, below `MIN_BEARING_CONFIDENCE`, in binary32. -/
theorem c23_weight_outside_the_claimed_values :
    (configNegativeWeakArea.MIN_BEARING_CONFIDENCE ≤
        configNegativeWeakArea.MAX_BEARING_CONFIDENCE ∧
      targetBearing exampleLibm 4 0 exampleSensor75 = 75 ∧
      targetBearing exampleLibm 4 0 exampleSensor75 > exampleSensor75.tf.fov / 2 ∧
      GetBearingConfidence configNegativeWeakArea exampleLibm 4 0 exampleSensor75 = 1 ∧
      GetBearingConfidence configNegativeWeakArea exampleLibm 4 0 exampleSensor75 ≠
        configNegativeWeakArea.MIN_BEARING_CONFIDENCE) ∧
    (configNarrowWeakArea.MIN_BEARING_CONFIDENCE ≤
        configNarrowWeakArea.MAX_BEARING_CONFIDENCE ∧
      roundF32 (1 / 10) = configNarrowWeakArea.MAX_BEARING_CONFIDENCE ∧
      targetBearing exampleLibm 4 0 exampleSensor30 = 30 ∧
      GetBearingConfidence configNarrowWeakArea exampleLibm 4 0 exampleSensor30 =
        GetLinInterpolatedValue 30 27 30 configNarrowWeakArea.MAX_BEARING_CONFIDENCE
          configNarrowWeakArea.MIN_BEARING_CONFIDENCE ∧
      GetLinInterpolatedValue 30 27 30 configNarrowWeakArea.MAX_BEARING_CONFIDENCE
          configNarrowWeakArea.MIN_BEARING_CONFIDENCE =
        configNarrowWeakArea.MIN_BEARING_CONFIDENCE ∧
      GetLinInterpolatedValueF32 30 27 30 configNarrowWeakArea.MAX_BEARING_CONFIDENCE
          configNarrowWeakArea.MIN_BEARING_CONFIDENCE = -1 / 134217728 ∧
      GetLinInterpolatedValueF32 30 27 30 configNarrowWeakArea.MAX_BEARING_CONFIDENCE
          configNarrowWeakArea.MIN_BEARING_CONFIDENCE <
        configNarrowWeakArea.MIN_BEARING_CONFIDENCE) := by
  have hf : GetLinInterpolatedValueF32 30 27 30 configNarrowWeakArea.MAX_BEARING_CONFIDENCE
      configNarrowWeakArea.MIN_BEARING_CONFIDENCE = -1 / 134217728 :=
    GetLinInterpolatedValueF32_below
  refine ⟨by with_unfolding_all decide,
    by with_unfolding_all decide, roundF32_tenth, exampleAxis_bearings.2.2.1,
    by with_unfolding_all decide, by with_unfolding_all decide, hf, ?_⟩
  rw [hf]
  with_unfolding_all decide

/-- C23, amended: in exact arithmetic, for every sensor, every target position and every
`SENSOR_WEAK_BEARING_AREA`, with `MIN_BEARING_CONFIDENCE ≤ MAX_BEARING_CONFIDENCE`, the
weight of `GetBearingConfidence` lies in `[MIN_BEARING_CONFIDENCE, MAX_BEARING_CONFIDENCE]`:
it is `MAX` when `theta ≤ fov / 2 - SENSOR_WEAK_BEARING_AREA`, `MIN` when `theta > fov / 2`
and `theta > fov / 2 - SENSOR_WEAK_BEARING_AREA`, and the linear interpolation in between;
the divisor of the interpolation is never zero. -/
theorem c23_bearing_confidence (c : Config) (m : Libm) (x y : ℚ) (sensor : Sensor_t)
    (h : c.MIN_BEARING_CONFIDENCE ≤ c.MAX_BEARING_CONFIDENCE) :
    c.MIN_BEARING_CONFIDENCE ≤ GetBearingConfidence c m x y sensor ∧
    GetBearingConfidence c m x y sensor ≤ c.MAX_BEARING_CONFIDENCE ∧
    (targetBearing m x y sensor ≤ sensor.tf.fov / 2 - c.SENSOR_WEAK_BEARING_AREA →
      GetBearingConfidence c m x y sensor = c.MAX_BEARING_CONFIDENCE) ∧
    (targetBearing m x y sensor > sensor.tf.fov / 2 →
      targetBearing m x y sensor > sensor.tf.fov / 2 - c.SENSOR_WEAK_BEARING_AREA →
      GetBearingConfidence c m x y sensor = c.MIN_BEARING_CONFIDENCE) ∧
    (sensor.tf.fov / 2 - c.SENSOR_WEAK_BEARING_AREA < targetBearing m x y sensor →
      targetBearing m x y sensor ≤ sensor.tf.fov / 2 →
      GetBearingConfidence c m x y sensor =
        c.MAX_BEARING_CONFIDENCE + (c.MIN_BEARING_CONFIDENCE - c.MAX_BEARING_CONFIDENCE) *
          (targetBearing m x y sensor - (sensor.tf.fov / 2 - c.SENSOR_WEAK_BEARING_AREA)) /
          (sensor.tf.fov / 2 - (sensor.tf.fov / 2 - c.SENSOR_WEAK_BEARING_AREA))) ∧
    ∀ d ∈ GetBearingConfidenceDivisors c m x y sensor, d ≠ 0 := by
  rw [GetBearingConfidence_eq, GetBearingConfidenceDivisors_eq]
  by_cases h1 : targetBearing m x y sensor ≤ sensor.tf.fov / 2 - c.SENSOR_WEAK_BEARING_AREA
  · simp only [if_pos h1]
    refine ⟨h, le_refl _, fun _ => trivial, fun _ h3 => absurd h1 (not_le.2 h3),
      fun h3 => absurd h1 (not_le.2 h3), fun d hd => absurd hd (List.not_mem_nil d)⟩
  · simp only [if_neg h1]
    by_cases h2 : targetBearing m x y sensor ≤ sensor.tf.fov / 2
    · simp only [if_pos h2]
      have hlt := lt_of_not_le h1
      have hx : sensor.tf.fov / 2 - c.SENSOR_WEAK_BEARING_AREA < sensor.tf.fov / 2 :=
        lt_of_lt_of_le hlt h2
      have hb := GetLinInterpolatedValue_bounds (targetBearing m x y sensor)
        (sensor.tf.fov / 2 - c.SENSOR_WEAK_BEARING_AREA) (sensor.tf.fov / 2)
        c.MAX_BEARING_CONFIDENCE c.MIN_BEARING_CONFIDENCE hx h hlt.le h2
      refine ⟨hb.1, hb.2, fun h3 => absurd h3 h1, fun h3 _ => absurd h2 (not_le.2 h3),
        fun _ _ => ?_, fun d hd => ?_⟩
      · unfold GetLinInterpolatedValue
        ring
      · rw [List.mem_singleton] at hd
        rw [hd]
        linarith
    · simp only [if_neg h2]
      refine ⟨le_refl _, h, fun h3 => absurd h3 h1, fun _ _ => trivial,
        fun _ h3 => absurd h3 h2, fun d hd => absurd hd (List.not_mem_nil d)⟩


theorem c23_bearing_confidence_witness :
    defaultConfig.MIN_BEARING_CONFIDENCE ≤ defaultConfig.MAX_BEARING_CONFIDENCE ∧
    targetBearing exampleLibm 4 0 exampleSensor65 = 65 ∧
    GetBearingConfidence defaultConfig exampleLibm 4 0 exampleSensor65 =
      1 + (7 / 10 - 1) * (65 - (140 / 2 - 10)) / (140 / 2 - (140 / 2 - 10)) ∧
    ∀ d ∈ GetBearingConfidenceDivisors defaultConfig exampleLibm 4 0 exampleSensor65, d ≠ 0 :=
  ⟨by norm_num [defaultConfig], exampleAxis_bearings.2.1,
    by
      have h := (c23_bearing_confidence defaultConfig exampleLibm 4 0 exampleSensor65
        (by norm_num [defaultConfig])).2.2.2.2.1
      rw [exampleAxis_bearings.2.1] at h
      exact h (by norm_num [exampleSensor65, defaultConfig])
        (by norm_num [exampleSensor65]),
    (c23_bearing_confidence defaultConfig exampleLibm 4 0 exampleSensor65
      (by norm_num [defaultConfig])).2.2.2.2.2⟩

theorem exampleLibmRounded_mono (a b : ℚ) (_h : 0 ≤ a) (hab : a ≤ b) :
    exampleLibmRounded.sqrt a ≤ exampleLibmRounded.sqrt b := by
  change (Nat.sqrt ⌊a * 4294967296⌋₊ : ℚ) / 65536 ≤ (Nat.sqrt ⌊b * 4294967296⌋₊ : ℚ) / 65536
  have h1 : ⌊a * 4294967296⌋₊ ≤ ⌊b * 4294967296⌋₊ := Nat.floor_mono (by linarith)
  have h2 : Nat.sqrt ⌊a * 4294967296⌋₊ ≤ Nat.sqrt ⌊b * 4294967296⌋₊ := Nat.sqrt_le_sqrt h1
  have h3 : (Nat.sqrt ⌊a * 4294967296⌋₊ : ℚ) ≤ (Nat.sqrt ⌊b * 4294967296⌋₊ : ℚ) := by
    exact_mod_cast h2
  linarith

theorem exampleLibmRounded_near :
    exampleLibmRounded.sqrt (1 / 128 * (1 / 128) + 128 * 128) = 128 ∧
    exampleLibmRounded.sqrt (1 / 64 * (1 / 64) + 128 * 128) = 128 := by
  constructor
  · change (Nat.sqrt ⌊((1 : ℚ) / 128 * (1 / 128) + 128 * 128) * 4294967296⌋₊ : ℚ) / 65536 = 128
    have hf : ⌊((1 : ℚ) / 128 * (1 / 128) + 128 * 128) * 4294967296⌋₊ = 70368744439808 := by
      rw [Nat.floor_eq_iff (by norm_num)]
      constructor <;> norm_num
    have hs : Nat.sqrt 70368744439808 = 8388608 :=
      (Nat.eq_sqrt.2 ⟨by norm_num, by norm_num⟩).symm
    rw [hf, hs]
    norm_num
  · change (Nat.sqrt ⌊((1 : ℚ) / 64 * (1 / 64) + 128 * 128) * 4294967296⌋₊ : ℚ) / 65536 = 128
    have hf : ⌊((1 : ℚ) / 64 * (1 / 64) + 128 * 128) * 4294967296⌋₊ = 70368745226240 := by
      rw [Nat.floor_eq_iff (by norm_num)]
      constructor <;> norm_num
    have hs : Nat.sqrt 70368745226240 = 8388608 :=
      (Nat.eq_sqrt.2 ⟨by norm_num, by norm_num⟩).symm
    rw [hf, hs]
    norm_num

theorem exampleNear_sums :
    addF32 (mulF32 (1 / 128) (1 / 128)) (mulF32 128 128) = 16384 ∧
    addF32 (mulF32 (1 / 64) (1 / 64)) (mulF32 128 128) = 16384 := by
  have m1 : mulF32 (1 / 128) (1 / 128) = 1 / 16384 := by
    unfold mulF32
    have hb : binade ((1 : ℚ) / 128 * (1 / 128)) = -14 := by
      apply binade_eq <;> norm_num [pow2, abs_of_pos]
    rw [roundF32_exact _ (-14) 8388608 hb (by norm_num [pow2])]
    norm_num
  have m2 : mulF32 (1 / 64) (1 / 64) = 1 / 4096 := by
    unfold mulF32
    have hb : binade ((1 : ℚ) / 64 * (1 / 64)) = -12 := by
      apply binade_eq <;> norm_num [pow2, abs_of_pos]
    rw [roundF32_exact _ (-12) 8388608 hb (by norm_num [pow2])]
    norm_num
  have m3 : mulF32 128 128 = 16384 := by
    unfold mulF32
    have hb : binade ((128 : ℚ) * 128) = 14 := by
      apply binade_eq <;> norm_num [pow2, abs_of_pos]
    rw [roundF32_exact _ 14 8388608 hb (by norm_num [pow2])]
    norm_num
  rw [m1, m2, m3]
  constructor
  · unfold addF32
    have hb : binade ((1 : ℚ) / 16384 + 16384) = 14 := by
      apply binade_eq <;> norm_num [pow2, abs_of_pos]
    rw [roundF32_eq _ 14 8388608 hb]
    · norm_num [pow2]
    · apply roundHalfEven_down
      · norm_num [pow2]
      · norm_num [pow2]
  · unfold addF32
    have hb : binade ((1 : ℚ) / 4096 + 16384) = 14 := by
      apply binade_eq <;> norm_num [pow2, abs_of_pos]
    rw [roundF32_eq _ 14 8388608 hb]
    · norm_num [pow2]
    · apply roundHalfEven_down
      · norm_num [pow2]
      · norm_num [pow2]

/-- C32, counterexample: the measurements at `(1 / 128, 128)` and `(1 / 64, 128)` of the
sensor `FRONT_LEFT` have the same `Z[y]` and `|Z1[x]| < |Z2[x]|`.  In binary32 the two sums
`Z[x]^2 + Z[y]^2` are both `16384`, so both priorities are the same number for every square
root; and with the square root of `exampleLibmRounded`, which is rounded, both priorities
computed by `CreatePrefusedObject` are `22`. -/
theorem c32_equal_priorities :
    (CreatePrefusedObject defaultConfig exampleLibmRounded (zeroPrefusedObject nullSensor)
      (sensorList.get 0).1 (1 / 128) 128 0 0).plot.Z.get STATE_Y =
    (CreatePrefusedObject defaultConfig exampleLibmRounded (zeroPrefusedObject nullSensor)
      (sensorList.get 0).1 (1 / 64) 128 0 0).plot.Z.get STATE_Y ∧
    |(CreatePrefusedObject defaultConfig exampleLibmRounded (zeroPrefusedObject nullSensor)
      (sensorList.get 0).1 (1 / 128) 128 0 0).plot.Z.get STATE_X| <
    |(CreatePrefusedObject defaultConfig exampleLibmRounded (zeroPrefusedObject nullSensor)
      (sensorList.get 0).1 (1 / 64) 128 0 0).plot.Z.get STATE_X| ∧
    (CreatePrefusedObject defaultConfig exampleLibmRounded (zeroPrefusedObject nullSensor)
      (sensorList.get 0).1 (1 / 128) 128 0 0).priority = 22 ∧
    (CreatePrefusedObject defaultConfig exampleLibmRounded (zeroPrefusedObject nullSensor)
      (sensorList.get 0).1 (1 / 64) 128 0 0).priority = 22 ∧
    (∀ m : Libm, GetObjectPriorityF32 m (1 / 128) 128 = GetObjectPriorityF32 m (1 / 64) 128) := by
  obtain ⟨_, a2, a3, _, _, _, _, a8⟩ := CreatePrefusedObject_fields defaultConfig
    exampleLibmRounded (zeroPrefusedObject nullSensor) (sensorList.get 0).1 (1 / 128) 128 0 0
  obtain ⟨_, b2, b3, _, _, _, _, b8⟩ := CreatePrefusedObject_fields defaultConfig
    exampleLibmRounded (zeroPrefusedObject nullSensor) (sensorList.get 0).1 (1 / 64) 128 0 0
  have h0 : (sensorList.get 0).1.tf.canX = 0 ∧ (sensorList.get 0).1.tf.canY = 0 := ⟨rfl, rfl⟩
  rw [h0.1, h0.2, add_zero, add_zero] at a8 b8
  rw [h0.1, add_zero] at a2 b2
  rw [h0.2, add_zero] at a3 b3
  refine ⟨by rw [a3, b3], ?_, ?_, ?_, fun m => ?_⟩
  · rw [a2, b2]
    norm_num [abs_of_pos]
  · rw [a8, exampleLibmRounded_near.1]
    norm_num [MAX_PRIORITY]
  · rw [b8, exampleLibmRounded_near.2]
    norm_num [MAX_PRIORITY]
  · unfold GetObjectPriorityF32
    rw [exampleNear_sums.1, exampleNear_sums.2]

/-! ## The rounding to binary32 is monotone -/

theorem pow2_add (a b : Int) : pow2 (a + b) = pow2 a * pow2 b :=
  zpow_add₀ (by norm_num) a b

theorem binadeLoop_le (x : ℚ) : ∀ (n : Nat) (e : Int), binadeLoop x n e ≤ e
  | 0, e => le_refl e
  | n + 1, e => by
    unfold binadeLoop
    split
    · exact le_refl e
    · have := binadeLoop_le x n (e - 1)
      omega

theorem binadeLoop_ge (x : ℚ) : ∀ (n : Nat) (e : Int), e - n ≤ binadeLoop x n e
  | 0, e => by simp [binadeLoop]
  | n + 1, e => by
    unfold binadeLoop
    split
    · push_cast; omega
    · have := binadeLoop_ge x n (e - 1)
      push_cast
      omega

theorem binadeLoop_mono (x y : ℚ) (h : x ≤ y) :
    ∀ (n : Nat) (e : Int), binadeLoop x n e ≤ binadeLoop y n e
  | 0, e => le_refl e
  | n + 1, e => by
    unfold binadeLoop
    by_cases hx : pow2 e ≤ x
    · rw [if_pos hx, if_pos (le_trans hx h)]
    · rw [if_neg hx]
      by_cases hy : pow2 e ≤ y
      · rw [if_pos hy]
        have := binadeLoop_le x n (e - 1)
        omega
      · rw [if_neg hy]
        exact binadeLoop_mono x y h n (e - 1)

theorem binadeLoop_low_bound (x : ℚ) :
    ∀ (n : Nat) (e : Int), pow2 (binadeLoop x n e) ≤ x ∨ binadeLoop x n e = e - n
  | 0, e => Or.inr (by simp [binadeLoop])
  | n + 1, e => by
    unfold binadeLoop
    by_cases hx : pow2 e ≤ x
    · rw [if_pos hx]
      exact Or.inl hx
    · rw [if_neg hx]
      rcases binadeLoop_low_bound x n (e - 1) with h | h
      · exact Or.inl h
      · right
        rw [h]
        push_cast
        omega

theorem binadeLoop_high_bound (x : ℚ) :
    ∀ (n : Nat) (e : Int), binadeLoop x n e = e ∨ x < pow2 (binadeLoop x n e + 1)
  | 0, e => Or.inl rfl
  | n + 1, e => by
    unfold binadeLoop
    by_cases hx : pow2 e ≤ x
    · rw [if_pos hx]
      exact Or.inl rfl
    · rw [if_neg hx]
      right
      rcases binadeLoop_high_bound x n (e - 1) with h | h
      · rw [h, sub_add_cancel]
        exact lt_of_not_le hx
      · exact h

theorem binade_neg (x : ℚ) : binade (-x) = binade x := by
  unfold binade
  rw [abs_neg]

theorem binade_mono (x y : ℚ) (h : |x| ≤ |y|) : binade x ≤ binade y :=
  binadeLoop_mono |x| |y| h 253 127

theorem binade_low (x : ℚ) (h : -126 < binade x) : pow2 (binade x) ≤ |x| := by
  rcases binadeLoop_low_bound |x| 253 127 with h1 | h1
  · exact h1
  · unfold binade at h
    rw [h1] at h
    norm_num at h

theorem binade_high (x : ℚ) (h : binade x < 127) : |x| < pow2 (binade x + 1) := by
  rcases binadeLoop_high_bound |x| 253 127 with h1 | h1
  · unfold binade at h
    rw [h1] at h
    exact absurd h (lt_irrefl _)
  · exact h1

theorem roundHalfEven_int (n : Int) : roundHalfEven (n : ℚ) = n := by
  apply roundHalfEven_down
  · exact le_refl _
  · rw [sub_self]
    norm_num

theorem roundHalfEven_bounds (s : ℚ) :
    ⌊s⌋ ≤ roundHalfEven s ∧ roundHalfEven s ≤ ⌊s⌋ + 1 := by
  unfold roundHalfEven
  split_ifs <;> constructor <;> omega

theorem roundHalfEven_mono (s t : ℚ) (h : s ≤ t) : roundHalfEven s ≤ roundHalfEven t := by
  have hf : ⌊s⌋ ≤ ⌊t⌋ := Int.floor_mono h
  rcases lt_or_eq_of_le hf with hlt | heq
  · have h1 := (roundHalfEven_bounds s).2
    have h2 := (roundHalfEven_bounds t).1
    omega
  · unfold roundHalfEven
    rw [heq]
    have hd : s - ⌊t⌋ ≤ t - ⌊t⌋ := by linarith
    split_ifs <;> first | omega | (exfalso; linarith)

theorem roundHalfEven_neg (s : ℚ) : roundHalfEven (-s) = -roundHalfEven s := by
  by_cases hs : s = ⌊s⌋
  · rw [hs, ← Int.cast_neg, roundHalfEven_int, roundHalfEven_int]
  · have h1 : (⌊s⌋ : ℚ) < s := lt_of_le_of_ne (Int.floor_le s) (Ne.symm hs)
    have h2 : s < ⌊s⌋ + 1 := Int.lt_floor_add_one s
    have hf : ⌊-s⌋ = -⌊s⌋ - 1 := by
      rw [Int.floor_eq_iff]
      push_cast
      constructor <;> linarith
    unfold roundHalfEven
    rw [hf]
    push_cast
    by_cases c1 : s - ⌊s⌋ < 1 / 2
    · rw [if_pos c1, if_neg (by linarith), if_pos (by linarith)]
      omega
    · by_cases c2 : 1 / 2 < s - ⌊s⌋
      · rw [if_neg c1, if_pos c2, if_pos (by linarith)]
        omega
      · have c3 : s - ⌊s⌋ = 1 / 2 := le_antisymm (not_lt.1 c2) (not_lt.1 c1)
        rw [if_neg c1, if_neg c2, if_neg (by linarith), if_neg (by linarith)]
        split_ifs <;> omega

theorem roundF32_neg (x : ℚ) : roundF32 (-x) = -roundF32 x := by
  unfold roundF32
  rw [binade_neg, neg_div, roundHalfEven_neg]
  push_cast
  ring

theorem roundF32_nonneg (x : ℚ) (h : 0 ≤ x) : 0 ≤ roundF32 x := by
  unfold roundF32
  have h1 : (0 : ℚ) ≤ x / pow2 (binade x - 23) := div_nonneg h (pow2_pos _).le
  have h2 := roundHalfEven_mono _ _ (show ((0 : Int) : ℚ) ≤ x / pow2 (binade x - 23) by
    simpa using h1)
  rw [roundHalfEven_int] at h2
  exact mul_nonneg (by exact_mod_cast h2) (pow2_pos _).le

theorem roundF32_mono_nonneg (x y : ℚ) (hx : 0 ≤ x) (h : x ≤ y) :
    roundF32 x ≤ roundF32 y := by
  have hy : 0 ≤ y := le_trans hx h
  have hb : binade x ≤ binade y :=
    binade_mono x y (by rw [abs_of_nonneg hx, abs_of_nonneg hy]; exact h)
  rcases lt_or_eq_of_le hb with hlt | heq
  · have hx127 : binade x < 127 := by
      have := binadeLoop_le |y| 253 127
      have hlt' : binadeLoop |x| 253 127 < binadeLoop |y| 253 127 := hlt
      show binadeLoop |x| 253 127 < 127
      omega
    have hy126 : -126 < binade y := by
      have := binadeLoop_ge |x| 253 127
      have hlt' : binadeLoop |x| 253 127 < binadeLoop |y| 253 127 := hlt
      show -126 < binadeLoop |y| 253 127
      push_cast at this
      omega
    have h1 := binade_high x hx127
    have h2 := binade_low y hy126
    rw [abs_of_nonneg hx] at h1
    rw [abs_of_nonneg hy] at h2
    have e1 : pow2 (binade x + 1) = 16777216 * pow2 (binade x - 23) := by
      have : binade x + 1 = 24 + (binade x - 23) := by ring
      rw [this, pow2_add]
      norm_num [pow2]
    have e2 : pow2 (binade y) = 8388608 * pow2 (binade y - 23) := by
      have : binade y = 23 + (binade y - 23) := by ring
      nth_rewrite 1 [this]
      rw [pow2_add]
      norm_num [pow2]
    have a1 : roundF32 x ≤ pow2 (binade x + 1) := by
      unfold roundF32
      rw [e1]
      have hs : x / pow2 (binade x - 23) ≤ ((16777216 : Int) : ℚ) := by
        rw [div_le_iff₀ (pow2_pos _)]
        push_cast
        linarith
      have hr := roundHalfEven_mono _ _ hs
      rw [roundHalfEven_int] at hr
      have hr' : (roundHalfEven (x / pow2 (binade x - 23)) : ℚ) ≤ 16777216 := by
        exact_mod_cast hr
      exact mul_le_mul_of_nonneg_right hr' (pow2_pos _).le
    have a2 : pow2 (binade y) ≤ roundF32 y := by
      unfold roundF32
      rw [e2]
      have hs : ((8388608 : Int) : ℚ) ≤ y / pow2 (binade y - 23) := by
        rw [le_div_iff₀ (pow2_pos _)]
        push_cast
        linarith
      have hr := roundHalfEven_mono _ _ hs
      rw [roundHalfEven_int] at hr
      have hr' : (8388608 : ℚ) ≤ (roundHalfEven (y / pow2 (binade y - 23)) : ℚ) := by
        exact_mod_cast hr
      exact mul_le_mul_of_nonneg_right hr' (pow2_pos _).le
    have a3 : pow2 (binade x + 1) ≤ pow2 (binade y) := pow2_mono (by omega)
    linarith
  · unfold roundF32
    rw [heq]
    have hs : x / pow2 (binade y - 23) ≤ y / pow2 (binade y - 23) :=
      div_le_div_of_nonneg_right h (pow2_pos _).le
    have hr := roundHalfEven_mono _ _ hs
    have hr' : (roundHalfEven (x / pow2 (binade y - 23)) : ℚ) ≤
        (roundHalfEven (y / pow2 (binade y - 23)) : ℚ) := by exact_mod_cast hr
    exact mul_le_mul_of_nonneg_right hr' (pow2_pos _).le

/-- The rounding to binary32 is not decreasing. -/
theorem roundF32_mono (x y : ℚ) (h : x ≤ y) : roundF32 x ≤ roundF32 y := by
  by_cases hx : 0 ≤ x
  · exact roundF32_mono_nonneg x y hx h
  · have hx' : 0 ≤ -x := by linarith
    by_cases hy : 0 ≤ y
    · have h1 := roundF32_nonneg (-x) hx'
      have h2 := roundF32_nonneg y hy
      rw [roundF32_neg] at h1
      linarith
    · have hy' : 0 ≤ -y := by linarith
      have h1 := roundF32_mono_nonneg (-y) (-x) hy' (by linarith)
      rw [roundF32_neg, roundF32_neg] at h1
      linarith

/-- The priority in binary32 does not increase with `|dist_x|`, for a square root that is
not decreasing. -/
theorem GetObjectPriorityF32_mono (m : Libm) (x1 x2 y : ℚ)
    (hm : ∀ a b : ℚ, 0 ≤ a → a ≤ b → m.sqrt a ≤ m.sqrt b) (hx : |x1| ≤ |x2|) :
    GetObjectPriorityF32 m x2 y ≤ GetObjectPriorityF32 m x1 y := by
  unfold GetObjectPriorityF32 subF32 addF32 mulF32
  apply roundF32_mono
  have h1 : x1 * x1 ≤ x2 * x2 := by
    have := sq_le_sq.2 hx
    nlinarith
  have h2 : roundF32 (x1 * x1) ≤ roundF32 (x2 * x2) := roundF32_mono _ _ h1
  have h3 : 0 ≤ roundF32 (x1 * x1) := roundF32_nonneg _ (mul_self_nonneg x1)
  have h4 : 0 ≤ roundF32 (y * y) := roundF32_nonneg _ (mul_self_nonneg y)
  have h5 : roundF32 (roundF32 (x1 * x1) + roundF32 (y * y)) ≤
      roundF32 (roundF32 (x2 * x2) + roundF32 (y * y)) := roundF32_mono _ _ (by linarith)
  have h6 := hm _ _ (roundF32_nonneg _ (add_nonneg h3 h4)) h5
  linarith

/-- C32, amended: for two measurements built by `CreatePrefusedObject` whose plots have the
same `Z[y]` and `|Z1[x]| < |Z2[x]|`, the first priority is greater than or equal to the
second, where the priority is `MAX_PRIORITY - sqrt(Z[x]^2 + Z[y]^2)`, both with exact
operations and with every operation rounded to binary32; the square root of the C library
is not decreasing on the numbers that are not negative. -/
theorem c32_priority_monotonicity (c : Config) (m : Libm) (p1 p2 : PrefusedObject_t)
    (s1 s2 : Sensor_t) (x1 y1 vx1 vy1 x2 y2 vx2 vy2 : ℚ)
    (hm : ∀ a b : ℚ, 0 ≤ a → a ≤ b → m.sqrt a ≤ m.sqrt b)
    (hy : (CreatePrefusedObject c m p1 s1 x1 y1 vx1 vy1).plot.Z.get STATE_Y =
      (CreatePrefusedObject c m p2 s2 x2 y2 vx2 vy2).plot.Z.get STATE_Y)
    (hx : |(CreatePrefusedObject c m p1 s1 x1 y1 vx1 vy1).plot.Z.get STATE_X| <
      |(CreatePrefusedObject c m p2 s2 x2 y2 vx2 vy2).plot.Z.get STATE_X|) :
    (CreatePrefusedObject c m p1 s1 x1 y1 vx1 vy1).priority ≥
      (CreatePrefusedObject c m p2 s2 x2 y2 vx2 vy2).priority ∧
    (CreatePrefusedObject c m p1 s1 x1 y1 vx1 vy1).priority =
      MAX_PRIORITY - m.sqrt
        ((CreatePrefusedObject c m p1 s1 x1 y1 vx1 vy1).plot.Z.get STATE_X *
          (CreatePrefusedObject c m p1 s1 x1 y1 vx1 vy1).plot.Z.get STATE_X +
         (CreatePrefusedObject c m p1 s1 x1 y1 vx1 vy1).plot.Z.get STATE_Y *
          (CreatePrefusedObject c m p1 s1 x1 y1 vx1 vy1).plot.Z.get STATE_Y) ∧
    (CreatePrefusedObject c m p2 s2 x2 y2 vx2 vy2).priority =
      MAX_PRIORITY - m.sqrt
        ((CreatePrefusedObject c m p2 s2 x2 y2 vx2 vy2).plot.Z.get STATE_X *
          (CreatePrefusedObject c m p2 s2 x2 y2 vx2 vy2).plot.Z.get STATE_X +
         (CreatePrefusedObject c m p2 s2 x2 y2 vx2 vy2).plot.Z.get STATE_Y *
          (CreatePrefusedObject c m p2 s2 x2 y2 vx2 vy2).plot.Z.get STATE_Y) ∧
    GetObjectPriorityF32 m ((CreatePrefusedObject c m p1 s1 x1 y1 vx1 vy1).plot.Z.get STATE_X)
        ((CreatePrefusedObject c m p1 s1 x1 y1 vx1 vy1).plot.Z.get STATE_Y) ≥
      GetObjectPriorityF32 m
        ((CreatePrefusedObject c m p2 s2 x2 y2 vx2 vy2).plot.Z.get STATE_X)
        ((CreatePrefusedObject c m p2 s2 x2 y2 vx2 vy2).plot.Z.get STATE_Y) := by
  refine ⟨?_, CreatePrefusedObject_priority c m p1 s1 x1 y1 vx1 vy1,
    CreatePrefusedObject_priority c m p2 s2 x2 y2 vx2 vy2, ?_⟩
  · rw [CreatePrefusedObject_priority c m p1, CreatePrefusedObject_priority c m p2, hy]
    have h2 := sq_lt_sq.2 hx
    have h3 := hm _ _ (add_nonneg (mul_self_nonneg
        ((CreatePrefusedObject c m p1 s1 x1 y1 vx1 vy1).plot.Z.get STATE_X))
      (mul_self_nonneg ((CreatePrefusedObject c m p2 s2 x2 y2 vx2 vy2).plot.Z.get STATE_Y)))
      (show (CreatePrefusedObject c m p1 s1 x1 y1 vx1 vy1).plot.Z.get STATE_X *
          (CreatePrefusedObject c m p1 s1 x1 y1 vx1 vy1).plot.Z.get STATE_X +
          (CreatePrefusedObject c m p2 s2 x2 y2 vx2 vy2).plot.Z.get STATE_Y *
          (CreatePrefusedObject c m p2 s2 x2 y2 vx2 vy2).plot.Z.get STATE_Y ≤
        (CreatePrefusedObject c m p2 s2 x2 y2 vx2 vy2).plot.Z.get STATE_X *
          (CreatePrefusedObject c m p2 s2 x2 y2 vx2 vy2).plot.Z.get STATE_X +
          (CreatePrefusedObject c m p2 s2 x2 y2 vx2 vy2).plot.Z.get STATE_Y *
          (CreatePrefusedObject c m p2 s2 x2 y2 vx2 vy2).plot.Z.get STATE_Y by nlinarith)
    linarith
  · rw [hy]
    exact GetObjectPriorityF32_mono m _ _ _ hm hx.le

theorem exampleRounded_facts :
    (CreatePrefusedObject defaultConfig exampleLibmRounded (zeroPrefusedObject nullSensor)
      (sensorList.get 0).1 4 3 10 0).plot.Z.get STATE_Y =
    (CreatePrefusedObject defaultConfig exampleLibmRounded (zeroPrefusedObject nullSensor)
      (sensorList.get 0).1 (-5) 3 0 0).plot.Z.get STATE_Y ∧
    |(CreatePrefusedObject defaultConfig exampleLibmRounded (zeroPrefusedObject nullSensor)
      (sensorList.get 0).1 4 3 10 0).plot.Z.get STATE_X| <
    |(CreatePrefusedObject defaultConfig exampleLibmRounded (zeroPrefusedObject nullSensor)
      (sensorList.get 0).1 (-5) 3 0 0).plot.Z.get STATE_X| := by
  obtain ⟨_, a2, a3, _⟩ := CreatePrefusedObject_fields defaultConfig
    exampleLibmRounded (zeroPrefusedObject nullSensor) (sensorList.get 0).1 4 3 10 0
  obtain ⟨_, b2, b3, _⟩ := CreatePrefusedObject_fields defaultConfig
    exampleLibmRounded (zeroPrefusedObject nullSensor) (sensorList.get 0).1 (-5) 3 0 0
  have h0 : (sensorList.get 0).1.tf.canX = 0 ∧ (sensorList.get 0).1.tf.canY = 0 := ⟨rfl, rfl⟩
  rw [h0.1, add_zero] at a2 b2
  rw [h0.2, add_zero] at a3 b3
  refine ⟨by rw [a3, b3], ?_⟩
  rw [a2, b2]
  norm_num [abs_of_pos, abs_of_neg]

theorem c32_priority_monotonicity_witness :
    (CreatePrefusedObject defaultConfig exampleLibmRounded (zeroPrefusedObject nullSensor)
      (sensorList.get 0).1 4 3 10 0).priority ≥
    (CreatePrefusedObject defaultConfig exampleLibmRounded (zeroPrefusedObject nullSensor)
      (sensorList.get 0).1 (-5) 3 0 0).priority :=
  (c32_priority_monotonicity defaultConfig exampleLibmRounded (zeroPrefusedObject nullSensor)
    (zeroPrefusedObject nullSensor) (sensorList.get 0).1 (sensorList.get 0).1 4 3 10 0 (-5) 3
    0 0 exampleLibmRounded_mono exampleRounded_facts.1 exampleRounded_facts.2).1

end RadarFusion
